import Mathlib

/-!
# Verification of the crypto repository's AES-128 core

A shallow embedding of the Go sources: the `aes` package (`cipherAES`,
`encrypt`, `decrypt`, the round transforms, and `keyExpansion` with its final
per-group `transpose`) and the `matasano` package (its duplicated round
transforms, its own `addRoundKey` that transposes the round key on the fly,
its `keyExpansion` without the transpose, and the ECB/CBC mode-detection
oracle).

Go machine integers (`uint32`, `byte`) are modelled as `Nat`, with an explicit
`% 2 ^ 32` exactly where Go's 32-bit wrap-around can matter (the shifts in the
word-rotation helpers and in Go's `^mask` complement).  Go slices become
`List Nat` and in-place element updates become functional updates
(`List.set`).  Go run-time panics (out-of-range indexing or slicing) are
modelled with `Option`.

The two packages contain several textually identical function definitions
(`subWord`, `rotWordLeft`, the column transforms, the key-schedule core);
those are embedded once and shared.  The functions that genuinely differ
between the packages (`addRoundKey`, `keyExpansion`, and hence `encrypt` /
`decrypt`, which call `addRoundKey`) live in the `AES` and `Matasano`
namespaces respectively.
-/

set_option maxRecDepth 8192

/-!
## Field tables

The repository's table file is not under `src/` (only its users are), so the
tables are modelled from the spec ("Field Tables", section 4.1): the forward
AES substitution box (multiplicative inverse in GF(2^8) followed by the
affine transform), its inverse, the power-of-x table used for round
constants, and the multiplication-by-{2,3,9,11,13,14} tables over GF(2^8)
with the AES reduction polynomial x^8+x^4+x^3+x+1.  These are the standard
AES-128 constant tables.
-/

def sbox0 : List Nat := [
  0x63, 0x7c, 0x77, 0x7b, 0xf2, 0x6b, 0x6f, 0xc5, 0x30, 0x01, 0x67, 0x2b,
  0xfe, 0xd7, 0xab, 0x76, 0xca, 0x82, 0xc9, 0x7d, 0xfa, 0x59, 0x47, 0xf0,
  0xad, 0xd4, 0xa2, 0xaf, 0x9c, 0xa4, 0x72, 0xc0, 0xb7, 0xfd, 0x93, 0x26,
  0x36, 0x3f, 0xf7, 0xcc, 0x34, 0xa5, 0xe5, 0xf1, 0x71, 0xd8, 0x31, 0x15,
  0x04, 0xc7, 0x23, 0xc3, 0x18, 0x96, 0x05, 0x9a, 0x07, 0x12, 0x80, 0xe2,
  0xeb, 0x27, 0xb2, 0x75, 0x09, 0x83, 0x2c, 0x1a, 0x1b, 0x6e, 0x5a, 0xa0,
  0x52, 0x3b, 0xd6, 0xb3, 0x29, 0xe3, 0x2f, 0x84, 0x53, 0xd1, 0x00, 0xed,
  0x20, 0xfc, 0xb1, 0x5b, 0x6a, 0xcb, 0xbe, 0x39, 0x4a, 0x4c, 0x58, 0xcf,
  0xd0, 0xef, 0xaa, 0xfb, 0x43, 0x4d, 0x33, 0x85, 0x45, 0xf9, 0x02, 0x7f,
  0x50, 0x3c, 0x9f, 0xa8, 0x51, 0xa3, 0x40, 0x8f, 0x92, 0x9d, 0x38, 0xf5,
  0xbc, 0xb6, 0xda, 0x21, 0x10, 0xff, 0xf3, 0xd2, 0xcd, 0x0c, 0x13, 0xec,
  0x5f, 0x97, 0x44, 0x17, 0xc4, 0xa7, 0x7e, 0x3d, 0x64, 0x5d, 0x19, 0x73,
  0x60, 0x81, 0x4f, 0xdc, 0x22, 0x2a, 0x90, 0x88, 0x46, 0xee, 0xb8, 0x14,
  0xde, 0x5e, 0x0b, 0xdb, 0xe0, 0x32, 0x3a, 0x0a, 0x49, 0x06, 0x24, 0x5c,
  0xc2, 0xd3, 0xac, 0x62, 0x91, 0x95, 0xe4, 0x79, 0xe7, 0xc8, 0x37, 0x6d,
  0x8d, 0xd5, 0x4e, 0xa9, 0x6c, 0x56, 0xf4, 0xea, 0x65, 0x7a, 0xae, 0x08,
  0xba, 0x78, 0x25, 0x2e, 0x1c, 0xa6, 0xb4, 0xc6, 0xe8, 0xdd, 0x74, 0x1f,
  0x4b, 0xbd, 0x8b, 0x8a, 0x70, 0x3e, 0xb5, 0x66, 0x48, 0x03, 0xf6, 0x0e,
  0x61, 0x35, 0x57, 0xb9, 0x86, 0xc1, 0x1d, 0x9e, 0xe1, 0xf8, 0x98, 0x11,
  0x69, 0xd9, 0x8e, 0x94, 0x9b, 0x1e, 0x87, 0xe9, 0xce, 0x55, 0x28, 0xdf,
  0x8c, 0xa1, 0x89, 0x0d, 0xbf, 0xe6, 0x42, 0x68, 0x41, 0x99, 0x2d, 0x0f,
  0xb0, 0x54, 0xbb, 0x16]

def sbox1 : List Nat := [
  0x52, 0x09, 0x6a, 0xd5, 0x30, 0x36, 0xa5, 0x38, 0xbf, 0x40, 0xa3, 0x9e,
  0x81, 0xf3, 0xd7, 0xfb, 0x7c, 0xe3, 0x39, 0x82, 0x9b, 0x2f, 0xff, 0x87,
  0x34, 0x8e, 0x43, 0x44, 0xc4, 0xde, 0xe9, 0xcb, 0x54, 0x7b, 0x94, 0x32,
  0xa6, 0xc2, 0x23, 0x3d, 0xee, 0x4c, 0x95, 0x0b, 0x42, 0xfa, 0xc3, 0x4e,
  0x08, 0x2e, 0xa1, 0x66, 0x28, 0xd9, 0x24, 0xb2, 0x76, 0x5b, 0xa2, 0x49,
  0x6d, 0x8b, 0xd1, 0x25, 0x72, 0xf8, 0xf6, 0x64, 0x86, 0x68, 0x98, 0x16,
  0xd4, 0xa4, 0x5c, 0xcc, 0x5d, 0x65, 0xb6, 0x92, 0x6c, 0x70, 0x48, 0x50,
  0xfd, 0xed, 0xb9, 0xda, 0x5e, 0x15, 0x46, 0x57, 0xa7, 0x8d, 0x9d, 0x84,
  0x90, 0xd8, 0xab, 0x00, 0x8c, 0xbc, 0xd3, 0x0a, 0xf7, 0xe4, 0x58, 0x05,
  0xb8, 0xb3, 0x45, 0x06, 0xd0, 0x2c, 0x1e, 0x8f, 0xca, 0x3f, 0x0f, 0x02,
  0xc1, 0xaf, 0xbd, 0x03, 0x01, 0x13, 0x8a, 0x6b, 0x3a, 0x91, 0x11, 0x41,
  0x4f, 0x67, 0xdc, 0xea, 0x97, 0xf2, 0xcf, 0xce, 0xf0, 0xb4, 0xe6, 0x73,
  0x96, 0xac, 0x74, 0x22, 0xe7, 0xad, 0x35, 0x85, 0xe2, 0xf9, 0x37, 0xe8,
  0x1c, 0x75, 0xdf, 0x6e, 0x47, 0xf1, 0x1a, 0x71, 0x1d, 0x29, 0xc5, 0x89,
  0x6f, 0xb7, 0x62, 0x0e, 0xaa, 0x18, 0xbe, 0x1b, 0xfc, 0x56, 0x3e, 0x4b,
  0xc6, 0xd2, 0x79, 0x20, 0x9a, 0xdb, 0xc0, 0xfe, 0x78, 0xcd, 0x5a, 0xf4,
  0x1f, 0xdd, 0xa8, 0x33, 0x88, 0x07, 0xc7, 0x31, 0xb1, 0x12, 0x10, 0x59,
  0x27, 0x80, 0xec, 0x5f, 0x60, 0x51, 0x7f, 0xa9, 0x19, 0xb5, 0x4a, 0x0d,
  0x2d, 0xe5, 0x7a, 0x9f, 0x93, 0xc9, 0x9c, 0xef, 0xa0, 0xe0, 0x3b, 0x4d,
  0xae, 0x2a, 0xf5, 0xb0, 0xc8, 0xeb, 0xbb, 0x3c, 0x83, 0x53, 0x99, 0x61,
  0x17, 0x2b, 0x04, 0x7e, 0xba, 0x77, 0xd6, 0x26, 0xe1, 0x69, 0x14, 0x63,
  0x55, 0x21, 0x0c, 0x7d]

def powx : List Nat := [
  0x01, 0x02, 0x04, 0x08, 0x10, 0x20, 0x40, 0x80, 0x1b, 0x36]

def gMulBy2 : List Nat := [
  0x00, 0x02, 0x04, 0x06, 0x08, 0x0a, 0x0c, 0x0e, 0x10, 0x12, 0x14, 0x16,
  0x18, 0x1a, 0x1c, 0x1e, 0x20, 0x22, 0x24, 0x26, 0x28, 0x2a, 0x2c, 0x2e,
  0x30, 0x32, 0x34, 0x36, 0x38, 0x3a, 0x3c, 0x3e, 0x40, 0x42, 0x44, 0x46,
  0x48, 0x4a, 0x4c, 0x4e, 0x50, 0x52, 0x54, 0x56, 0x58, 0x5a, 0x5c, 0x5e,
  0x60, 0x62, 0x64, 0x66, 0x68, 0x6a, 0x6c, 0x6e, 0x70, 0x72, 0x74, 0x76,
  0x78, 0x7a, 0x7c, 0x7e, 0x80, 0x82, 0x84, 0x86, 0x88, 0x8a, 0x8c, 0x8e,
  0x90, 0x92, 0x94, 0x96, 0x98, 0x9a, 0x9c, 0x9e, 0xa0, 0xa2, 0xa4, 0xa6,
  0xa8, 0xaa, 0xac, 0xae, 0xb0, 0xb2, 0xb4, 0xb6, 0xb8, 0xba, 0xbc, 0xbe,
  0xc0, 0xc2, 0xc4, 0xc6, 0xc8, 0xca, 0xcc, 0xce, 0xd0, 0xd2, 0xd4, 0xd6,
  0xd8, 0xda, 0xdc, 0xde, 0xe0, 0xe2, 0xe4, 0xe6, 0xe8, 0xea, 0xec, 0xee,
  0xf0, 0xf2, 0xf4, 0xf6, 0xf8, 0xfa, 0xfc, 0xfe, 0x1b, 0x19, 0x1f, 0x1d,
  0x13, 0x11, 0x17, 0x15, 0x0b, 0x09, 0x0f, 0x0d, 0x03, 0x01, 0x07, 0x05,
  0x3b, 0x39, 0x3f, 0x3d, 0x33, 0x31, 0x37, 0x35, 0x2b, 0x29, 0x2f, 0x2d,
  0x23, 0x21, 0x27, 0x25, 0x5b, 0x59, 0x5f, 0x5d, 0x53, 0x51, 0x57, 0x55,
  0x4b, 0x49, 0x4f, 0x4d, 0x43, 0x41, 0x47, 0x45, 0x7b, 0x79, 0x7f, 0x7d,
  0x73, 0x71, 0x77, 0x75, 0x6b, 0x69, 0x6f, 0x6d, 0x63, 0x61, 0x67, 0x65,
  0x9b, 0x99, 0x9f, 0x9d, 0x93, 0x91, 0x97, 0x95, 0x8b, 0x89, 0x8f, 0x8d,
  0x83, 0x81, 0x87, 0x85, 0xbb, 0xb9, 0xbf, 0xbd, 0xb3, 0xb1, 0xb7, 0xb5,
  0xab, 0xa9, 0xaf, 0xad, 0xa3, 0xa1, 0xa7, 0xa5, 0xdb, 0xd9, 0xdf, 0xdd,
  0xd3, 0xd1, 0xd7, 0xd5, 0xcb, 0xc9, 0xcf, 0xcd, 0xc3, 0xc1, 0xc7, 0xc5,
  0xfb, 0xf9, 0xff, 0xfd, 0xf3, 0xf1, 0xf7, 0xf5, 0xeb, 0xe9, 0xef, 0xed,
  0xe3, 0xe1, 0xe7, 0xe5]

def gMulBy3 : List Nat := [
  0x00, 0x03, 0x06, 0x05, 0x0c, 0x0f, 0x0a, 0x09, 0x18, 0x1b, 0x1e, 0x1d,
  0x14, 0x17, 0x12, 0x11, 0x30, 0x33, 0x36, 0x35, 0x3c, 0x3f, 0x3a, 0x39,
  0x28, 0x2b, 0x2e, 0x2d, 0x24, 0x27, 0x22, 0x21, 0x60, 0x63, 0x66, 0x65,
  0x6c, 0x6f, 0x6a, 0x69, 0x78, 0x7b, 0x7e, 0x7d, 0x74, 0x77, 0x72, 0x71,
  0x50, 0x53, 0x56, 0x55, 0x5c, 0x5f, 0x5a, 0x59, 0x48, 0x4b, 0x4e, 0x4d,
  0x44, 0x47, 0x42, 0x41, 0xc0, 0xc3, 0xc6, 0xc5, 0xcc, 0xcf, 0xca, 0xc9,
  0xd8, 0xdb, 0xde, 0xdd, 0xd4, 0xd7, 0xd2, 0xd1, 0xf0, 0xf3, 0xf6, 0xf5,
  0xfc, 0xff, 0xfa, 0xf9, 0xe8, 0xeb, 0xee, 0xed, 0xe4, 0xe7, 0xe2, 0xe1,
  0xa0, 0xa3, 0xa6, 0xa5, 0xac, 0xaf, 0xaa, 0xa9, 0xb8, 0xbb, 0xbe, 0xbd,
  0xb4, 0xb7, 0xb2, 0xb1, 0x90, 0x93, 0x96, 0x95, 0x9c, 0x9f, 0x9a, 0x99,
  0x88, 0x8b, 0x8e, 0x8d, 0x84, 0x87, 0x82, 0x81, 0x9b, 0x98, 0x9d, 0x9e,
  0x97, 0x94, 0x91, 0x92, 0x83, 0x80, 0x85, 0x86, 0x8f, 0x8c, 0x89, 0x8a,
  0xab, 0xa8, 0xad, 0xae, 0xa7, 0xa4, 0xa1, 0xa2, 0xb3, 0xb0, 0xb5, 0xb6,
  0xbf, 0xbc, 0xb9, 0xba, 0xfb, 0xf8, 0xfd, 0xfe, 0xf7, 0xf4, 0xf1, 0xf2,
  0xe3, 0xe0, 0xe5, 0xe6, 0xef, 0xec, 0xe9, 0xea, 0xcb, 0xc8, 0xcd, 0xce,
  0xc7, 0xc4, 0xc1, 0xc2, 0xd3, 0xd0, 0xd5, 0xd6, 0xdf, 0xdc, 0xd9, 0xda,
  0x5b, 0x58, 0x5d, 0x5e, 0x57, 0x54, 0x51, 0x52, 0x43, 0x40, 0x45, 0x46,
  0x4f, 0x4c, 0x49, 0x4a, 0x6b, 0x68, 0x6d, 0x6e, 0x67, 0x64, 0x61, 0x62,
  0x73, 0x70, 0x75, 0x76, 0x7f, 0x7c, 0x79, 0x7a, 0x3b, 0x38, 0x3d, 0x3e,
  0x37, 0x34, 0x31, 0x32, 0x23, 0x20, 0x25, 0x26, 0x2f, 0x2c, 0x29, 0x2a,
  0x0b, 0x08, 0x0d, 0x0e, 0x07, 0x04, 0x01, 0x02, 0x13, 0x10, 0x15, 0x16,
  0x1f, 0x1c, 0x19, 0x1a]

def gMulBy9 : List Nat := [
  0x00, 0x09, 0x12, 0x1b, 0x24, 0x2d, 0x36, 0x3f, 0x48, 0x41, 0x5a, 0x53,
  0x6c, 0x65, 0x7e, 0x77, 0x90, 0x99, 0x82, 0x8b, 0xb4, 0xbd, 0xa6, 0xaf,
  0xd8, 0xd1, 0xca, 0xc3, 0xfc, 0xf5, 0xee, 0xe7, 0x3b, 0x32, 0x29, 0x20,
  0x1f, 0x16, 0x0d, 0x04, 0x73, 0x7a, 0x61, 0x68, 0x57, 0x5e, 0x45, 0x4c,
  0xab, 0xa2, 0xb9, 0xb0, 0x8f, 0x86, 0x9d, 0x94, 0xe3, 0xea, 0xf1, 0xf8,
  0xc7, 0xce, 0xd5, 0xdc, 0x76, 0x7f, 0x64, 0x6d, 0x52, 0x5b, 0x40, 0x49,
  0x3e, 0x37, 0x2c, 0x25, 0x1a, 0x13, 0x08, 0x01, 0xe6, 0xef, 0xf4, 0xfd,
  0xc2, 0xcb, 0xd0, 0xd9, 0xae, 0xa7, 0xbc, 0xb5, 0x8a, 0x83, 0x98, 0x91,
  0x4d, 0x44, 0x5f, 0x56, 0x69, 0x60, 0x7b, 0x72, 0x05, 0x0c, 0x17, 0x1e,
  0x21, 0x28, 0x33, 0x3a, 0xdd, 0xd4, 0xcf, 0xc6, 0xf9, 0xf0, 0xeb, 0xe2,
  0x95, 0x9c, 0x87, 0x8e, 0xb1, 0xb8, 0xa3, 0xaa, 0xec, 0xe5, 0xfe, 0xf7,
  0xc8, 0xc1, 0xda, 0xd3, 0xa4, 0xad, 0xb6, 0xbf, 0x80, 0x89, 0x92, 0x9b,
  0x7c, 0x75, 0x6e, 0x67, 0x58, 0x51, 0x4a, 0x43, 0x34, 0x3d, 0x26, 0x2f,
  0x10, 0x19, 0x02, 0x0b, 0xd7, 0xde, 0xc5, 0xcc, 0xf3, 0xfa, 0xe1, 0xe8,
  0x9f, 0x96, 0x8d, 0x84, 0xbb, 0xb2, 0xa9, 0xa0, 0x47, 0x4e, 0x55, 0x5c,
  0x63, 0x6a, 0x71, 0x78, 0x0f, 0x06, 0x1d, 0x14, 0x2b, 0x22, 0x39, 0x30,
  0x9a, 0x93, 0x88, 0x81, 0xbe, 0xb7, 0xac, 0xa5, 0xd2, 0xdb, 0xc0, 0xc9,
  0xf6, 0xff, 0xe4, 0xed, 0x0a, 0x03, 0x18, 0x11, 0x2e, 0x27, 0x3c, 0x35,
  0x42, 0x4b, 0x50, 0x59, 0x66, 0x6f, 0x74, 0x7d, 0xa1, 0xa8, 0xb3, 0xba,
  0x85, 0x8c, 0x97, 0x9e, 0xe9, 0xe0, 0xfb, 0xf2, 0xcd, 0xc4, 0xdf, 0xd6,
  0x31, 0x38, 0x23, 0x2a, 0x15, 0x1c, 0x07, 0x0e, 0x79, 0x70, 0x6b, 0x62,
  0x5d, 0x54, 0x4f, 0x46]

def gMulBy11 : List Nat := [
  0x00, 0x0b, 0x16, 0x1d, 0x2c, 0x27, 0x3a, 0x31, 0x58, 0x53, 0x4e, 0x45,
  0x74, 0x7f, 0x62, 0x69, 0xb0, 0xbb, 0xa6, 0xad, 0x9c, 0x97, 0x8a, 0x81,
  0xe8, 0xe3, 0xfe, 0xf5, 0xc4, 0xcf, 0xd2, 0xd9, 0x7b, 0x70, 0x6d, 0x66,
  0x57, 0x5c, 0x41, 0x4a, 0x23, 0x28, 0x35, 0x3e, 0x0f, 0x04, 0x19, 0x12,
  0xcb, 0xc0, 0xdd, 0xd6, 0xe7, 0xec, 0xf1, 0xfa, 0x93, 0x98, 0x85, 0x8e,
  0xbf, 0xb4, 0xa9, 0xa2, 0xf6, 0xfd, 0xe0, 0xeb, 0xda, 0xd1, 0xcc, 0xc7,
  0xae, 0xa5, 0xb8, 0xb3, 0x82, 0x89, 0x94, 0x9f, 0x46, 0x4d, 0x50, 0x5b,
  0x6a, 0x61, 0x7c, 0x77, 0x1e, 0x15, 0x08, 0x03, 0x32, 0x39, 0x24, 0x2f,
  0x8d, 0x86, 0x9b, 0x90, 0xa1, 0xaa, 0xb7, 0xbc, 0xd5, 0xde, 0xc3, 0xc8,
  0xf9, 0xf2, 0xef, 0xe4, 0x3d, 0x36, 0x2b, 0x20, 0x11, 0x1a, 0x07, 0x0c,
  0x65, 0x6e, 0x73, 0x78, 0x49, 0x42, 0x5f, 0x54, 0xf7, 0xfc, 0xe1, 0xea,
  0xdb, 0xd0, 0xcd, 0xc6, 0xaf, 0xa4, 0xb9, 0xb2, 0x83, 0x88, 0x95, 0x9e,
  0x47, 0x4c, 0x51, 0x5a, 0x6b, 0x60, 0x7d, 0x76, 0x1f, 0x14, 0x09, 0x02,
  0x33, 0x38, 0x25, 0x2e, 0x8c, 0x87, 0x9a, 0x91, 0xa0, 0xab, 0xb6, 0xbd,
  0xd4, 0xdf, 0xc2, 0xc9, 0xf8, 0xf3, 0xee, 0xe5, 0x3c, 0x37, 0x2a, 0x21,
  0x10, 0x1b, 0x06, 0x0d, 0x64, 0x6f, 0x72, 0x79, 0x48, 0x43, 0x5e, 0x55,
  0x01, 0x0a, 0x17, 0x1c, 0x2d, 0x26, 0x3b, 0x30, 0x59, 0x52, 0x4f, 0x44,
  0x75, 0x7e, 0x63, 0x68, 0xb1, 0xba, 0xa7, 0xac, 0x9d, 0x96, 0x8b, 0x80,
  0xe9, 0xe2, 0xff, 0xf4, 0xc5, 0xce, 0xd3, 0xd8, 0x7a, 0x71, 0x6c, 0x67,
  0x56, 0x5d, 0x40, 0x4b, 0x22, 0x29, 0x34, 0x3f, 0x0e, 0x05, 0x18, 0x13,
  0xca, 0xc1, 0xdc, 0xd7, 0xe6, 0xed, 0xf0, 0xfb, 0x92, 0x99, 0x84, 0x8f,
  0xbe, 0xb5, 0xa8, 0xa3]

def gMulBy13 : List Nat := [
  0x00, 0x0d, 0x1a, 0x17, 0x34, 0x39, 0x2e, 0x23, 0x68, 0x65, 0x72, 0x7f,
  0x5c, 0x51, 0x46, 0x4b, 0xd0, 0xdd, 0xca, 0xc7, 0xe4, 0xe9, 0xfe, 0xf3,
  0xb8, 0xb5, 0xa2, 0xaf, 0x8c, 0x81, 0x96, 0x9b, 0xbb, 0xb6, 0xa1, 0xac,
  0x8f, 0x82, 0x95, 0x98, 0xd3, 0xde, 0xc9, 0xc4, 0xe7, 0xea, 0xfd, 0xf0,
  0x6b, 0x66, 0x71, 0x7c, 0x5f, 0x52, 0x45, 0x48, 0x03, 0x0e, 0x19, 0x14,
  0x37, 0x3a, 0x2d, 0x20, 0x6d, 0x60, 0x77, 0x7a, 0x59, 0x54, 0x43, 0x4e,
  0x05, 0x08, 0x1f, 0x12, 0x31, 0x3c, 0x2b, 0x26, 0xbd, 0xb0, 0xa7, 0xaa,
  0x89, 0x84, 0x93, 0x9e, 0xd5, 0xd8, 0xcf, 0xc2, 0xe1, 0xec, 0xfb, 0xf6,
  0xd6, 0xdb, 0xcc, 0xc1, 0xe2, 0xef, 0xf8, 0xf5, 0xbe, 0xb3, 0xa4, 0xa9,
  0x8a, 0x87, 0x90, 0x9d, 0x06, 0x0b, 0x1c, 0x11, 0x32, 0x3f, 0x28, 0x25,
  0x6e, 0x63, 0x74, 0x79, 0x5a, 0x57, 0x40, 0x4d, 0xda, 0xd7, 0xc0, 0xcd,
  0xee, 0xe3, 0xf4, 0xf9, 0xb2, 0xbf, 0xa8, 0xa5, 0x86, 0x8b, 0x9c, 0x91,
  0x0a, 0x07, 0x10, 0x1d, 0x3e, 0x33, 0x24, 0x29, 0x62, 0x6f, 0x78, 0x75,
  0x56, 0x5b, 0x4c, 0x41, 0x61, 0x6c, 0x7b, 0x76, 0x55, 0x58, 0x4f, 0x42,
  0x09, 0x04, 0x13, 0x1e, 0x3d, 0x30, 0x27, 0x2a, 0xb1, 0xbc, 0xab, 0xa6,
  0x85, 0x88, 0x9f, 0x92, 0xd9, 0xd4, 0xc3, 0xce, 0xed, 0xe0, 0xf7, 0xfa,
  0xb7, 0xba, 0xad, 0xa0, 0x83, 0x8e, 0x99, 0x94, 0xdf, 0xd2, 0xc5, 0xc8,
  0xeb, 0xe6, 0xf1, 0xfc, 0x67, 0x6a, 0x7d, 0x70, 0x53, 0x5e, 0x49, 0x44,
  0x0f, 0x02, 0x15, 0x18, 0x3b, 0x36, 0x21, 0x2c, 0x0c, 0x01, 0x16, 0x1b,
  0x38, 0x35, 0x22, 0x2f, 0x64, 0x69, 0x7e, 0x73, 0x50, 0x5d, 0x4a, 0x47,
  0xdc, 0xd1, 0xc6, 0xcb, 0xe8, 0xe5, 0xf2, 0xff, 0xb4, 0xb9, 0xae, 0xa3,
  0x80, 0x8d, 0x9a, 0x97]

def gMulBy14 : List Nat := [
  0x00, 0x0e, 0x1c, 0x12, 0x38, 0x36, 0x24, 0x2a, 0x70, 0x7e, 0x6c, 0x62,
  0x48, 0x46, 0x54, 0x5a, 0xe0, 0xee, 0xfc, 0xf2, 0xd8, 0xd6, 0xc4, 0xca,
  0x90, 0x9e, 0x8c, 0x82, 0xa8, 0xa6, 0xb4, 0xba, 0xdb, 0xd5, 0xc7, 0xc9,
  0xe3, 0xed, 0xff, 0xf1, 0xab, 0xa5, 0xb7, 0xb9, 0x93, 0x9d, 0x8f, 0x81,
  0x3b, 0x35, 0x27, 0x29, 0x03, 0x0d, 0x1f, 0x11, 0x4b, 0x45, 0x57, 0x59,
  0x73, 0x7d, 0x6f, 0x61, 0xad, 0xa3, 0xb1, 0xbf, 0x95, 0x9b, 0x89, 0x87,
  0xdd, 0xd3, 0xc1, 0xcf, 0xe5, 0xeb, 0xf9, 0xf7, 0x4d, 0x43, 0x51, 0x5f,
  0x75, 0x7b, 0x69, 0x67, 0x3d, 0x33, 0x21, 0x2f, 0x05, 0x0b, 0x19, 0x17,
  0x76, 0x78, 0x6a, 0x64, 0x4e, 0x40, 0x52, 0x5c, 0x06, 0x08, 0x1a, 0x14,
  0x3e, 0x30, 0x22, 0x2c, 0x96, 0x98, 0x8a, 0x84, 0xae, 0xa0, 0xb2, 0xbc,
  0xe6, 0xe8, 0xfa, 0xf4, 0xde, 0xd0, 0xc2, 0xcc, 0x41, 0x4f, 0x5d, 0x53,
  0x79, 0x77, 0x65, 0x6b, 0x31, 0x3f, 0x2d, 0x23, 0x09, 0x07, 0x15, 0x1b,
  0xa1, 0xaf, 0xbd, 0xb3, 0x99, 0x97, 0x85, 0x8b, 0xd1, 0xdf, 0xcd, 0xc3,
  0xe9, 0xe7, 0xf5, 0xfb, 0x9a, 0x94, 0x86, 0x88, 0xa2, 0xac, 0xbe, 0xb0,
  0xea, 0xe4, 0xf6, 0xf8, 0xd2, 0xdc, 0xce, 0xc0, 0x7a, 0x74, 0x66, 0x68,
  0x42, 0x4c, 0x5e, 0x50, 0x0a, 0x04, 0x16, 0x18, 0x32, 0x3c, 0x2e, 0x20,
  0xec, 0xe2, 0xf0, 0xfe, 0xd4, 0xda, 0xc8, 0xc6, 0x9c, 0x92, 0x80, 0x8e,
  0xa4, 0xaa, 0xb8, 0xb6, 0x0c, 0x02, 0x10, 0x1e, 0x34, 0x3a, 0x28, 0x26,
  0x7c, 0x72, 0x60, 0x6e, 0x44, 0x4a, 0x58, 0x56, 0x37, 0x39, 0x2b, 0x25,
  0x0f, 0x01, 0x13, 0x1d, 0x47, 0x49, 0x5b, 0x55, 0x7f, 0x71, 0x63, 0x6d,
  0xd7, 0xd9, 0xcb, 0xc5, 0xef, 0xe1, 0xf3, 0xfd, 0xa7, 0xa9, 0xbb, 0xb5,
  0x9f, 0x91, 0x83, 0x8d]

/-- Go array indexing `t[i]`.  Every index used by the sources is a byte
value, in range for the 256-entry tables, so the default is never reached. -/
def tbl (t : List Nat) (i : Nat) : Nat := t.getD i 0

/-- `rotWordLeft` rotates the word `n` bytes to the left
(Go: `input>>(32-8*n) | input<<(8*n)` on `uint32`). -/
def rotWordLeft (input : Nat) (n : Nat) : Nat :=
  input >>> (32 - 8 * n) ||| (input <<< (8 * n)) % 2 ^ 32

/-- `rotWordRight` rotates the word `n` bytes to the right
(Go: `input<<(32-8*n) | input>>(8*n)` on `uint32`). -/
def rotWordRight (input : Nat) (n : Nat) : Nat :=
  (input <<< (32 - 8 * n)) % 2 ^ 32 ||| input >>> (8 * n)

/-- `subWord` applies the forward S-box to each byte of a word. -/
def subWord (input : Nat) : Nat :=
  tbl sbox0 (input >>> 24) <<< 24 |||
    tbl sbox0 (input >>> 16 &&& 0xff) <<< 16 |||
    tbl sbox0 (input >>> 8 &&& 0xff) <<< 8 |||
    tbl sbox0 (input &&& 0xff)

/-- `invSubWord` applies the inverse S-box to each byte of a word. -/
def invSubWord (input : Nat) : Nat :=
  tbl sbox1 (input >>> 24) <<< 24 |||
    tbl sbox1 (input >>> 16 &&& 0xff) <<< 16 |||
    tbl sbox1 (input >>> 8 &&& 0xff) <<< 8 |||
    tbl sbox1 (input &&& 0xff)

/-- `rcon` places `powx[i]` in the most significant byte of a word. -/
def rcon (i : Nat) : Nat := tbl powx i <<< 24

/-- `transpose` of a 4-word group, with the `for i` loop over the four input
words unrolled (Go builds `c0..c3` with `|=`). -/
def transpose (input : List Nat) : List Nat :=
  [(input.getD 0 0 >>> 24) <<< 24 ||| (input.getD 1 0 >>> 24) <<< 16 |||
     (input.getD 2 0 >>> 24) <<< 8 ||| (input.getD 3 0 >>> 24) <<< 0,
   (input.getD 0 0 >>> 16 &&& 0xff) <<< 24 ||| (input.getD 1 0 >>> 16 &&& 0xff) <<< 16 |||
     (input.getD 2 0 >>> 16 &&& 0xff) <<< 8 ||| (input.getD 3 0 >>> 16 &&& 0xff) <<< 0,
   (input.getD 0 0 >>> 8 &&& 0xff) <<< 24 ||| (input.getD 1 0 >>> 8 &&& 0xff) <<< 16 |||
     (input.getD 2 0 >>> 8 &&& 0xff) <<< 8 ||| (input.getD 3 0 >>> 8 &&& 0xff) <<< 0,
   (input.getD 0 0 &&& 0xff) <<< 24 ||| (input.getD 1 0 &&& 0xff) <<< 16 |||
     (input.getD 2 0 &&& 0xff) <<< 8 ||| (input.getD 3 0 &&& 0xff) <<< 0]

/-- The key-expansion epilogue of the `aes` package: transpose each group of
four words in place (Go: `for j := 0; j < len(expkeys); j += 4`). -/
def transposeGroups : List Nat → List Nat
  | a :: b :: c :: d :: rest => transpose [a, b, c, d] ++ transposeGroups rest
  | ws => ws

/-- `shiftRows` rotates word `i` of the state left by `i` bytes, `i = 1..3`. -/
def shiftRows (state : List Nat) : List Nat :=
  let s1 := state.set 1 (rotWordLeft (state.getD 1 0) 1)
  let s2 := s1.set 2 (rotWordLeft (s1.getD 2 0) 2)
  s2.set 3 (rotWordLeft (s2.getD 3 0) 3)

/-- `invShiftRows` rotates word `i` of the state right by `i` bytes, `i = 1..3`. -/
def invShiftRows (state : List Nat) : List Nat :=
  let s1 := state.set 1 (rotWordRight (state.getD 1 0) 1)
  let s2 := s1.set 2 (rotWordRight (s1.getD 2 0) 2)
  s2.set 3 (rotWordRight (s2.getD 3 0) 3)

/-- `subBytes` applies `subWord` to every state word. -/
def subBytes (state : List Nat) : List Nat := state.map subWord

/-- `invSubBytes` applies `invSubWord` to every state word. -/
def invSubBytes (state : List Nat) : List Nat := state.map invSubWord

/-- The column transform of `mixColumns` (the `calcMixCols` closure). -/
def calcMixCols (a0 a1 a2 a3 : Nat) : Nat × Nat × Nat × Nat :=
  (tbl gMulBy2 a0 ^^^ tbl gMulBy3 a1 ^^^ a2 ^^^ a3,
   a0 ^^^ tbl gMulBy2 a1 ^^^ tbl gMulBy3 a2 ^^^ a3,
   a0 ^^^ a1 ^^^ tbl gMulBy2 a2 ^^^ tbl gMulBy3 a3,
   tbl gMulBy3 a0 ^^^ a1 ^^^ a2 ^^^ tbl gMulBy2 a3)

/-- The column transform of `invMixColumns` (the `calcInvMixCols` closure). -/
def calcInvMixCols (a0 a1 a2 a3 : Nat) : Nat × Nat × Nat × Nat :=
  (tbl gMulBy14 a0 ^^^ tbl gMulBy11 a1 ^^^ tbl gMulBy13 a2 ^^^ tbl gMulBy9 a3,
   tbl gMulBy9 a0 ^^^ tbl gMulBy14 a1 ^^^ tbl gMulBy11 a2 ^^^ tbl gMulBy13 a3,
   tbl gMulBy13 a0 ^^^ tbl gMulBy9 a1 ^^^ tbl gMulBy14 a2 ^^^ tbl gMulBy11 a3,
   tbl gMulBy11 a0 ^^^ tbl gMulBy13 a1 ^^^ tbl gMulBy9 a2 ^^^ tbl gMulBy14 a3)

/-- One iteration (column `i`) of `manipulateColumns`: read the column's four
bytes, transform them, clear the column with Go's `^mask` complement
(`mask ^ 0xffffffff` on `uint32`) and write the result back. -/
def manipCol (calcf : Nat → Nat → Nat → Nat → Nat × Nat × Nat × Nat) (i : Nat)
    (state : List Nat) : List Nat :=
  let sh := (3 - i) * 8
  let a0 := state.getD 0 0 >>> sh &&& 0xff
  let a1 := state.getD 1 0 >>> sh &&& 0xff
  let a2 := state.getD 2 0 >>> sh &&& 0xff
  let a3 := state.getD 3 0 >>> sh &&& 0xff
  let r := calcf a0 a1 a2 a3
  let mask := (0xff <<< sh) ^^^ 0xffffffff
  let s0 := state.set 0 (state.getD 0 0 &&& mask ||| r.1 <<< sh)
  let s1 := s0.set 1 (s0.getD 1 0 &&& mask ||| r.2.1 <<< sh)
  let s2 := s1.set 2 (s1.getD 2 0 &&& mask ||| r.2.2.1 <<< sh)
  s2.set 3 (s2.getD 3 0 &&& mask ||| r.2.2.2 <<< sh)

/-- `manipulateColumns` applies the column transform to each of the four
columns (the `for i := 0..3` loop, unrolled). -/
def manipulateColumns (state : List Nat)
    (calcf : Nat → Nat → Nat → Nat → Nat × Nat × Nat × Nat) : List Nat :=
  manipCol calcf 3 (manipCol calcf 2 (manipCol calcf 1 (manipCol calcf 0 state)))

/-- `mixColumns` (forward Rijndael MixColumns via the multiply tables). -/
def mixColumns (state : List Nat) : List Nat := manipulateColumns state calcMixCols

/-- `invMixColumns` (inverse Rijndael MixColumns via the multiply tables). -/
def invMixColumns (state : List Nat) : List Nat := manipulateColumns state calcInvMixCols

/-- Go slice expression `expkey[i : i+4]`. -/
def slice4 (l : List Nat) (i : Nat) : List Nat := (l.drop i).take 4

/-- The first four expanded-key words: the key bytes packed big-endian per
word (the `for i < nwords` loop of `keyExpansion`, unrolled). -/
def initWords (key : List Nat) : List Nat :=
  [key.getD 0 0 <<< 24 ||| key.getD 1 0 <<< 16 ||| key.getD 2 0 <<< 8 ||| key.getD 3 0,
   key.getD 4 0 <<< 24 ||| key.getD 5 0 <<< 16 ||| key.getD 6 0 <<< 8 ||| key.getD 7 0,
   key.getD 8 0 <<< 24 ||| key.getD 9 0 <<< 16 ||| key.getD 10 0 <<< 8 ||| key.getD 11 0,
   key.getD 12 0 <<< 24 ||| key.getD 13 0 <<< 16 ||| key.getD 14 0 <<< 8 ||| key.getD 15 0]

/-- One step of the inner `for j := 1..3` loop of `keyExpansion`:
`expkeys[i+j] = expkeys[i+j-1] ^ expkeys[i+j-4]` appended at the end. -/
def appendWord (ws : List Nat) : List Nat :=
  ws ++ [ws.getD (ws.length - 1) 0 ^^^ ws.getD (ws.length - 4) 0]

/-- One iteration of the outer key-expansion loop: the rotate/substitute/rcon
word for index `i` (a multiple of 4), then the three `appendWord` steps. -/
def expandGroup (ws : List Nat) : List Nat :=
  let i := ws.length
  let w := subWord (rotWordLeft (ws.getD (i - 1) 0) 1) ^^^ rcon (i / 4 - 1) ^^^
    ws.getD (i - 4) 0
  appendWord (appendWord (appendWord (ws ++ [w])))

/-- The outer `for i < 4*(rounds+1)` loop of `keyExpansion`, which runs ten
times for a 128-bit key (indices 4, 8, ..., 40). -/
def expandLoop : Nat → List Nat → List Nat
  | 0, ws => ws
  | n + 1, ws => expandLoop n (expandGroup ws)

namespace Matasano

/-- The `matasano` package `keyExpansion`: key words then ten expansion
groups, with no final transpose. -/
def keyExpansion (key : List Nat) : List Nat := expandLoop 10 (initWords key)

/-- One iteration (state word `i`) of the `matasano` package `addRoundKey`:
build the `i`-th column of the round-key group and XOR it into word `i`. -/
def addRoundKeyStep (key : List Nat) (s : List Nat) (i : Nat) : List Nat :=
  let a0 := key.getD 0 0 >>> ((3 - i) * 8) &&& 0xff
  let a1 := key.getD 1 0 >>> ((3 - i) * 8) &&& 0xff
  let a2 := key.getD 2 0 >>> ((3 - i) * 8) &&& 0xff
  let a3 := key.getD 3 0 >>> ((3 - i) * 8) &&& 0xff
  let k := a0 <<< 24 ||| a1 <<< 16 ||| a2 <<< 8 ||| a3
  s.set i (s.getD i 0 ^^^ k)

/-- The `matasano` package `addRoundKey` (the `for i := 0..3` loop, unrolled):
XORs the transposed round-key group into the state. -/
def addRoundKey (state key : List Nat) : List Nat :=
  addRoundKeyStep key (addRoundKeyStep key (addRoundKeyStep key
    (addRoundKeyStep key state 0) 1) 2) 3

/-- The main-round loop of the `matasano` package `encrypt`. -/
def encryptLoop : Nat → List Nat → List Nat → Nat → List Nat
  | 0, state, _, _ => state
  | n + 1, state, expkey, keyi =>
      encryptLoop n (addRoundKey (mixColumns (shiftRows (subBytes state)))
        (slice4 expkey keyi)) expkey (keyi + 4)

/-- The `matasano` package `encrypt`. -/
def encrypt (state expkey : List Nat) : List Nat :=
  let s1 := addRoundKey state (slice4 expkey 0)
  let rounds := expkey.length / 4 - 2
  let s2 := encryptLoop rounds s1 expkey 4
  addRoundKey (shiftRows (subBytes s2)) (slice4 expkey (4 * rounds + 4))

/-- The main-round loop of the `matasano` package `decrypt`. -/
def decryptLoop : Nat → List Nat → List Nat → Nat → List Nat
  | 0, state, _, _ => state
  | n + 1, state, expkey, keyi =>
      decryptLoop n (invMixColumns (addRoundKey (invSubBytes (invShiftRows state))
        (slice4 expkey keyi))) expkey (keyi - 4)

/-- The `matasano` package `decrypt`. -/
def decrypt (state expkey : List Nat) : List Nat :=
  let keyi := expkey.length - 4
  let s1 := addRoundKey state (slice4 expkey keyi)
  let rounds := expkey.length / 4 - 2
  let s2 := decryptLoop rounds s1 expkey (keyi - 4)
  addRoundKey (invSubBytes (invShiftRows s2)) (slice4 expkey (keyi - 4 - 4 * rounds))

end Matasano

namespace AES

/-- The `aes` package `keyExpansion`: the same schedule core, followed by the
per-group `transpose` epilogue. -/
def keyExpansion (key : List Nat) : List Nat :=
  transposeGroups (expandLoop 10 (initWords key))

/-- The `aes` package `addRoundKey`: plain word-wise XOR. -/
def addRoundKey (state key : List Nat) : List Nat :=
  List.zipWith (fun a b => a ^^^ b) state key

/-- The main-round loop of the `aes` package `encrypt`. -/
def encryptLoop : Nat → List Nat → List Nat → Nat → List Nat
  | 0, state, _, _ => state
  | n + 1, state, expkey, keyi =>
      encryptLoop n (addRoundKey (mixColumns (shiftRows (subBytes state)))
        (slice4 expkey keyi)) expkey (keyi + 4)

/-- The `aes` package `encrypt`. -/
def encrypt (state expkey : List Nat) : List Nat :=
  let s1 := addRoundKey state (slice4 expkey 0)
  let rounds := expkey.length / 4 - 2
  let s2 := encryptLoop rounds s1 expkey 4
  addRoundKey (shiftRows (subBytes s2)) (slice4 expkey (4 * rounds + 4))

/-- The main-round loop of the `aes` package `decrypt`. -/
def decryptLoop : Nat → List Nat → List Nat → Nat → List Nat
  | 0, state, _, _ => state
  | n + 1, state, expkey, keyi =>
      decryptLoop n (invMixColumns (addRoundKey (invSubBytes (invShiftRows state))
        (slice4 expkey keyi))) expkey (keyi - 4)

/-- The `aes` package `decrypt`. -/
def decrypt (state expkey : List Nat) : List Nat :=
  let keyi := expkey.length - 4
  let s1 := addRoundKey state (slice4 expkey keyi)
  let rounds := expkey.length / 4 - 2
  let s2 := decryptLoop rounds s1 expkey (keyi - 4)
  addRoundKey (invSubBytes (invShiftRows s2)) (slice4 expkey (keyi - 4 - 4 * rounds))

/-- Modelled from the spec: `pack` (called by `cipherAES.Encrypt/Decrypt` but
not under `src/`) packs 16 bytes into the 4-word column-major state, word `r`
holding bytes `r, r+4, r+8, r+12` big-endian -- the same layout the
`matasano` package `DecryptAES` builds inline. -/
def pack (b : List Nat) : List Nat :=
  [b.getD 0 0 <<< 24 ||| b.getD 4 0 <<< 16 ||| b.getD 8 0 <<< 8 ||| b.getD 12 0,
   b.getD 1 0 <<< 24 ||| b.getD 5 0 <<< 16 ||| b.getD 9 0 <<< 8 ||| b.getD 13 0,
   b.getD 2 0 <<< 24 ||| b.getD 6 0 <<< 16 ||| b.getD 10 0 <<< 8 ||| b.getD 14 0,
   b.getD 3 0 <<< 24 ||| b.getD 7 0 <<< 16 ||| b.getD 11 0 <<< 8 ||| b.getD 15 0]

/-- Modelled from the spec: `unpack` (called by `cipherAES.Encrypt/Decrypt`
but not under `src/`) is the inverse byte layout of `pack`, matching the
output loop of the `matasano` package `DecryptAES`. -/
def unpack (state : List Nat) : List Nat :=
  [state.getD 0 0 >>> 24, state.getD 1 0 >>> 24,
   state.getD 2 0 >>> 24, state.getD 3 0 >>> 24,
   state.getD 0 0 >>> 16 &&& 0xff, state.getD 1 0 >>> 16 &&& 0xff,
   state.getD 2 0 >>> 16 &&& 0xff, state.getD 3 0 >>> 16 &&& 0xff,
   state.getD 0 0 >>> 8 &&& 0xff, state.getD 1 0 >>> 8 &&& 0xff,
   state.getD 2 0 >>> 8 &&& 0xff, state.getD 3 0 >>> 8 &&& 0xff,
   state.getD 0 0 &&& 0xff, state.getD 1 0 &&& 0xff,
   state.getD 2 0 &&& 0xff, state.getD 3 0 &&& 0xff]

/-- `keyExpansion` guarded by the implicit precondition of its key indexing:
it reads `key[0] .. key[15]`, so a key of fewer than 16 bytes makes Go panic
with an index-out-of-range run-time error, modelled as `none`.  No explicit
length check exists in the source. -/
def keyExpansionChecked (key : List Nat) : Option (List Nat) :=
  if 16 ≤ key.length then some (keyExpansion key) else none

/-- The `cipherAES` struct: it owns only the expanded key. -/
structure CipherAES where
  expkey : List Nat

/-- `NewCipher` builds a `cipherAES` from `keyExpansion key`; the only
failure mode is the run-time panic of `keyExpansionChecked`. -/
def NewCipher (key : List Nat) : Option CipherAES :=
  (keyExpansionChecked key).map CipherAES.mk

/-- `cipherAES.Encrypt`: `src[0:BlockSize]` panics when `src` has fewer than
16 bytes (modelled as `none`); otherwise the first 16 bytes are packed,
encrypted and unpacked.  The result models the 16 bytes written to `dst`. -/
def EncryptBlock (c : CipherAES) (src : List Nat) : Option (List Nat) :=
  if 16 ≤ src.length then some (unpack (encrypt (pack (src.take 16)) c.expkey))
  else none

/-- `cipherAES.Decrypt`, with the same slicing behaviour as `EncryptBlock`. -/
def DecryptBlock (c : CipherAES) (src : List Nat) : Option (List Nat) :=
  if 16 ≤ src.length then some (unpack (decrypt (pack (src.take 16)) c.expkey))
  else none

end AES

namespace Matasano

/-- Partition a buffer into 16-byte blocks (a trailing short block included),
as the oracle's block scan does. -/
def chunks16 (l : List Nat) : List (List Nat) :=
  if h : l = [] then [] else l.take 16 :: chunks16 (l.drop 16)
  termination_by l.length
  decreasing_by
    cases l with
    | nil => exact absurd rfl h
    | cons x xs => simpa using Nat.lt_succ_of_le (Nat.sub_le _ _)

/-- Count the pairs of byte-identical blocks in a block list. -/
def countPairs : List (List Nat) → Nat
  | [] => 0
  | b :: rest => rest.countP (fun x => x == b) + countPairs rest

/-- Modelled from the spec: `similarBlocks` (defined in a repository file not
under `src/`) counts pairs of byte-identical 16-byte blocks of the buffer
("partition the buffer into 16-byte blocks; if any two blocks are
byte-identical, classify as ECB"). -/
def similarBlocks (b : List Nat) : Nat := countPairs (chunks16 b)

/-- `isAESECB` reports whether the buffer has at least one pair of identical
blocks (Go: `similarBlocks(string(b)) > 0`). -/
def isAESECB (b : List Nat) : Bool := decide (0 < similarBlocks b)

/-- `OracleAES` labels each ciphertext 1 (ECB) or 0 (CBC). -/
def OracleAES (ciphers : List (List Nat)) : List Nat :=
  ciphers.map (fun c => if isAESECB c then 1 else 0)

/-- The classification the oracle is specified to compute, stated
independently of the oracle's code: some two distinct 16-byte blocks of the
buffer are byte-identical. -/
def hasIdenticalBlocks (b : List Nat) : Prop :=
  ∃ i j, i < j ∧ j < (chunks16 b).length ∧
    (chunks16 b).getD i [] = (chunks16 b).getD j []

/-- Modelled from the spec: `PadPKCS7` (defined in a repository file not
under `src/`) appends PKCS#7 block padding -- `n` copies of the byte `n`,
where `n` is the distance to the next multiple of the block size (a full
extra block when the length is already a multiple). -/
def PadPKCS7 (b : List Nat) (blocksize : Nat) : List Nat :=
  let n := blocksize - b.length % blocksize
  b ++ List.replicate n n

/-- `getPlaintext` prepends the random prefix (its bytes are a parameter
here, standing for the outcome of `randbytes(rand.Intn(16)+5)`) and applies
PKCS#7 padding at the AES block size. -/
def getPlaintext (b pre : List Nat) : List Nat := PadPKCS7 (pre ++ b) 16

end Matasano

/-!
## Proof infrastructure

`packW` names the big-endian 4-byte word layout that the sources build with
shifts and ors; `bitExpand` and `Lin` support the GF(2)-linearity arguments
for the MixColumns tables; the predicates name the invariants (byte lists,
4-word states of 32-bit words) that the Go code maintains by construction.
-/

/-- Four bytes packed big-endian into one word, exactly as the sources write
it: `a<<24 | b<<16 | c<<8 | d`. -/
def packW (a b c d : Nat) : Nat := a <<< 24 ||| b <<< 16 ||| c <<< 8 ||| d

/-- The XOR of `f` at the set bits of the low byte of `x`; a table is
GF(2)-linear exactly when it agrees with its own bit expansion. -/
def bitExpand (f : Nat → Nat) (x : Nat) : Nat :=
  (if x.testBit 0 then f 1 else 0) ^^^ (if x.testBit 1 then f 2 else 0) ^^^
    (if x.testBit 2 then f 4 else 0) ^^^ (if x.testBit 3 then f 8 else 0) ^^^
    (if x.testBit 4 then f 16 else 0) ^^^ (if x.testBit 5 then f 32 else 0) ^^^
    (if x.testBit 6 then f 64 else 0) ^^^ (if x.testBit 7 then f 128 else 0)

/-- GF(2)-linearity of a byte function on the byte domain. -/
def Lin (f : Nat → Nat) : Prop :=
  ∀ x y, x < 256 → y < 256 → f (x ^^^ y) = f x ^^^ f y

/-- Every entry of the list is a byte value. -/
abbrev allBytes (l : List Nat) : Prop := ∀ x ∈ l, x < 256

/-- The invariant of the Go `state []uint32`: four words, each below `2^32`. -/
abbrev goodState (s : List Nat) : Prop := s.length = 4 ∧ ∀ w ∈ s, w < 2 ^ 32

instance : Std.Associative (fun a b : Nat => a ^^^ b) := ⟨Nat.xor_assoc⟩

instance : Std.Commutative (fun a b : Nat => a ^^^ b) := ⟨Nat.xor_comm⟩


/-- Byte `i` of a Nat-packed table (the same byte sequence as the
corresponding list table, packed little-endian into one number so that the
kernel can evaluate lookups with fast arithmetic). -/
def tblN (t : Nat) (i : Nat) : Nat := t >>> (8 * i) &&& 0xff

/-- `sbox0` packed little-endian into a single number. -/
def sbox0N : Nat :=
  0x16bb54b00f2d99416842e6bf0d89a18cdf2855cee9871e9b948ed9691198f8e19e1dc186b95735610ef6034866b53e708a8bbd4b1f74dde8c6b4a61c2e2578ba08ae7a65eaf4566ca94ed58d6d37c8e779e4959162acd3c25c2406490a3a32e0db0b5ede14b8ee4688902a22dc4f816073195d643d7ea7c41744975fec130ccdd2f3ff1021dab6bcf5389d928f40a351a89f3c507f02f94585334d43fbaaefd0cf584c4a39becb6a5bb1fc20ed00d153842fe329b3d63b52a05a6e1b1a2c830975b227ebe28012079a059618c323c7041531d871f1e5a534ccf73f362693fdb7c072a49cafa2d4adf04759fa7dc982ca76abd7fe2b670130c56f6bf27b777c63

/-- `sbox1` packed little-endian into a single number. -/
def sbox1N : Nat :=
  0x7d0c2155631469e126d677ba7e042b17619953833cbbebc8b0f52aae4d3be0a0ef9cc9939f7ae52d0d4ab519a97f51605fec8027591012b131c7078833a8dd1ff45acd78fec0db9a2079d2c64b3e56fc1bbe18aa0e62b76f89c5291d711af1476edf751ce837f9e28535ade72274ac9673e6b4f0cecff297eadc674f4111913a6b8a130103bdafc1020f3fca8f1e2cd00645b3b80558e4f70ad3bc8c00abd890849d8da75746155edab9edfd5048706c92b6655dcc5ca4d41698688664f6f87225d18b6d49a25b76b224d92866a12e084ec3fa420b954cee3d23c2a632947b54cbe9dec444438e3487ff2f9b8239e37cfbd7f3819ea340bf38a53630d56a0952

/-- `gMulBy2` packed little-endian into a single number. -/
def gMulBy2N : Nat :=
  0xe5e7e1e3edefe9ebf5f7f1f3fdfff9fbc5c7c1c3cdcfc9cbd5d7d1d3dddfd9dba5a7a1a3adafa9abb5b7b1b3bdbfb9bb858781838d8f898b959791939d9f999b656761636d6f696b757771737d7f797b454741434d4f494b555751535d5f595b252721232d2f292b353731333d3f393b050701030d0f090b151711131d1f191bfefcfaf8f6f4f2f0eeeceae8e6e4e2e0dedcdad8d6d4d2d0cecccac8c6c4c2c0bebcbab8b6b4b2b0aeacaaa8a6a4a2a09e9c9a98969492908e8c8a88868482807e7c7a78767472706e6c6a68666462605e5c5a58565452504e4c4a48464442403e3c3a38363432302e2c2a28262422201e1c1a18161412100e0c0a0806040200

/-- `gMulBy3` packed little-endian into a single number. -/
def gMulBy3N : Nat :=
  0x1a191c1f16151013020104070e0d080b2a292c2f26252023323134373e3d383b7a797c7f76757073626164676e6d686b4a494c4f46454043525154575e5d585bdad9dcdfd6d5d0d3c2c1c4c7cecdc8cbeae9ecefe6e5e0e3f2f1f4f7fefdf8fbbab9bcbfb6b5b0b3a2a1a4a7aeada8ab8a898c8f86858083929194979e9d989b818287848d8e8b88999a9f9c95969390b1b2b7b4bdbebbb8a9aaafaca5a6a3a0e1e2e7e4edeeebe8f9fafffcf5f6f3f0d1d2d7d4dddedbd8c9cacfccc5c6c3c0414247444d4e4b48595a5f5c55565350717277747d7e7b78696a6f6c65666360212227242d2e2b28393a3f3c35363330111217141d1e1b18090a0f0c05060300

/-- `gMulBy9` packed little-endian into a single number. -/
def gMulBy9N : Nat :=
  0x464f545d626b70790e071c152a233831d6dfc4cdf2fbe0e99e978c85bab3a8a17d746f6659504b42353c272e1118030aede4fff6c9c0dbd2a5acb7be8188939a3039222b141d060f78716a635c554e47a0a9b2bb848d969fe8e1faf3ccc5ded70b0219102f263d34434a5158676e757c9b928980bfb6ada4d3dac1c8f7fee5ecaaa3b8b18e879c95e2ebf0f9c6cfd4dd3a3328211e170c05727b6069565f444d9198838ab5bca7aed9d0cbc2fdf4efe60108131a252c373e49405b526d647f76dcd5cec7f8f1eae3949d868fb0b9a2ab4c455e5768617a73040d161f2029323be7eef5fcc3cad1d8afa6bdb48b829990777e656c535a41483f362d241b120900

/-- `gMulBy11` packed little-endian into a single number. -/
def gMulBy11N : Nat :=
  0xa3a8b5be8f849992fbf0ede6d7dcc1ca1318050e3f3429224b405d56676c717ad8d3cec5f4ffe2e9808b969daca7bab168637e75444f5259303b262d1c170a01555e434879726f640d061b10212a373ce5eef3f8c9c2dfd4bdb6aba0919a878c2e2538330209141f767d606b5a514c479e958883b2b9a4afc6cdd0dbeae1fcf7545f424978736e650c071a11202b363de4eff2f9c8c3ded5bcb7aaa1909b868d2f2439320308151e777c616a5b504d469f948982b3b8a5aec7ccd1daebe0fdf6a2a9b4bf8e859893faf1ece7d6ddc0cb1219040f3e3528234a415c57666d707bd9d2cfc4f5fee3e8818a979cada6bbb069627f74454e5358313a272c1d160b00

/-- `gMulBy13` packed little-endian into a single number. -/
def gMulBy13N : Nat :=
  0x979a8d80a3aeb9b4fff2e5e8cbc6d1dc474a5d50737e69642f2235381b16010c2c21363b1815020f44495e53707d6a67fcf1e6ebc8c5d2df94998e83a0adbab7faf7e0edcec3d4d9929f8885a6abbcb12a27303d1e130409424f5855767b6c61414c5b5675786f622924333e1d10070a919c8b86a5a8bfb2f9f4e3eecdc0d7da4d40575a7974636e25283f32111c0b069d90878aa9a4b3bef5f8efe2c1ccdbd6f6fbece1c2cfd8d59e938489aaa7b0bd262b3c31121f08054e4354597a77606d202d3a3714190e034845525f7c71666bf0fdeae7c4c9ded39895828faca1b6bb9b96818cafa2b5b8f3fee9e4c7caddd04b46515c7f726568232e3934171a0d00

/-- `gMulBy14` packed little-endian into a single number. -/
def gMulBy14N : Nat :=
  0x8d83919fb5bba9a7fdf3e1efc5cbd9d76d63717f555b49471d13010f252b393756584a446e60727c26283a341e10020cb6b8aaa48e80929cc6c8dad4fef0e2ec202e3c321816040a505e4c426866747ac0cedcd2f8f6e4eab0beaca28886949afbf5e7e9c3cddfd18b859799b3bdafa11b150709232d3f316b657779535d4f41ccc2d0def4fae8e6bcb2a0ae848a98962c22303e141a08065c52404e646a787617190b052f21333d67697b755f51434df7f9ebe5cfc1d3dd87899b95bfb1a3ad616f7d735957454b111f0d032927353b818f9d93b9b7a5abf1ffede3c9c7d5dbbab4a6a8828c9e90cac4d6d8f2fceee05a544648626c7e702a243638121c0e00

/-- The Rijndael key-schedule recurrence, as the spec states it: each word at
an index that is not a multiple of 4 is the XOR of its predecessor and the
word four back; each word at a multiple of 4 applies RotWordLeft, SubWord and
the round constant to its predecessor before the XOR with the word four
back. -/
def KeyRec (ws : List Nat) : Prop :=
  ∀ i, 4 ≤ i → i < ws.length →
    (i % 4 ≠ 0 → ws.getD i 0 = ws.getD (i - 1) 0 ^^^ ws.getD (i - 4) 0) ∧
    (i % 4 = 0 → ws.getD i 0 =
      subWord (rotWordLeft (ws.getD (i - 1) 0) 1) ^^^ rcon (i / 4 - 1) ^^^
        ws.getD (i - 4) 0)

/-!
## Word-level toolkit
-/

theorem testBit_hi_false {x j : Nat} (hx : x < 256) (hj : 8 ≤ j) : x.testBit j = false := by
  apply Nat.testBit_lt_two_pow
  calc x < 256 := hx
    _ = 2 ^ 8 := rfl
    _ ≤ 2 ^ j := Nat.pow_le_pow_right (by omega) hj

theorem and_lt_256 {y : Nat} (x : Nat) (hy : y < 256) : x &&& y < 256 := by
  have := Nat.and_lt_two_pow x (show y < 2 ^ 8 from hy)
  simpa using this

theorem xor_lt_256 {x y : Nat} (hx : x < 256) (hy : y < 256) : x ^^^ y < 256 := by
  have := Nat.xor_lt_two_pow (show x < 2 ^ 8 from hx) (show y < 2 ^ 8 from hy)
  simpa using this

theorem packW_eq {a b c d : Nat} (hb : b < 256) (hc : c < 256) (hd : d < 256) :
    packW a b c d = a * 16777216 + b * 65536 + c * 256 + d := by
  unfold packW
  rw [Nat.or_assoc, Nat.or_assoc]
  rw [Nat.shiftLeft_eq, Nat.shiftLeft_eq, Nat.shiftLeft_eq]
  rw [show c * 2 ^ 8 = 2 ^ 8 * c from Nat.mul_comm _ _]
  rw [← Nat.mul_add_lt_is_or (show d < 2 ^ 8 from hd) c]
  rw [show b * 2 ^ 16 = 2 ^ 16 * b from Nat.mul_comm _ _]
  rw [← Nat.mul_add_lt_is_or (show 2 ^ 8 * c + d < 2 ^ 16 by omega) b]
  rw [show a * 2 ^ 24 = 2 ^ 24 * a from Nat.mul_comm _ _]
  rw [← Nat.mul_add_lt_is_or (show 2 ^ 16 * b + (2 ^ 8 * c + d) < 2 ^ 24 by omega) a]
  omega

theorem packW_lt {a b c d : Nat} (ha : a < 256) (hb : b < 256) (hc : c < 256)
    (hd : d < 256) : packW a b c d < 2 ^ 32 := by
  rw [packW_eq hb hc hd]; omega

theorem and255_eq_mod (x : Nat) : x &&& 0xff = x % 256 := by
  rw [show (0xff : Nat) = 2 ^ 8 - 1 from rfl, Nat.and_pow_two_sub_one_eq_mod]

theorem and255_of_lt {x : Nat} (hx : x < 256) : x &&& 0xff = x := by
  rw [and255_eq_mod, Nat.mod_eq_of_lt hx]

theorem packW_shr24 {a b c d : Nat} (hb : b < 256) (hc : c < 256) (hd : d < 256) :
    packW a b c d >>> 24 = a := by
  rw [packW_eq hb hc hd, Nat.shiftRight_eq_div_pow,
    show (2 : Nat) ^ 24 = 16777216 from rfl]
  omega

theorem packW_shr16_and {a b c d : Nat} (hb : b < 256) (hc : c < 256)
    (hd : d < 256) : packW a b c d >>> 16 &&& 0xff = b := by
  rw [packW_eq hb hc hd, Nat.shiftRight_eq_div_pow,
    show (2 : Nat) ^ 16 = 65536 from rfl, and255_eq_mod]
  omega

theorem packW_shr8_and {a b c d : Nat} (hb : b < 256) (hc : c < 256)
    (hd : d < 256) : packW a b c d >>> 8 &&& 0xff = c := by
  rw [packW_eq hb hc hd, Nat.shiftRight_eq_div_pow,
    show (2 : Nat) ^ 8 = 256 from rfl, and255_eq_mod]
  omega

theorem packW_and255 {a b c d : Nat} (hb : b < 256) (hc : c < 256) (hd : d < 256) :
    packW a b c d &&& 0xff = d := by
  rw [packW_eq hb hc hd, and255_eq_mod]
  omega


theorem packW_shr24_and {a b c d : Nat} (ha : a < 256) (hb : b < 256) (hc : c < 256)
    (hd : d < 256) : packW a b c d >>> 24 &&& 0xff = a := by
  rw [packW_shr24 hb hc hd, and255_of_lt ha]

theorem shl24_eq_packW (r : Nat) : r <<< 24 = packW r 0 0 0 := by
  simp [packW]

theorem shl16_eq_packW (r : Nat) : r <<< 16 = packW 0 r 0 0 := by
  simp [packW]

theorem shl8_eq_packW (r : Nat) : r <<< 8 = packW 0 0 r 0 := by
  simp [packW]

theorem shl0_eq_packW (r : Nat) : r = packW 0 0 0 r := by
  simp [packW]

theorem exists_bytes {w : Nat} (hw : w < 2 ^ 32) :
    ∃ a b c d, a < 256 ∧ b < 256 ∧ c < 256 ∧ d < 256 ∧ w = packW a b c d := by
  refine ⟨w / 16777216, w / 65536 % 256, w / 256 % 256, w % 256, by omega, by omega,
    by omega, by omega, ?_⟩
  rw [packW_eq (by omega) (by omega) (by omega)]
  omega

theorem land_packW {a b c d e f g h : Nat}
    (hb : b < 256) (hc : c < 256) (hd : d < 256)
    (hf : f < 256) (hg : g < 256) (hh : h < 256) :
    packW a b c d &&& packW e f g h = packW (a &&& e) (b &&& f) (c &&& g) (d &&& h) := by
  apply Nat.eq_of_testBit_eq
  intro j
  simp only [packW, Nat.testBit_and, Nat.testBit_or, Nat.testBit_shiftLeft]
  rcases Nat.lt_or_ge j 8 with hj | hj
  · simp only [show ¬ (24 ≤ j) by omega, show ¬ (16 ≤ j) by omega, show ¬ (8 ≤ j) by omega,
      decide_False, Bool.false_and, Bool.false_or, Nat.testBit_and]
  · rcases Nat.lt_or_ge j 16 with hj2 | hj2
    · simp only [show ¬ (24 ≤ j) by omega, show ¬ (16 ≤ j) by omega, show (8 ≤ j) from hj,
        decide_False, decide_True, Bool.false_and, Bool.false_or, Bool.true_and,
        testBit_hi_false hd hj, testBit_hi_false hh hj, testBit_hi_false (and_lt_256 d hh) hj,
        Bool.or_false, Bool.and_false, Nat.testBit_and]
    · rcases Nat.lt_or_ge j 24 with hj3 | hj3
      · simp only [show ¬ (24 ≤ j) by omega, show (16 ≤ j) from hj2, show (8 ≤ j) from hj,
          decide_False, decide_True, Bool.false_and, Bool.false_or, Bool.true_and,
          testBit_hi_false hd hj, testBit_hi_false hh hj,
          testBit_hi_false (and_lt_256 d hh) hj,
          testBit_hi_false hc (by omega : 8 ≤ j - 8), testBit_hi_false hg (by omega : 8 ≤ j - 8),
          testBit_hi_false (and_lt_256 c hg) (by omega : 8 ≤ j - 8),
          Bool.or_false, Bool.and_false, Nat.testBit_and]
      · simp only [show (24 ≤ j) from hj3, show (16 ≤ j) from hj2, show (8 ≤ j) from hj,
          decide_True, Bool.true_and,
          testBit_hi_false hd hj, testBit_hi_false hh hj,
          testBit_hi_false (and_lt_256 d hh) hj,
          testBit_hi_false hc (by omega : 8 ≤ j - 8), testBit_hi_false hg (by omega : 8 ≤ j - 8),
          testBit_hi_false (and_lt_256 c hg) (by omega : 8 ≤ j - 8),
          testBit_hi_false hb (by omega : 8 ≤ j - 16), testBit_hi_false hf (by omega : 8 ≤ j - 16),
          testBit_hi_false (and_lt_256 b hf) (by omega : 8 ≤ j - 16),
          Bool.or_false, Bool.and_false, Nat.testBit_and]

theorem lor_packW {a b c d e f g h : Nat}
    (hb : b < 256) (hc : c < 256) (hd : d < 256)
    (hf : f < 256) (hg : g < 256) (hh : h < 256) :
    packW a b c d ||| packW e f g h = packW (a ||| e) (b ||| f) (c ||| g) (d ||| h) := by
  apply Nat.eq_of_testBit_eq
  intro j
  simp only [packW, Nat.testBit_or, Nat.testBit_shiftLeft]
  rcases Nat.lt_or_ge j 8 with hj | hj
  · simp only [show ¬ (24 ≤ j) by omega, show ¬ (16 ≤ j) by omega, show ¬ (8 ≤ j) by omega,
      decide_False, Bool.false_and, Bool.false_or, Nat.testBit_or]
  · rcases Nat.lt_or_ge j 16 with hj2 | hj2
    · simp only [show ¬ (24 ≤ j) by omega, show ¬ (16 ≤ j) by omega, show (8 ≤ j) from hj,
        decide_False, decide_True, Bool.false_and, Bool.false_or, Bool.true_and,
        testBit_hi_false hd hj, testBit_hi_false hh hj,
        testBit_hi_false (Nat.or_lt_two_pow (show d < 2 ^ 8 from hd) (show h < 2 ^ 8 from hh)) hj,
        Bool.or_false, Nat.testBit_or]
    · rcases Nat.lt_or_ge j 24 with hj3 | hj3
      · simp only [show ¬ (24 ≤ j) by omega, show (16 ≤ j) from hj2, show (8 ≤ j) from hj,
          decide_False, decide_True, Bool.false_and, Bool.false_or, Bool.true_and,
          testBit_hi_false hd hj, testBit_hi_false hh hj,
          testBit_hi_false (Nat.or_lt_two_pow (show d < 2 ^ 8 from hd) (show h < 2 ^ 8 from hh)) hj,
          testBit_hi_false hc (by omega : 8 ≤ j - 8), testBit_hi_false hg (by omega : 8 ≤ j - 8),
          testBit_hi_false (Nat.or_lt_two_pow (show c < 2 ^ 8 from hc) (show g < 2 ^ 8 from hg))
            (by omega : 8 ≤ j - 8),
          Bool.or_false, Nat.testBit_or]
      · simp only [show (24 ≤ j) from hj3, show (16 ≤ j) from hj2, show (8 ≤ j) from hj,
          decide_True, Bool.true_and,
          testBit_hi_false hd hj, testBit_hi_false hh hj,
          testBit_hi_false (Nat.or_lt_two_pow (show d < 2 ^ 8 from hd) (show h < 2 ^ 8 from hh)) hj,
          testBit_hi_false hc (by omega : 8 ≤ j - 8), testBit_hi_false hg (by omega : 8 ≤ j - 8),
          testBit_hi_false (Nat.or_lt_two_pow (show c < 2 ^ 8 from hc) (show g < 2 ^ 8 from hg))
            (by omega : 8 ≤ j - 8),
          testBit_hi_false hb (by omega : 8 ≤ j - 16), testBit_hi_false hf (by omega : 8 ≤ j - 16),
          testBit_hi_false (Nat.or_lt_two_pow (show b < 2 ^ 8 from hb) (show f < 2 ^ 8 from hf))
            (by omega : 8 ≤ j - 16),
          Bool.or_false, Nat.testBit_or]

theorem getD_lt_of_all {t : List Nat} {n : Nat} (h : ∀ x ∈ t, x < n) (hn : 0 < n)
    (i : Nat) : t.getD i 0 < n := by
  induction t generalizing i with
  | nil => simpa [List.getD] using hn
  | cons x xs ih =>
    cases i with
    | zero => exact h x (by simp)
    | succ j => exact ih (fun y hy => h y (by simp [hy])) j

theorem sbox0_lt (i : Nat) : tbl sbox0 i < 256 :=
  getD_lt_of_all (by decide) (by omega) i

theorem sbox1_lt (i : Nat) : tbl sbox1 i < 256 :=
  getD_lt_of_all (by decide) (by omega) i

theorem gMulBy2_lt (i : Nat) : tbl gMulBy2 i < 256 :=
  getD_lt_of_all (by decide) (by omega) i

theorem gMulBy3_lt (i : Nat) : tbl gMulBy3 i < 256 :=
  getD_lt_of_all (by decide) (by omega) i

theorem gMulBy9_lt (i : Nat) : tbl gMulBy9 i < 256 :=
  getD_lt_of_all (by decide) (by omega) i

theorem gMulBy11_lt (i : Nat) : tbl gMulBy11 i < 256 :=
  getD_lt_of_all (by decide) (by omega) i

theorem gMulBy13_lt (i : Nat) : tbl gMulBy13 i < 256 :=
  getD_lt_of_all (by decide) (by omega) i

theorem gMulBy14_lt (i : Nat) : tbl gMulBy14 i < 256 :=
  getD_lt_of_all (by decide) (by omega) i

theorem powx_lt (i : Nat) : tbl powx i < 256 :=
  getD_lt_of_all (by decide) (by omega) i

theorem tblN_lt (t i : Nat) : tblN t i < 256 := and_lt_256 _ (by omega)

theorem sbox0_agree : ∀ i, i < 256 → tbl sbox0 i = tblN sbox0N i := by decide

theorem sbox1_agree : ∀ i, i < 256 → tbl sbox1 i = tblN sbox1N i := by decide

theorem gMulBy2_agree : ∀ i, i < 256 → tbl gMulBy2 i = tblN gMulBy2N i := by decide

theorem gMulBy3_agree : ∀ i, i < 256 → tbl gMulBy3 i = tblN gMulBy3N i := by decide

theorem gMulBy9_agree : ∀ i, i < 256 → tbl gMulBy9 i = tblN gMulBy9N i := by decide

theorem gMulBy11_agree : ∀ i, i < 256 → tbl gMulBy11 i = tblN gMulBy11N i := by decide

theorem gMulBy13_agree : ∀ i, i < 256 → tbl gMulBy13 i = tblN gMulBy13N i := by decide

theorem gMulBy14_agree : ∀ i, i < 256 → tbl gMulBy14 i = tblN gMulBy14N i := by decide

theorem sbox1_sbox0N : ∀ a, a < 256 → tblN sbox1N (tblN sbox0N a) = a := by decide

theorem sbox1_sbox0 : ∀ a, a < 256 → tbl sbox1 (tbl sbox0 a) = a := by
  intro a ha
  rw [sbox0_agree a ha, sbox1_agree _ (tblN_lt _ _)]
  exact sbox1_sbox0N a ha

theorem if_xor_split (p q : Bool) (c : Nat) :
    (if p ^^ q then c else 0) = (if p then c else 0) ^^^ (if q then c else 0) := by
  cases p <;> cases q <;> simp

theorem bitExpand_xor (f : Nat → Nat) (x y : Nat) :
    bitExpand f (x ^^^ y) = bitExpand f x ^^^ bitExpand f y := by
  unfold bitExpand
  simp only [Nat.testBit_xor, if_xor_split]
  ac_rfl

theorem bitExpand_congr {f g : Nat → Nat} (h : ∀ i, i < 256 → f i = g i) (x : Nat) :
    bitExpand f x = bitExpand g x := by
  unfold bitExpand
  rw [h 1 (by omega), h 2 (by omega), h 4 (by omega), h 8 (by omega), h 16 (by omega),
    h 32 (by omega), h 64 (by omega), h 128 (by omega)]

theorem lin_of_bitExpand {f : Nat → Nat} (h : ∀ x, x < 256 → f x = bitExpand f x) :
    Lin f := by
  intro x y hx hy
  rw [h _ (xor_lt_256 hx hy), bitExpand_xor, ← h _ hx, ← h _ hy]

theorem gMulBy2_bitExpandN : ∀ x, x < 256 → tblN gMulBy2N x = bitExpand (tblN gMulBy2N) x := by
  decide

theorem gMulBy2_bitExpand : ∀ x, x < 256 → tbl gMulBy2 x = bitExpand (tbl gMulBy2) x := by
  intro x hx
  rw [gMulBy2_agree x hx, bitExpand_congr gMulBy2_agree x]
  exact gMulBy2_bitExpandN x hx

theorem lin_gMulBy2 : Lin (tbl gMulBy2) := lin_of_bitExpand gMulBy2_bitExpand

theorem gMulBy3_bitExpandN : ∀ x, x < 256 → tblN gMulBy3N x = bitExpand (tblN gMulBy3N) x := by
  decide

theorem gMulBy3_bitExpand : ∀ x, x < 256 → tbl gMulBy3 x = bitExpand (tbl gMulBy3) x := by
  intro x hx
  rw [gMulBy3_agree x hx, bitExpand_congr gMulBy3_agree x]
  exact gMulBy3_bitExpandN x hx

theorem lin_gMulBy3 : Lin (tbl gMulBy3) := lin_of_bitExpand gMulBy3_bitExpand

theorem gMulBy9_bitExpandN : ∀ x, x < 256 → tblN gMulBy9N x = bitExpand (tblN gMulBy9N) x := by
  decide

theorem gMulBy9_bitExpand : ∀ x, x < 256 → tbl gMulBy9 x = bitExpand (tbl gMulBy9) x := by
  intro x hx
  rw [gMulBy9_agree x hx, bitExpand_congr gMulBy9_agree x]
  exact gMulBy9_bitExpandN x hx

theorem lin_gMulBy9 : Lin (tbl gMulBy9) := lin_of_bitExpand gMulBy9_bitExpand

theorem gMulBy11_bitExpandN : ∀ x, x < 256 → tblN gMulBy11N x = bitExpand (tblN gMulBy11N) x := by
  decide

theorem gMulBy11_bitExpand : ∀ x, x < 256 → tbl gMulBy11 x = bitExpand (tbl gMulBy11) x := by
  intro x hx
  rw [gMulBy11_agree x hx, bitExpand_congr gMulBy11_agree x]
  exact gMulBy11_bitExpandN x hx

theorem lin_gMulBy11 : Lin (tbl gMulBy11) := lin_of_bitExpand gMulBy11_bitExpand

theorem gMulBy13_bitExpandN : ∀ x, x < 256 → tblN gMulBy13N x = bitExpand (tblN gMulBy13N) x := by
  decide

theorem gMulBy13_bitExpand : ∀ x, x < 256 → tbl gMulBy13 x = bitExpand (tbl gMulBy13) x := by
  intro x hx
  rw [gMulBy13_agree x hx, bitExpand_congr gMulBy13_agree x]
  exact gMulBy13_bitExpandN x hx

theorem lin_gMulBy13 : Lin (tbl gMulBy13) := lin_of_bitExpand gMulBy13_bitExpand

theorem gMulBy14_bitExpandN : ∀ x, x < 256 → tblN gMulBy14N x = bitExpand (tblN gMulBy14N) x := by
  decide

theorem gMulBy14_bitExpand : ∀ x, x < 256 → tbl gMulBy14 x = bitExpand (tbl gMulBy14) x := by
  intro x hx
  rw [gMulBy14_agree x hx, bitExpand_congr gMulBy14_agree x]
  exact gMulBy14_bitExpandN x hx

theorem lin_gMulBy14 : Lin (tbl gMulBy14) := lin_of_bitExpand gMulBy14_bitExpand

theorem lin4 {f : Nat → Nat} (hf : Lin f) {p q r s : Nat} (hp : p < 256) (hq : q < 256)
    (hr : r < 256) (hs : s < 256) :
    f (p ^^^ q ^^^ r ^^^ s) = f p ^^^ f q ^^^ f r ^^^ f s := by
  rw [hf _ _ (xor_lt_256 (xor_lt_256 hp hq) hr) hs, hf _ _ (xor_lt_256 hp hq) hr,
    hf _ _ hp hq]

theorem invMixCoeffN00 : ∀ a, a < 256 → tblN gMulBy14N (tblN gMulBy2N a) ^^^ tblN gMulBy11N a ^^^ tblN gMulBy13N a ^^^ tblN gMulBy9N (tblN gMulBy3N a) = a := by
  decide

theorem invMixCoeff00 : ∀ a, a < 256 → tbl gMulBy14 (tbl gMulBy2 a) ^^^ tbl gMulBy11 a ^^^ tbl gMulBy13 a ^^^ tbl gMulBy9 (tbl gMulBy3 a) = a := by
  intro a ha
  rw [gMulBy2_agree a ha, gMulBy3_agree a ha, gMulBy14_agree _ (tblN_lt _ _), gMulBy11_agree a ha, gMulBy13_agree a ha, gMulBy9_agree _ (tblN_lt _ _)]
  exact invMixCoeffN00 a ha

theorem invMixCoeffN01 : ∀ a, a < 256 → tblN gMulBy14N (tblN gMulBy3N a) ^^^ tblN gMulBy11N (tblN gMulBy2N a) ^^^ tblN gMulBy13N a ^^^ tblN gMulBy9N a = 0 := by
  decide

theorem invMixCoeff01 : ∀ a, a < 256 → tbl gMulBy14 (tbl gMulBy3 a) ^^^ tbl gMulBy11 (tbl gMulBy2 a) ^^^ tbl gMulBy13 a ^^^ tbl gMulBy9 a = 0 := by
  intro a ha
  rw [gMulBy2_agree a ha, gMulBy3_agree a ha, gMulBy14_agree _ (tblN_lt _ _), gMulBy11_agree _ (tblN_lt _ _), gMulBy13_agree a ha, gMulBy9_agree a ha]
  exact invMixCoeffN01 a ha

theorem invMixCoeffN02 : ∀ a, a < 256 → tblN gMulBy14N a ^^^ tblN gMulBy11N (tblN gMulBy3N a) ^^^ tblN gMulBy13N (tblN gMulBy2N a) ^^^ tblN gMulBy9N a = 0 := by
  decide

theorem invMixCoeff02 : ∀ a, a < 256 → tbl gMulBy14 a ^^^ tbl gMulBy11 (tbl gMulBy3 a) ^^^ tbl gMulBy13 (tbl gMulBy2 a) ^^^ tbl gMulBy9 a = 0 := by
  intro a ha
  rw [gMulBy2_agree a ha, gMulBy3_agree a ha, gMulBy14_agree a ha, gMulBy11_agree _ (tblN_lt _ _), gMulBy13_agree _ (tblN_lt _ _), gMulBy9_agree a ha]
  exact invMixCoeffN02 a ha

theorem invMixCoeffN03 : ∀ a, a < 256 → tblN gMulBy14N a ^^^ tblN gMulBy11N a ^^^ tblN gMulBy13N (tblN gMulBy3N a) ^^^ tblN gMulBy9N (tblN gMulBy2N a) = 0 := by
  decide

theorem invMixCoeff03 : ∀ a, a < 256 → tbl gMulBy14 a ^^^ tbl gMulBy11 a ^^^ tbl gMulBy13 (tbl gMulBy3 a) ^^^ tbl gMulBy9 (tbl gMulBy2 a) = 0 := by
  intro a ha
  rw [gMulBy2_agree a ha, gMulBy3_agree a ha, gMulBy14_agree a ha, gMulBy11_agree a ha, gMulBy13_agree _ (tblN_lt _ _), gMulBy9_agree _ (tblN_lt _ _)]
  exact invMixCoeffN03 a ha

theorem invMixCoeffN10 : ∀ a, a < 256 → tblN gMulBy9N (tblN gMulBy2N a) ^^^ tblN gMulBy14N a ^^^ tblN gMulBy11N a ^^^ tblN gMulBy13N (tblN gMulBy3N a) = 0 := by
  decide

theorem invMixCoeff10 : ∀ a, a < 256 → tbl gMulBy9 (tbl gMulBy2 a) ^^^ tbl gMulBy14 a ^^^ tbl gMulBy11 a ^^^ tbl gMulBy13 (tbl gMulBy3 a) = 0 := by
  intro a ha
  rw [gMulBy2_agree a ha, gMulBy3_agree a ha, gMulBy9_agree _ (tblN_lt _ _), gMulBy14_agree a ha, gMulBy11_agree a ha, gMulBy13_agree _ (tblN_lt _ _)]
  exact invMixCoeffN10 a ha

theorem invMixCoeffN11 : ∀ a, a < 256 → tblN gMulBy9N (tblN gMulBy3N a) ^^^ tblN gMulBy14N (tblN gMulBy2N a) ^^^ tblN gMulBy11N a ^^^ tblN gMulBy13N a = a := by
  decide

theorem invMixCoeff11 : ∀ a, a < 256 → tbl gMulBy9 (tbl gMulBy3 a) ^^^ tbl gMulBy14 (tbl gMulBy2 a) ^^^ tbl gMulBy11 a ^^^ tbl gMulBy13 a = a := by
  intro a ha
  rw [gMulBy2_agree a ha, gMulBy3_agree a ha, gMulBy9_agree _ (tblN_lt _ _), gMulBy14_agree _ (tblN_lt _ _), gMulBy11_agree a ha, gMulBy13_agree a ha]
  exact invMixCoeffN11 a ha

theorem invMixCoeffN12 : ∀ a, a < 256 → tblN gMulBy9N a ^^^ tblN gMulBy14N (tblN gMulBy3N a) ^^^ tblN gMulBy11N (tblN gMulBy2N a) ^^^ tblN gMulBy13N a = 0 := by
  decide

theorem invMixCoeff12 : ∀ a, a < 256 → tbl gMulBy9 a ^^^ tbl gMulBy14 (tbl gMulBy3 a) ^^^ tbl gMulBy11 (tbl gMulBy2 a) ^^^ tbl gMulBy13 a = 0 := by
  intro a ha
  rw [gMulBy2_agree a ha, gMulBy3_agree a ha, gMulBy9_agree a ha, gMulBy14_agree _ (tblN_lt _ _), gMulBy11_agree _ (tblN_lt _ _), gMulBy13_agree a ha]
  exact invMixCoeffN12 a ha

theorem invMixCoeffN13 : ∀ a, a < 256 → tblN gMulBy9N a ^^^ tblN gMulBy14N a ^^^ tblN gMulBy11N (tblN gMulBy3N a) ^^^ tblN gMulBy13N (tblN gMulBy2N a) = 0 := by
  decide

theorem invMixCoeff13 : ∀ a, a < 256 → tbl gMulBy9 a ^^^ tbl gMulBy14 a ^^^ tbl gMulBy11 (tbl gMulBy3 a) ^^^ tbl gMulBy13 (tbl gMulBy2 a) = 0 := by
  intro a ha
  rw [gMulBy2_agree a ha, gMulBy3_agree a ha, gMulBy9_agree a ha, gMulBy14_agree a ha, gMulBy11_agree _ (tblN_lt _ _), gMulBy13_agree _ (tblN_lt _ _)]
  exact invMixCoeffN13 a ha

theorem invMixCoeffN20 : ∀ a, a < 256 → tblN gMulBy13N (tblN gMulBy2N a) ^^^ tblN gMulBy9N a ^^^ tblN gMulBy14N a ^^^ tblN gMulBy11N (tblN gMulBy3N a) = 0 := by
  decide

theorem invMixCoeff20 : ∀ a, a < 256 → tbl gMulBy13 (tbl gMulBy2 a) ^^^ tbl gMulBy9 a ^^^ tbl gMulBy14 a ^^^ tbl gMulBy11 (tbl gMulBy3 a) = 0 := by
  intro a ha
  rw [gMulBy2_agree a ha, gMulBy3_agree a ha, gMulBy13_agree _ (tblN_lt _ _), gMulBy9_agree a ha, gMulBy14_agree a ha, gMulBy11_agree _ (tblN_lt _ _)]
  exact invMixCoeffN20 a ha

theorem invMixCoeffN21 : ∀ a, a < 256 → tblN gMulBy13N (tblN gMulBy3N a) ^^^ tblN gMulBy9N (tblN gMulBy2N a) ^^^ tblN gMulBy14N a ^^^ tblN gMulBy11N a = 0 := by
  decide

theorem invMixCoeff21 : ∀ a, a < 256 → tbl gMulBy13 (tbl gMulBy3 a) ^^^ tbl gMulBy9 (tbl gMulBy2 a) ^^^ tbl gMulBy14 a ^^^ tbl gMulBy11 a = 0 := by
  intro a ha
  rw [gMulBy2_agree a ha, gMulBy3_agree a ha, gMulBy13_agree _ (tblN_lt _ _), gMulBy9_agree _ (tblN_lt _ _), gMulBy14_agree a ha, gMulBy11_agree a ha]
  exact invMixCoeffN21 a ha

theorem invMixCoeffN22 : ∀ a, a < 256 → tblN gMulBy13N a ^^^ tblN gMulBy9N (tblN gMulBy3N a) ^^^ tblN gMulBy14N (tblN gMulBy2N a) ^^^ tblN gMulBy11N a = a := by
  decide

theorem invMixCoeff22 : ∀ a, a < 256 → tbl gMulBy13 a ^^^ tbl gMulBy9 (tbl gMulBy3 a) ^^^ tbl gMulBy14 (tbl gMulBy2 a) ^^^ tbl gMulBy11 a = a := by
  intro a ha
  rw [gMulBy2_agree a ha, gMulBy3_agree a ha, gMulBy13_agree a ha, gMulBy9_agree _ (tblN_lt _ _), gMulBy14_agree _ (tblN_lt _ _), gMulBy11_agree a ha]
  exact invMixCoeffN22 a ha

theorem invMixCoeffN23 : ∀ a, a < 256 → tblN gMulBy13N a ^^^ tblN gMulBy9N a ^^^ tblN gMulBy14N (tblN gMulBy3N a) ^^^ tblN gMulBy11N (tblN gMulBy2N a) = 0 := by
  decide

theorem invMixCoeff23 : ∀ a, a < 256 → tbl gMulBy13 a ^^^ tbl gMulBy9 a ^^^ tbl gMulBy14 (tbl gMulBy3 a) ^^^ tbl gMulBy11 (tbl gMulBy2 a) = 0 := by
  intro a ha
  rw [gMulBy2_agree a ha, gMulBy3_agree a ha, gMulBy13_agree a ha, gMulBy9_agree a ha, gMulBy14_agree _ (tblN_lt _ _), gMulBy11_agree _ (tblN_lt _ _)]
  exact invMixCoeffN23 a ha

theorem invMixCoeffN30 : ∀ a, a < 256 → tblN gMulBy11N (tblN gMulBy2N a) ^^^ tblN gMulBy13N a ^^^ tblN gMulBy9N a ^^^ tblN gMulBy14N (tblN gMulBy3N a) = 0 := by
  decide

theorem invMixCoeff30 : ∀ a, a < 256 → tbl gMulBy11 (tbl gMulBy2 a) ^^^ tbl gMulBy13 a ^^^ tbl gMulBy9 a ^^^ tbl gMulBy14 (tbl gMulBy3 a) = 0 := by
  intro a ha
  rw [gMulBy2_agree a ha, gMulBy3_agree a ha, gMulBy11_agree _ (tblN_lt _ _), gMulBy13_agree a ha, gMulBy9_agree a ha, gMulBy14_agree _ (tblN_lt _ _)]
  exact invMixCoeffN30 a ha

theorem invMixCoeffN31 : ∀ a, a < 256 → tblN gMulBy11N (tblN gMulBy3N a) ^^^ tblN gMulBy13N (tblN gMulBy2N a) ^^^ tblN gMulBy9N a ^^^ tblN gMulBy14N a = 0 := by
  decide

theorem invMixCoeff31 : ∀ a, a < 256 → tbl gMulBy11 (tbl gMulBy3 a) ^^^ tbl gMulBy13 (tbl gMulBy2 a) ^^^ tbl gMulBy9 a ^^^ tbl gMulBy14 a = 0 := by
  intro a ha
  rw [gMulBy2_agree a ha, gMulBy3_agree a ha, gMulBy11_agree _ (tblN_lt _ _), gMulBy13_agree _ (tblN_lt _ _), gMulBy9_agree a ha, gMulBy14_agree a ha]
  exact invMixCoeffN31 a ha

theorem invMixCoeffN32 : ∀ a, a < 256 → tblN gMulBy11N a ^^^ tblN gMulBy13N (tblN gMulBy3N a) ^^^ tblN gMulBy9N (tblN gMulBy2N a) ^^^ tblN gMulBy14N a = 0 := by
  decide

theorem invMixCoeff32 : ∀ a, a < 256 → tbl gMulBy11 a ^^^ tbl gMulBy13 (tbl gMulBy3 a) ^^^ tbl gMulBy9 (tbl gMulBy2 a) ^^^ tbl gMulBy14 a = 0 := by
  intro a ha
  rw [gMulBy2_agree a ha, gMulBy3_agree a ha, gMulBy11_agree a ha, gMulBy13_agree _ (tblN_lt _ _), gMulBy9_agree _ (tblN_lt _ _), gMulBy14_agree a ha]
  exact invMixCoeffN32 a ha

theorem invMixCoeffN33 : ∀ a, a < 256 → tblN gMulBy11N a ^^^ tblN gMulBy13N a ^^^ tblN gMulBy9N (tblN gMulBy3N a) ^^^ tblN gMulBy14N (tblN gMulBy2N a) = a := by
  decide

theorem invMixCoeff33 : ∀ a, a < 256 → tbl gMulBy11 a ^^^ tbl gMulBy13 a ^^^ tbl gMulBy9 (tbl gMulBy3 a) ^^^ tbl gMulBy14 (tbl gMulBy2 a) = a := by
  intro a ha
  rw [gMulBy2_agree a ha, gMulBy3_agree a ha, gMulBy11_agree a ha, gMulBy13_agree a ha, gMulBy9_agree _ (tblN_lt _ _), gMulBy14_agree _ (tblN_lt _ _)]
  exact invMixCoeffN33 a ha

theorem subWord_packW {a b c d : Nat} (ha : a < 256) (hb : b < 256) (hc : c < 256)
    (hd : d < 256) :
    subWord (packW a b c d) =
      packW (tbl sbox0 a) (tbl sbox0 b) (tbl sbox0 c) (tbl sbox0 d) := by
  unfold subWord
  rw [packW_shr24 hb hc hd, packW_shr16_and hb hc hd, packW_shr8_and hb hc hd,
    packW_and255 hb hc hd]
  rfl

theorem invSubWord_packW {a b c d : Nat} (ha : a < 256) (hb : b < 256) (hc : c < 256)
    (hd : d < 256) :
    invSubWord (packW a b c d) =
      packW (tbl sbox1 a) (tbl sbox1 b) (tbl sbox1 c) (tbl sbox1 d) := by
  unfold invSubWord
  rw [packW_shr24 hb hc hd, packW_shr16_and hb hc hd, packW_shr8_and hb hc hd,
    packW_and255 hb hc hd]
  rfl

theorem subWord_lt (w : Nat) : subWord w < 2 ^ 32 := by
  unfold subWord
  exact packW_lt (sbox0_lt _) (sbox0_lt _) (sbox0_lt _) (sbox0_lt _)

theorem invSubWord_lt (w : Nat) : invSubWord w < 2 ^ 32 := by
  unfold invSubWord
  exact packW_lt (sbox1_lt _) (sbox1_lt _) (sbox1_lt _) (sbox1_lt _)

theorem invSubWord_subWord {w : Nat} (hw : w < 2 ^ 32) : invSubWord (subWord w) = w := by
  obtain ⟨a, b, c, d, ha, hb, hc, hd, rfl⟩ := exists_bytes hw
  rw [subWord_packW ha hb hc hd,
    invSubWord_packW (sbox0_lt _) (sbox0_lt _) (sbox0_lt _) (sbox0_lt _),
    sbox1_sbox0 a ha, sbox1_sbox0 b hb, sbox1_sbox0 c hc, sbox1_sbox0 d hd]

theorem rotWordLeft1_packW {a b c d : Nat} (ha : a < 256) (hb : b < 256) (hc : c < 256)
    (hd : d < 256) : rotWordLeft (packW a b c d) 1 = packW b c d a := by
  unfold rotWordLeft
  rw [show 32 - 8 * 1 = 24 from rfl, show 8 * 1 = 8 from rfl, packW_shr24 hb hc hd,
    packW_eq hb hc hd, Nat.shiftLeft_eq, show (2 : Nat) ^ 8 = 256 from rfl,
    show (2 : Nat) ^ 32 = 4294967296 from rfl,
    show (a * 16777216 + b * 65536 + c * 256 + d) * 256 % 4294967296 =
      b * 16777216 + c * 65536 + d * 256 from by omega,
    packW_eq hc hd ha, Nat.or_comm,
    show b * 16777216 + c * 65536 + d * 256 = 2 ^ 8 * (b * 65536 + c * 256 + d) from by ring,
    ← Nat.mul_add_lt_is_or (show a < 2 ^ 8 from ha) _]

theorem rotWordLeft2_packW {a b c d : Nat} (ha : a < 256) (hb : b < 256) (hc : c < 256)
    (hd : d < 256) : rotWordLeft (packW a b c d) 2 = packW c d a b := by
  unfold rotWordLeft
  rw [show 32 - 8 * 2 = 16 from rfl, show 8 * 2 = 16 from rfl, packW_eq hb hc hd,
    Nat.shiftRight_eq_div_pow, Nat.shiftLeft_eq, show (2 : Nat) ^ 16 = 65536 from rfl,
    show (2 : Nat) ^ 32 = 4294967296 from rfl,
    show (a * 16777216 + b * 65536 + c * 256 + d) / 65536 = a * 256 + b from by omega,
    show (a * 16777216 + b * 65536 + c * 256 + d) * 65536 % 4294967296 =
      c * 16777216 + d * 65536 from by omega,
    packW_eq hd ha hb, Nat.or_comm,
    show c * 16777216 + d * 65536 = 2 ^ 16 * (c * 256 + d) from by ring,
    ← Nat.mul_add_lt_is_or (show a * 256 + b < 2 ^ 16 from by omega) _]
  ring

theorem rotWordLeft3_packW {a b c d : Nat} (ha : a < 256) (hb : b < 256) (hc : c < 256)
    (hd : d < 256) : rotWordLeft (packW a b c d) 3 = packW d a b c := by
  unfold rotWordLeft
  rw [show 32 - 8 * 3 = 8 from rfl, show 8 * 3 = 24 from rfl, packW_eq hb hc hd,
    Nat.shiftRight_eq_div_pow, Nat.shiftLeft_eq, show (2 : Nat) ^ 8 = 256 from rfl,
    show (2 : Nat) ^ 24 = 16777216 from rfl,
    show (2 : Nat) ^ 32 = 4294967296 from rfl,
    show (a * 16777216 + b * 65536 + c * 256 + d) / 256 = a * 65536 + b * 256 + c from by omega,
    show (a * 16777216 + b * 65536 + c * 256 + d) * 16777216 % 4294967296 =
      d * 16777216 from by omega,
    packW_eq ha hb hc, Nat.or_comm,
    show d * 16777216 = 2 ^ 24 * d from by ring,
    ← Nat.mul_add_lt_is_or (show a * 65536 + b * 256 + c < 2 ^ 24 from by omega) _]
  ring

theorem rotWordRight1_packW {a b c d : Nat} (ha : a < 256) (hb : b < 256) (hc : c < 256)
    (hd : d < 256) : rotWordRight (packW a b c d) 1 = packW d a b c := by
  unfold rotWordRight
  rw [show 32 - 8 * 1 = 24 from rfl, show 8 * 1 = 8 from rfl, packW_eq hb hc hd,
    Nat.shiftRight_eq_div_pow, Nat.shiftLeft_eq, show (2 : Nat) ^ 8 = 256 from rfl,
    show (2 : Nat) ^ 24 = 16777216 from rfl,
    show (2 : Nat) ^ 32 = 4294967296 from rfl,
    show (a * 16777216 + b * 65536 + c * 256 + d) / 256 = a * 65536 + b * 256 + c from by omega,
    show (a * 16777216 + b * 65536 + c * 256 + d) * 16777216 % 4294967296 =
      d * 16777216 from by omega,
    packW_eq ha hb hc,
    show d * 16777216 = 2 ^ 24 * d from by ring,
    ← Nat.mul_add_lt_is_or (show a * 65536 + b * 256 + c < 2 ^ 24 from by omega) _]
  ring

theorem rotWordRight2_packW {a b c d : Nat} (ha : a < 256) (hb : b < 256) (hc : c < 256)
    (hd : d < 256) : rotWordRight (packW a b c d) 2 = packW c d a b := by
  unfold rotWordRight
  rw [show 32 - 8 * 2 = 16 from rfl, show 8 * 2 = 16 from rfl, packW_eq hb hc hd,
    Nat.shiftRight_eq_div_pow, Nat.shiftLeft_eq, show (2 : Nat) ^ 16 = 65536 from rfl,
    show (2 : Nat) ^ 32 = 4294967296 from rfl,
    show (a * 16777216 + b * 65536 + c * 256 + d) / 65536 = a * 256 + b from by omega,
    show (a * 16777216 + b * 65536 + c * 256 + d) * 65536 % 4294967296 =
      c * 16777216 + d * 65536 from by omega,
    packW_eq hd ha hb,
    show c * 16777216 + d * 65536 = 2 ^ 16 * (c * 256 + d) from by ring,
    ← Nat.mul_add_lt_is_or (show a * 256 + b < 2 ^ 16 from by omega) _]
  ring

theorem rotWordRight3_packW {a b c d : Nat} (ha : a < 256) (hb : b < 256) (hc : c < 256)
    (hd : d < 256) : rotWordRight (packW a b c d) 3 = packW b c d a := by
  unfold rotWordRight
  rw [show 32 - 8 * 3 = 8 from rfl, show 8 * 3 = 24 from rfl, packW_shr24 hb hc hd,
    packW_eq hb hc hd, Nat.shiftLeft_eq, show (2 : Nat) ^ 8 = 256 from rfl,
    show (2 : Nat) ^ 32 = 4294967296 from rfl,
    show (a * 16777216 + b * 65536 + c * 256 + d) * 256 % 4294967296 =
      b * 16777216 + c * 65536 + d * 256 from by omega,
    packW_eq hc hd ha,
    show b * 16777216 + c * 65536 + d * 256 = 2 ^ 8 * (b * 65536 + c * 256 + d) from by ring,
    ← Nat.mul_add_lt_is_or (show a < 2 ^ 8 from ha) _]

theorem rotWordLeft_lt {w : Nat} (hw : w < 2 ^ 32) (n : Nat) : rotWordLeft w n < 2 ^ 32 := by
  unfold rotWordLeft
  refine Nat.or_lt_two_pow ?_ (Nat.mod_lt _ (by omega))
  rw [Nat.shiftRight_eq_div_pow]
  exact lt_of_le_of_lt (Nat.div_le_self _ _) hw

theorem rotWordRight_lt {w : Nat} (hw : w < 2 ^ 32) (n : Nat) : rotWordRight w n < 2 ^ 32 := by
  unfold rotWordRight
  refine Nat.or_lt_two_pow (Nat.mod_lt _ (by omega)) ?_
  rw [Nat.shiftRight_eq_div_pow]
  exact lt_of_le_of_lt (Nat.div_le_self _ _) hw

theorem lor_packW0 {a b c r : Nat} (hb : b < 256) (hc : c < 256) (hr : r < 256) :
    packW a b c 0 ||| r = packW a b c r := by
  rw [packW_eq hb hc (by omega), packW_eq hb hc hr,
    show a * 16777216 + b * 65536 + c * 256 + 0 =
      2 ^ 8 * (a * 65536 + b * 256 + c) from by ring,
    ← Nat.mul_add_lt_is_or (show r < 2 ^ 8 from hr)]
  ring

theorem manipCol0_packW (calcf : Nat → Nat → Nat → Nat → Nat × Nat × Nat × Nat)
    {x00 x01 x02 x03 x10 x11 x12 x13 x20 x21 x22 x23 x30 x31 x32 x33 : Nat}
    (h00 : x00 < 256) (h01 : x01 < 256) (h02 : x02 < 256) (h03 : x03 < 256)
    (h10 : x10 < 256) (h11 : x11 < 256) (h12 : x12 < 256) (h13 : x13 < 256)
    (h20 : x20 < 256) (h21 : x21 < 256) (h22 : x22 < 256) (h23 : x23 < 256)
    (h30 : x30 < 256) (h31 : x31 < 256) (h32 : x32 < 256) (h33 : x33 < 256) :
    manipCol calcf 0 [packW x00 x01 x02 x03, packW x10 x11 x12 x13, packW x20 x21 x22 x23, packW x30 x31 x32 x33] =
      [packW (calcf x00 x10 x20 x30).1 x01 x02 x03,
       packW (calcf x00 x10 x20 x30).2.1 x11 x12 x13,
       packW (calcf x00 x10 x20 x30).2.2.1 x21 x22 x23,
       packW (calcf x00 x10 x20 x30).2.2.2 x31 x32 x33] := by
  rw [show manipCol calcf 0 [packW x00 x01 x02 x03, packW x10 x11 x12 x13, packW x20 x21 x22 x23, packW x30 x31 x32 x33] =
      [packW x00 x01 x02 x03 &&& ((0xff <<< 24) ^^^ 0xffffffff) ||| (calcf (packW x00 x01 x02 x03 >>> 24 &&& 0xff) (packW x10 x11 x12 x13 >>> 24 &&& 0xff) (packW x20 x21 x22 x23 >>> 24 &&& 0xff) (packW x30 x31 x32 x33 >>> 24 &&& 0xff)).1 <<< 24,
       packW x10 x11 x12 x13 &&& ((0xff <<< 24) ^^^ 0xffffffff) ||| (calcf (packW x00 x01 x02 x03 >>> 24 &&& 0xff) (packW x10 x11 x12 x13 >>> 24 &&& 0xff) (packW x20 x21 x22 x23 >>> 24 &&& 0xff) (packW x30 x31 x32 x33 >>> 24 &&& 0xff)).2.1 <<< 24,
       packW x20 x21 x22 x23 &&& ((0xff <<< 24) ^^^ 0xffffffff) ||| (calcf (packW x00 x01 x02 x03 >>> 24 &&& 0xff) (packW x10 x11 x12 x13 >>> 24 &&& 0xff) (packW x20 x21 x22 x23 >>> 24 &&& 0xff) (packW x30 x31 x32 x33 >>> 24 &&& 0xff)).2.2.1 <<< 24,
       packW x30 x31 x32 x33 &&& ((0xff <<< 24) ^^^ 0xffffffff) ||| (calcf (packW x00 x01 x02 x03 >>> 24 &&& 0xff) (packW x10 x11 x12 x13 >>> 24 &&& 0xff) (packW x20 x21 x22 x23 >>> 24 &&& 0xff) (packW x30 x31 x32 x33 >>> 24 &&& 0xff)).2.2.2 <<< 24] from rfl]
  rw [packW_shr24_and h00 h01 h02 h03, packW_shr24_and h10 h11 h12 h13, packW_shr24_and h20 h21 h22 h23, packW_shr24_and h30 h31 h32 h33]
  rw [show (0xff <<< 24) ^^^ 0xffffffff = packW 0 0xff 0xff 0xff from rfl]
  rw [land_packW h01 h02 h03 (show (0xff : Nat) < 256 by omega) (show (0xff : Nat) < 256 by omega) (show (0xff : Nat) < 256 by omega), land_packW h11 h12 h13 (show (0xff : Nat) < 256 by omega) (show (0xff : Nat) < 256 by omega) (show (0xff : Nat) < 256 by omega), land_packW h21 h22 h23 (show (0xff : Nat) < 256 by omega) (show (0xff : Nat) < 256 by omega) (show (0xff : Nat) < 256 by omega), land_packW h31 h32 h33 (show (0xff : Nat) < 256 by omega) (show (0xff : Nat) < 256 by omega) (show (0xff : Nat) < 256 by omega)]
  rw [and255_of_lt h01, and255_of_lt h02, and255_of_lt h03, and255_of_lt h11, and255_of_lt h12, and255_of_lt h13, and255_of_lt h21, and255_of_lt h22, and255_of_lt h23, and255_of_lt h31, and255_of_lt h32, and255_of_lt h33]
  simp only [Nat.and_zero]
  simp only [shl24_eq_packW]
  rw [lor_packW h01 h02 h03 (show (0 : Nat) < 256 by omega) (show (0 : Nat) < 256 by omega) (show (0 : Nat) < 256 by omega), lor_packW h11 h12 h13 (show (0 : Nat) < 256 by omega) (show (0 : Nat) < 256 by omega) (show (0 : Nat) < 256 by omega), lor_packW h21 h22 h23 (show (0 : Nat) < 256 by omega) (show (0 : Nat) < 256 by omega) (show (0 : Nat) < 256 by omega), lor_packW h31 h32 h33 (show (0 : Nat) < 256 by omega) (show (0 : Nat) < 256 by omega) (show (0 : Nat) < 256 by omega)]
  simp only [Nat.zero_or, Nat.or_zero]

theorem manipCol1_packW (calcf : Nat → Nat → Nat → Nat → Nat × Nat × Nat × Nat)
    {x00 x01 x02 x03 x10 x11 x12 x13 x20 x21 x22 x23 x30 x31 x32 x33 : Nat}
    (h00 : x00 < 256) (h01 : x01 < 256) (h02 : x02 < 256) (h03 : x03 < 256)
    (h10 : x10 < 256) (h11 : x11 < 256) (h12 : x12 < 256) (h13 : x13 < 256)
    (h20 : x20 < 256) (h21 : x21 < 256) (h22 : x22 < 256) (h23 : x23 < 256)
    (h30 : x30 < 256) (h31 : x31 < 256) (h32 : x32 < 256) (h33 : x33 < 256)
    (hr0 : (calcf x01 x11 x21 x31).1 < 256) (hr1 : (calcf x01 x11 x21 x31).2.1 < 256) (hr2 : (calcf x01 x11 x21 x31).2.2.1 < 256) (hr3 : (calcf x01 x11 x21 x31).2.2.2 < 256) :
    manipCol calcf 1 [packW x00 x01 x02 x03, packW x10 x11 x12 x13, packW x20 x21 x22 x23, packW x30 x31 x32 x33] =
      [packW x00 (calcf x01 x11 x21 x31).1 x02 x03,
       packW x10 (calcf x01 x11 x21 x31).2.1 x12 x13,
       packW x20 (calcf x01 x11 x21 x31).2.2.1 x22 x23,
       packW x30 (calcf x01 x11 x21 x31).2.2.2 x32 x33] := by
  rw [show manipCol calcf 1 [packW x00 x01 x02 x03, packW x10 x11 x12 x13, packW x20 x21 x22 x23, packW x30 x31 x32 x33] =
      [packW x00 x01 x02 x03 &&& ((0xff <<< 16) ^^^ 0xffffffff) ||| (calcf (packW x00 x01 x02 x03 >>> 16 &&& 0xff) (packW x10 x11 x12 x13 >>> 16 &&& 0xff) (packW x20 x21 x22 x23 >>> 16 &&& 0xff) (packW x30 x31 x32 x33 >>> 16 &&& 0xff)).1 <<< 16,
       packW x10 x11 x12 x13 &&& ((0xff <<< 16) ^^^ 0xffffffff) ||| (calcf (packW x00 x01 x02 x03 >>> 16 &&& 0xff) (packW x10 x11 x12 x13 >>> 16 &&& 0xff) (packW x20 x21 x22 x23 >>> 16 &&& 0xff) (packW x30 x31 x32 x33 >>> 16 &&& 0xff)).2.1 <<< 16,
       packW x20 x21 x22 x23 &&& ((0xff <<< 16) ^^^ 0xffffffff) ||| (calcf (packW x00 x01 x02 x03 >>> 16 &&& 0xff) (packW x10 x11 x12 x13 >>> 16 &&& 0xff) (packW x20 x21 x22 x23 >>> 16 &&& 0xff) (packW x30 x31 x32 x33 >>> 16 &&& 0xff)).2.2.1 <<< 16,
       packW x30 x31 x32 x33 &&& ((0xff <<< 16) ^^^ 0xffffffff) ||| (calcf (packW x00 x01 x02 x03 >>> 16 &&& 0xff) (packW x10 x11 x12 x13 >>> 16 &&& 0xff) (packW x20 x21 x22 x23 >>> 16 &&& 0xff) (packW x30 x31 x32 x33 >>> 16 &&& 0xff)).2.2.2 <<< 16] from rfl]
  rw [packW_shr16_and h01 h02 h03, packW_shr16_and h11 h12 h13, packW_shr16_and h21 h22 h23, packW_shr16_and h31 h32 h33]
  rw [show (0xff <<< 16) ^^^ 0xffffffff = packW 0xff 0 0xff 0xff from rfl]
  rw [land_packW h01 h02 h03 (show (0 : Nat) < 256 by omega) (show (0xff : Nat) < 256 by omega) (show (0xff : Nat) < 256 by omega), land_packW h11 h12 h13 (show (0 : Nat) < 256 by omega) (show (0xff : Nat) < 256 by omega) (show (0xff : Nat) < 256 by omega), land_packW h21 h22 h23 (show (0 : Nat) < 256 by omega) (show (0xff : Nat) < 256 by omega) (show (0xff : Nat) < 256 by omega), land_packW h31 h32 h33 (show (0 : Nat) < 256 by omega) (show (0xff : Nat) < 256 by omega) (show (0xff : Nat) < 256 by omega)]
  rw [and255_of_lt h00, and255_of_lt h02, and255_of_lt h03, and255_of_lt h10, and255_of_lt h12, and255_of_lt h13, and255_of_lt h20, and255_of_lt h22, and255_of_lt h23, and255_of_lt h30, and255_of_lt h32, and255_of_lt h33]
  simp only [Nat.and_zero]
  simp only [shl16_eq_packW]
  rw [lor_packW (show (0 : Nat) < 256 by omega) h02 h03 hr0 (show (0 : Nat) < 256 by omega) (show (0 : Nat) < 256 by omega), lor_packW (show (0 : Nat) < 256 by omega) h12 h13 hr1 (show (0 : Nat) < 256 by omega) (show (0 : Nat) < 256 by omega), lor_packW (show (0 : Nat) < 256 by omega) h22 h23 hr2 (show (0 : Nat) < 256 by omega) (show (0 : Nat) < 256 by omega), lor_packW (show (0 : Nat) < 256 by omega) h32 h33 hr3 (show (0 : Nat) < 256 by omega) (show (0 : Nat) < 256 by omega)]
  simp only [Nat.zero_or, Nat.or_zero]

theorem manipCol2_packW (calcf : Nat → Nat → Nat → Nat → Nat × Nat × Nat × Nat)
    {x00 x01 x02 x03 x10 x11 x12 x13 x20 x21 x22 x23 x30 x31 x32 x33 : Nat}
    (h00 : x00 < 256) (h01 : x01 < 256) (h02 : x02 < 256) (h03 : x03 < 256)
    (h10 : x10 < 256) (h11 : x11 < 256) (h12 : x12 < 256) (h13 : x13 < 256)
    (h20 : x20 < 256) (h21 : x21 < 256) (h22 : x22 < 256) (h23 : x23 < 256)
    (h30 : x30 < 256) (h31 : x31 < 256) (h32 : x32 < 256) (h33 : x33 < 256)
    (hr0 : (calcf x02 x12 x22 x32).1 < 256) (hr1 : (calcf x02 x12 x22 x32).2.1 < 256) (hr2 : (calcf x02 x12 x22 x32).2.2.1 < 256) (hr3 : (calcf x02 x12 x22 x32).2.2.2 < 256) :
    manipCol calcf 2 [packW x00 x01 x02 x03, packW x10 x11 x12 x13, packW x20 x21 x22 x23, packW x30 x31 x32 x33] =
      [packW x00 x01 (calcf x02 x12 x22 x32).1 x03,
       packW x10 x11 (calcf x02 x12 x22 x32).2.1 x13,
       packW x20 x21 (calcf x02 x12 x22 x32).2.2.1 x23,
       packW x30 x31 (calcf x02 x12 x22 x32).2.2.2 x33] := by
  rw [show manipCol calcf 2 [packW x00 x01 x02 x03, packW x10 x11 x12 x13, packW x20 x21 x22 x23, packW x30 x31 x32 x33] =
      [packW x00 x01 x02 x03 &&& ((0xff <<< 8) ^^^ 0xffffffff) ||| (calcf (packW x00 x01 x02 x03 >>> 8 &&& 0xff) (packW x10 x11 x12 x13 >>> 8 &&& 0xff) (packW x20 x21 x22 x23 >>> 8 &&& 0xff) (packW x30 x31 x32 x33 >>> 8 &&& 0xff)).1 <<< 8,
       packW x10 x11 x12 x13 &&& ((0xff <<< 8) ^^^ 0xffffffff) ||| (calcf (packW x00 x01 x02 x03 >>> 8 &&& 0xff) (packW x10 x11 x12 x13 >>> 8 &&& 0xff) (packW x20 x21 x22 x23 >>> 8 &&& 0xff) (packW x30 x31 x32 x33 >>> 8 &&& 0xff)).2.1 <<< 8,
       packW x20 x21 x22 x23 &&& ((0xff <<< 8) ^^^ 0xffffffff) ||| (calcf (packW x00 x01 x02 x03 >>> 8 &&& 0xff) (packW x10 x11 x12 x13 >>> 8 &&& 0xff) (packW x20 x21 x22 x23 >>> 8 &&& 0xff) (packW x30 x31 x32 x33 >>> 8 &&& 0xff)).2.2.1 <<< 8,
       packW x30 x31 x32 x33 &&& ((0xff <<< 8) ^^^ 0xffffffff) ||| (calcf (packW x00 x01 x02 x03 >>> 8 &&& 0xff) (packW x10 x11 x12 x13 >>> 8 &&& 0xff) (packW x20 x21 x22 x23 >>> 8 &&& 0xff) (packW x30 x31 x32 x33 >>> 8 &&& 0xff)).2.2.2 <<< 8] from rfl]
  rw [packW_shr8_and h01 h02 h03, packW_shr8_and h11 h12 h13, packW_shr8_and h21 h22 h23, packW_shr8_and h31 h32 h33]
  rw [show (0xff <<< 8) ^^^ 0xffffffff = packW 0xff 0xff 0 0xff from rfl]
  rw [land_packW h01 h02 h03 (show (0xff : Nat) < 256 by omega) (show (0 : Nat) < 256 by omega) (show (0xff : Nat) < 256 by omega), land_packW h11 h12 h13 (show (0xff : Nat) < 256 by omega) (show (0 : Nat) < 256 by omega) (show (0xff : Nat) < 256 by omega), land_packW h21 h22 h23 (show (0xff : Nat) < 256 by omega) (show (0 : Nat) < 256 by omega) (show (0xff : Nat) < 256 by omega), land_packW h31 h32 h33 (show (0xff : Nat) < 256 by omega) (show (0 : Nat) < 256 by omega) (show (0xff : Nat) < 256 by omega)]
  rw [and255_of_lt h00, and255_of_lt h01, and255_of_lt h03, and255_of_lt h10, and255_of_lt h11, and255_of_lt h13, and255_of_lt h20, and255_of_lt h21, and255_of_lt h23, and255_of_lt h30, and255_of_lt h31, and255_of_lt h33]
  simp only [Nat.and_zero]
  simp only [shl8_eq_packW]
  rw [lor_packW h01 (show (0 : Nat) < 256 by omega) h03 (show (0 : Nat) < 256 by omega) hr0 (show (0 : Nat) < 256 by omega), lor_packW h11 (show (0 : Nat) < 256 by omega) h13 (show (0 : Nat) < 256 by omega) hr1 (show (0 : Nat) < 256 by omega), lor_packW h21 (show (0 : Nat) < 256 by omega) h23 (show (0 : Nat) < 256 by omega) hr2 (show (0 : Nat) < 256 by omega), lor_packW h31 (show (0 : Nat) < 256 by omega) h33 (show (0 : Nat) < 256 by omega) hr3 (show (0 : Nat) < 256 by omega)]
  simp only [Nat.zero_or, Nat.or_zero]

theorem manipCol3_packW (calcf : Nat → Nat → Nat → Nat → Nat × Nat × Nat × Nat)
    {x00 x01 x02 x03 x10 x11 x12 x13 x20 x21 x22 x23 x30 x31 x32 x33 : Nat}
    (h00 : x00 < 256) (h01 : x01 < 256) (h02 : x02 < 256) (h03 : x03 < 256)
    (h10 : x10 < 256) (h11 : x11 < 256) (h12 : x12 < 256) (h13 : x13 < 256)
    (h20 : x20 < 256) (h21 : x21 < 256) (h22 : x22 < 256) (h23 : x23 < 256)
    (h30 : x30 < 256) (h31 : x31 < 256) (h32 : x32 < 256) (h33 : x33 < 256)
    (hr0 : (calcf x03 x13 x23 x33).1 < 256) (hr1 : (calcf x03 x13 x23 x33).2.1 < 256) (hr2 : (calcf x03 x13 x23 x33).2.2.1 < 256) (hr3 : (calcf x03 x13 x23 x33).2.2.2 < 256) :
    manipCol calcf 3 [packW x00 x01 x02 x03, packW x10 x11 x12 x13, packW x20 x21 x22 x23, packW x30 x31 x32 x33] =
      [packW x00 x01 x02 (calcf x03 x13 x23 x33).1,
       packW x10 x11 x12 (calcf x03 x13 x23 x33).2.1,
       packW x20 x21 x22 (calcf x03 x13 x23 x33).2.2.1,
       packW x30 x31 x32 (calcf x03 x13 x23 x33).2.2.2] := by
  rw [show manipCol calcf 3 [packW x00 x01 x02 x03, packW x10 x11 x12 x13, packW x20 x21 x22 x23, packW x30 x31 x32 x33] =
      [packW x00 x01 x02 x03 &&& ((0xff <<< 0) ^^^ 0xffffffff) ||| (calcf (packW x00 x01 x02 x03 >>> 0 &&& 0xff) (packW x10 x11 x12 x13 >>> 0 &&& 0xff) (packW x20 x21 x22 x23 >>> 0 &&& 0xff) (packW x30 x31 x32 x33 >>> 0 &&& 0xff)).1 <<< 0,
       packW x10 x11 x12 x13 &&& ((0xff <<< 0) ^^^ 0xffffffff) ||| (calcf (packW x00 x01 x02 x03 >>> 0 &&& 0xff) (packW x10 x11 x12 x13 >>> 0 &&& 0xff) (packW x20 x21 x22 x23 >>> 0 &&& 0xff) (packW x30 x31 x32 x33 >>> 0 &&& 0xff)).2.1 <<< 0,
       packW x20 x21 x22 x23 &&& ((0xff <<< 0) ^^^ 0xffffffff) ||| (calcf (packW x00 x01 x02 x03 >>> 0 &&& 0xff) (packW x10 x11 x12 x13 >>> 0 &&& 0xff) (packW x20 x21 x22 x23 >>> 0 &&& 0xff) (packW x30 x31 x32 x33 >>> 0 &&& 0xff)).2.2.1 <<< 0,
       packW x30 x31 x32 x33 &&& ((0xff <<< 0) ^^^ 0xffffffff) ||| (calcf (packW x00 x01 x02 x03 >>> 0 &&& 0xff) (packW x10 x11 x12 x13 >>> 0 &&& 0xff) (packW x20 x21 x22 x23 >>> 0 &&& 0xff) (packW x30 x31 x32 x33 >>> 0 &&& 0xff)).2.2.2 <<< 0] from rfl]
  simp only [Nat.shiftRight_zero]
  rw [packW_and255 h01 h02 h03, packW_and255 h11 h12 h13, packW_and255 h21 h22 h23, packW_and255 h31 h32 h33]
  rw [show (0xff <<< 0) ^^^ 0xffffffff = packW 0xff 0xff 0xff 0 from rfl]
  rw [land_packW h01 h02 h03 (show (0xff : Nat) < 256 by omega) (show (0xff : Nat) < 256 by omega) (show (0 : Nat) < 256 by omega), land_packW h11 h12 h13 (show (0xff : Nat) < 256 by omega) (show (0xff : Nat) < 256 by omega) (show (0 : Nat) < 256 by omega), land_packW h21 h22 h23 (show (0xff : Nat) < 256 by omega) (show (0xff : Nat) < 256 by omega) (show (0 : Nat) < 256 by omega), land_packW h31 h32 h33 (show (0xff : Nat) < 256 by omega) (show (0xff : Nat) < 256 by omega) (show (0 : Nat) < 256 by omega)]
  rw [and255_of_lt h00, and255_of_lt h01, and255_of_lt h02, and255_of_lt h10, and255_of_lt h11, and255_of_lt h12, and255_of_lt h20, and255_of_lt h21, and255_of_lt h22, and255_of_lt h30, and255_of_lt h31, and255_of_lt h32]
  simp only [Nat.and_zero]
  simp only [Nat.shiftLeft_zero]
  rw [lor_packW0 h01 h02 hr0, lor_packW0 h11 h12 hr1, lor_packW0 h21 h22 hr2, lor_packW0 h31 h32 hr3]

theorem manipulateColumns_packW (calcf : Nat → Nat → Nat → Nat → Nat × Nat × Nat × Nat)
    (hcf : ∀ a b c d, a < 256 → b < 256 → c < 256 → d < 256 →
      (calcf a b c d).1 < 256 ∧ (calcf a b c d).2.1 < 256 ∧
        (calcf a b c d).2.2.1 < 256 ∧ (calcf a b c d).2.2.2 < 256)
    {x00 x01 x02 x03 x10 x11 x12 x13 x20 x21 x22 x23 x30 x31 x32 x33 : Nat}
    (h00 : x00 < 256) (h01 : x01 < 256) (h02 : x02 < 256) (h03 : x03 < 256)
    (h10 : x10 < 256) (h11 : x11 < 256) (h12 : x12 < 256) (h13 : x13 < 256)
    (h20 : x20 < 256) (h21 : x21 < 256) (h22 : x22 < 256) (h23 : x23 < 256)
    (h30 : x30 < 256) (h31 : x31 < 256) (h32 : x32 < 256) (h33 : x33 < 256) :
    manipulateColumns [packW x00 x01 x02 x03, packW x10 x11 x12 x13, packW x20 x21 x22 x23, packW x30 x31 x32 x33] calcf =
      [packW (calcf x00 x10 x20 x30).1 (calcf x01 x11 x21 x31).1 (calcf x02 x12 x22 x32).1 (calcf x03 x13 x23 x33).1,
       packW (calcf x00 x10 x20 x30).2.1 (calcf x01 x11 x21 x31).2.1 (calcf x02 x12 x22 x32).2.1 (calcf x03 x13 x23 x33).2.1,
       packW (calcf x00 x10 x20 x30).2.2.1 (calcf x01 x11 x21 x31).2.2.1 (calcf x02 x12 x22 x32).2.2.1 (calcf x03 x13 x23 x33).2.2.1,
       packW (calcf x00 x10 x20 x30).2.2.2 (calcf x01 x11 x21 x31).2.2.2 (calcf x02 x12 x22 x32).2.2.2 (calcf x03 x13 x23 x33).2.2.2] := by
  obtain ⟨hA0, hA1, hA2, hA3⟩ := hcf x00 x10 x20 x30 h00 h10 h20 h30
  obtain ⟨hB0, hB1, hB2, hB3⟩ := hcf x01 x11 x21 x31 h01 h11 h21 h31
  obtain ⟨hC0, hC1, hC2, hC3⟩ := hcf x02 x12 x22 x32 h02 h12 h22 h32
  obtain ⟨hD0, hD1, hD2, hD3⟩ := hcf x03 x13 x23 x33 h03 h13 h23 h33
  unfold manipulateColumns
  rw [manipCol0_packW calcf h00 h01 h02 h03 h10 h11 h12 h13 h20 h21 h22 h23 h30 h31 h32 h33]
  rw [manipCol1_packW calcf hA0 h01 h02 h03 hA1 h11 h12 h13 hA2 h21 h22 h23 hA3 h31 h32 h33
    hB0 hB1 hB2 hB3]
  rw [manipCol2_packW calcf hA0 hB0 h02 h03 hA1 hB1 h12 h13 hA2 hB2 h22 h23 hA3 hB3 h32 h33
    hC0 hC1 hC2 hC3]
  rw [manipCol3_packW calcf hA0 hB0 hC0 h03 hA1 hB1 hC1 h13 hA2 hB2 hC2 h23 hA3 hB3 hC3 h33
    hD0 hD1 hD2 hD3]

theorem calcMixCols_lt {a0 a1 a2 a3 : Nat} (h0 : a0 < 256) (h1 : a1 < 256)
    (h2 : a2 < 256) (h3 : a3 < 256) :
    (calcMixCols a0 a1 a2 a3).1 < 256 ∧ (calcMixCols a0 a1 a2 a3).2.1 < 256 ∧
      (calcMixCols a0 a1 a2 a3).2.2.1 < 256 ∧ (calcMixCols a0 a1 a2 a3).2.2.2 < 256 :=
  ⟨xor_lt_256 (xor_lt_256 (xor_lt_256 (gMulBy2_lt _) (gMulBy3_lt _)) h2) h3,
   xor_lt_256 (xor_lt_256 (xor_lt_256 h0 (gMulBy2_lt _)) (gMulBy3_lt _)) h3,
   xor_lt_256 (xor_lt_256 (xor_lt_256 h0 h1) (gMulBy2_lt _)) (gMulBy3_lt _),
   xor_lt_256 (xor_lt_256 (xor_lt_256 (gMulBy3_lt _) h1) h2) (gMulBy2_lt _)⟩

theorem calcInvMixCols_lt (a0 a1 a2 a3 : Nat) :
    (calcInvMixCols a0 a1 a2 a3).1 < 256 ∧ (calcInvMixCols a0 a1 a2 a3).2.1 < 256 ∧
      (calcInvMixCols a0 a1 a2 a3).2.2.1 < 256 ∧ (calcInvMixCols a0 a1 a2 a3).2.2.2 < 256 :=
  ⟨xor_lt_256 (xor_lt_256 (xor_lt_256 (gMulBy14_lt _) (gMulBy11_lt _)) (gMulBy13_lt _)) (gMulBy9_lt _),
   xor_lt_256 (xor_lt_256 (xor_lt_256 (gMulBy9_lt _) (gMulBy14_lt _)) (gMulBy11_lt _)) (gMulBy13_lt _),
   xor_lt_256 (xor_lt_256 (xor_lt_256 (gMulBy13_lt _) (gMulBy9_lt _)) (gMulBy14_lt _)) (gMulBy11_lt _),
   xor_lt_256 (xor_lt_256 (xor_lt_256 (gMulBy11_lt _) (gMulBy13_lt _)) (gMulBy9_lt _)) (gMulBy14_lt _)⟩

theorem invMixBytes0 {a0 a1 a2 a3 : Nat} (h0 : a0 < 256) (h1 : a1 < 256)
    (h2 : a2 < 256) (h3 : a3 < 256) :
    tbl gMulBy14 (tbl gMulBy2 a0 ^^^ tbl gMulBy3 a1 ^^^ a2 ^^^ a3) ^^^ tbl gMulBy11 (a0 ^^^ tbl gMulBy2 a1 ^^^ tbl gMulBy3 a2 ^^^ a3) ^^^ tbl gMulBy13 (a0 ^^^ a1 ^^^ tbl gMulBy2 a2 ^^^ tbl gMulBy3 a3) ^^^ tbl gMulBy9 (tbl gMulBy3 a0 ^^^ a1 ^^^ a2 ^^^ tbl gMulBy2 a3) = a0 := by
  rw [lin4 lin_gMulBy14 (gMulBy2_lt a0) (gMulBy3_lt a1) h2 h3, lin4 lin_gMulBy11 h0 (gMulBy2_lt a1) (gMulBy3_lt a2) h3, lin4 lin_gMulBy13 h0 h1 (gMulBy2_lt a2) (gMulBy3_lt a3), lin4 lin_gMulBy9 (gMulBy3_lt a0) h1 h2 (gMulBy2_lt a3)]
  have e : (tbl gMulBy14 (tbl gMulBy2 a0) ^^^ tbl gMulBy11 a0 ^^^ tbl gMulBy13 a0 ^^^ tbl gMulBy9 (tbl gMulBy3 a0)) ^^^ (tbl gMulBy14 (tbl gMulBy3 a1) ^^^ tbl gMulBy11 (tbl gMulBy2 a1) ^^^ tbl gMulBy13 a1 ^^^ tbl gMulBy9 a1) ^^^ (tbl gMulBy14 a2 ^^^ tbl gMulBy11 (tbl gMulBy3 a2) ^^^ tbl gMulBy13 (tbl gMulBy2 a2) ^^^ tbl gMulBy9 a2) ^^^ (tbl gMulBy14 a3 ^^^ tbl gMulBy11 a3 ^^^ tbl gMulBy13 (tbl gMulBy3 a3) ^^^ tbl gMulBy9 (tbl gMulBy2 a3)) = a0 := by
    rw [invMixCoeff00 a0 h0, invMixCoeff01 a1 h1, invMixCoeff02 a2 h2, invMixCoeff03 a3 h3]
    simp
  exact Eq.trans (by ac_rfl) e

theorem invMixBytes1 {a0 a1 a2 a3 : Nat} (h0 : a0 < 256) (h1 : a1 < 256)
    (h2 : a2 < 256) (h3 : a3 < 256) :
    tbl gMulBy9 (tbl gMulBy2 a0 ^^^ tbl gMulBy3 a1 ^^^ a2 ^^^ a3) ^^^ tbl gMulBy14 (a0 ^^^ tbl gMulBy2 a1 ^^^ tbl gMulBy3 a2 ^^^ a3) ^^^ tbl gMulBy11 (a0 ^^^ a1 ^^^ tbl gMulBy2 a2 ^^^ tbl gMulBy3 a3) ^^^ tbl gMulBy13 (tbl gMulBy3 a0 ^^^ a1 ^^^ a2 ^^^ tbl gMulBy2 a3) = a1 := by
  rw [lin4 lin_gMulBy9 (gMulBy2_lt a0) (gMulBy3_lt a1) h2 h3, lin4 lin_gMulBy14 h0 (gMulBy2_lt a1) (gMulBy3_lt a2) h3, lin4 lin_gMulBy11 h0 h1 (gMulBy2_lt a2) (gMulBy3_lt a3), lin4 lin_gMulBy13 (gMulBy3_lt a0) h1 h2 (gMulBy2_lt a3)]
  have e : (tbl gMulBy9 (tbl gMulBy2 a0) ^^^ tbl gMulBy14 a0 ^^^ tbl gMulBy11 a0 ^^^ tbl gMulBy13 (tbl gMulBy3 a0)) ^^^ (tbl gMulBy9 (tbl gMulBy3 a1) ^^^ tbl gMulBy14 (tbl gMulBy2 a1) ^^^ tbl gMulBy11 a1 ^^^ tbl gMulBy13 a1) ^^^ (tbl gMulBy9 a2 ^^^ tbl gMulBy14 (tbl gMulBy3 a2) ^^^ tbl gMulBy11 (tbl gMulBy2 a2) ^^^ tbl gMulBy13 a2) ^^^ (tbl gMulBy9 a3 ^^^ tbl gMulBy14 a3 ^^^ tbl gMulBy11 (tbl gMulBy3 a3) ^^^ tbl gMulBy13 (tbl gMulBy2 a3)) = a1 := by
    rw [invMixCoeff10 a0 h0, invMixCoeff11 a1 h1, invMixCoeff12 a2 h2, invMixCoeff13 a3 h3]
    simp
  exact Eq.trans (by ac_rfl) e

theorem invMixBytes2 {a0 a1 a2 a3 : Nat} (h0 : a0 < 256) (h1 : a1 < 256)
    (h2 : a2 < 256) (h3 : a3 < 256) :
    tbl gMulBy13 (tbl gMulBy2 a0 ^^^ tbl gMulBy3 a1 ^^^ a2 ^^^ a3) ^^^ tbl gMulBy9 (a0 ^^^ tbl gMulBy2 a1 ^^^ tbl gMulBy3 a2 ^^^ a3) ^^^ tbl gMulBy14 (a0 ^^^ a1 ^^^ tbl gMulBy2 a2 ^^^ tbl gMulBy3 a3) ^^^ tbl gMulBy11 (tbl gMulBy3 a0 ^^^ a1 ^^^ a2 ^^^ tbl gMulBy2 a3) = a2 := by
  rw [lin4 lin_gMulBy13 (gMulBy2_lt a0) (gMulBy3_lt a1) h2 h3, lin4 lin_gMulBy9 h0 (gMulBy2_lt a1) (gMulBy3_lt a2) h3, lin4 lin_gMulBy14 h0 h1 (gMulBy2_lt a2) (gMulBy3_lt a3), lin4 lin_gMulBy11 (gMulBy3_lt a0) h1 h2 (gMulBy2_lt a3)]
  have e : (tbl gMulBy13 (tbl gMulBy2 a0) ^^^ tbl gMulBy9 a0 ^^^ tbl gMulBy14 a0 ^^^ tbl gMulBy11 (tbl gMulBy3 a0)) ^^^ (tbl gMulBy13 (tbl gMulBy3 a1) ^^^ tbl gMulBy9 (tbl gMulBy2 a1) ^^^ tbl gMulBy14 a1 ^^^ tbl gMulBy11 a1) ^^^ (tbl gMulBy13 a2 ^^^ tbl gMulBy9 (tbl gMulBy3 a2) ^^^ tbl gMulBy14 (tbl gMulBy2 a2) ^^^ tbl gMulBy11 a2) ^^^ (tbl gMulBy13 a3 ^^^ tbl gMulBy9 a3 ^^^ tbl gMulBy14 (tbl gMulBy3 a3) ^^^ tbl gMulBy11 (tbl gMulBy2 a3)) = a2 := by
    rw [invMixCoeff20 a0 h0, invMixCoeff21 a1 h1, invMixCoeff22 a2 h2, invMixCoeff23 a3 h3]
    simp
  exact Eq.trans (by ac_rfl) e

theorem invMixBytes3 {a0 a1 a2 a3 : Nat} (h0 : a0 < 256) (h1 : a1 < 256)
    (h2 : a2 < 256) (h3 : a3 < 256) :
    tbl gMulBy11 (tbl gMulBy2 a0 ^^^ tbl gMulBy3 a1 ^^^ a2 ^^^ a3) ^^^ tbl gMulBy13 (a0 ^^^ tbl gMulBy2 a1 ^^^ tbl gMulBy3 a2 ^^^ a3) ^^^ tbl gMulBy9 (a0 ^^^ a1 ^^^ tbl gMulBy2 a2 ^^^ tbl gMulBy3 a3) ^^^ tbl gMulBy14 (tbl gMulBy3 a0 ^^^ a1 ^^^ a2 ^^^ tbl gMulBy2 a3) = a3 := by
  rw [lin4 lin_gMulBy11 (gMulBy2_lt a0) (gMulBy3_lt a1) h2 h3, lin4 lin_gMulBy13 h0 (gMulBy2_lt a1) (gMulBy3_lt a2) h3, lin4 lin_gMulBy9 h0 h1 (gMulBy2_lt a2) (gMulBy3_lt a3), lin4 lin_gMulBy14 (gMulBy3_lt a0) h1 h2 (gMulBy2_lt a3)]
  have e : (tbl gMulBy11 (tbl gMulBy2 a0) ^^^ tbl gMulBy13 a0 ^^^ tbl gMulBy9 a0 ^^^ tbl gMulBy14 (tbl gMulBy3 a0)) ^^^ (tbl gMulBy11 (tbl gMulBy3 a1) ^^^ tbl gMulBy13 (tbl gMulBy2 a1) ^^^ tbl gMulBy9 a1 ^^^ tbl gMulBy14 a1) ^^^ (tbl gMulBy11 a2 ^^^ tbl gMulBy13 (tbl gMulBy3 a2) ^^^ tbl gMulBy9 (tbl gMulBy2 a2) ^^^ tbl gMulBy14 a2) ^^^ (tbl gMulBy11 a3 ^^^ tbl gMulBy13 a3 ^^^ tbl gMulBy9 (tbl gMulBy3 a3) ^^^ tbl gMulBy14 (tbl gMulBy2 a3)) = a3 := by
    rw [invMixCoeff30 a0 h0, invMixCoeff31 a1 h1, invMixCoeff32 a2 h2, invMixCoeff33 a3 h3]
    simp
  exact Eq.trans (by ac_rfl) e

theorem calcInv_calcMix {a0 a1 a2 a3 : Nat} (h0 : a0 < 256) (h1 : a1 < 256)
    (h2 : a2 < 256) (h3 : a3 < 256) :
    calcInvMixCols (calcMixCols a0 a1 a2 a3).1 (calcMixCols a0 a1 a2 a3).2.1 (calcMixCols a0 a1 a2 a3).2.2.1 (calcMixCols a0 a1 a2 a3).2.2.2 =
      (a0, a1, a2, a3) := by
  refine Prod.ext ?_ (Prod.ext ?_ (Prod.ext ?_ ?_))
  · exact invMixBytes0 h0 h1 h2 h3
  · exact invMixBytes1 h0 h1 h2 h3
  · exact invMixBytes2 h0 h1 h2 h3
  · exact invMixBytes3 h0 h1 h2 h3

theorem state_shape {s : List Nat} (h : s.length = 4) :
    ∃ w0 w1 w2 w3, s = [w0, w1, w2, w3] := by
  match s with
  | [w0, w1, w2, w3] => exact ⟨w0, w1, w2, w3, rfl⟩
  | [] => simp at h
  | [_] => simp at h
  | [_, _] => simp at h
  | [_, _, _] => simp at h
  | _ :: _ :: _ :: _ :: _ :: _ => simp at h

theorem invSubBytes_subBytes {s : List Nat} (h : ∀ w ∈ s, w < 2 ^ 32) :
    invSubBytes (subBytes s) = s := by
  unfold subBytes invSubBytes
  induction s with
  | nil => rfl
  | cons x xs ih =>
    simp only [List.map_cons, List.cons.injEq]
    exact ⟨invSubWord_subWord (h x (by simp)), ih (fun w hw => h w (by simp [hw]))⟩

theorem subBytes_goodState {s : List Nat} (h : goodState s) : goodState (subBytes s) := by
  obtain ⟨hl, _⟩ := h
  refine ⟨by simpa [subBytes] using hl, ?_⟩
  intro w hw
  simp only [subBytes, List.mem_map] at hw
  obtain ⟨x, _, rfl⟩ := hw
  exact subWord_lt x

theorem invSubBytes_goodState {s : List Nat} (h : goodState s) :
    goodState (invSubBytes s) := by
  obtain ⟨hl, _⟩ := h
  refine ⟨by simpa [invSubBytes] using hl, ?_⟩
  intro w hw
  simp only [invSubBytes, List.mem_map] at hw
  obtain ⟨x, _, rfl⟩ := hw
  exact invSubWord_lt x

theorem rotLR1 {w : Nat} (hw : w < 2 ^ 32) : rotWordRight (rotWordLeft w 1) 1 = w := by
  obtain ⟨a, b, c, d, ha, hb, hc, hd, rfl⟩ := exists_bytes hw
  rw [rotWordLeft1_packW ha hb hc hd, rotWordRight1_packW hb hc hd ha]

theorem rotLR2 {w : Nat} (hw : w < 2 ^ 32) : rotWordRight (rotWordLeft w 2) 2 = w := by
  obtain ⟨a, b, c, d, ha, hb, hc, hd, rfl⟩ := exists_bytes hw
  rw [rotWordLeft2_packW ha hb hc hd, rotWordRight2_packW hc hd ha hb]

theorem rotLR3 {w : Nat} (hw : w < 2 ^ 32) : rotWordRight (rotWordLeft w 3) 3 = w := by
  obtain ⟨a, b, c, d, ha, hb, hc, hd, rfl⟩ := exists_bytes hw
  rw [rotWordLeft3_packW ha hb hc hd, rotWordRight3_packW hd ha hb hc]

theorem invShiftRows_shiftRows {s : List Nat} (h : goodState s) :
    invShiftRows (shiftRows s) = s := by
  obtain ⟨hl, hb⟩ := h
  obtain ⟨w0, w1, w2, w3, rfl⟩ := state_shape hl
  show [w0, rotWordRight (rotWordLeft w1 1) 1, rotWordRight (rotWordLeft w2 2) 2,
    rotWordRight (rotWordLeft w3 3) 3] = [w0, w1, w2, w3]
  rw [rotLR1 (hb w1 (by simp)), rotLR2 (hb w2 (by simp)), rotLR3 (hb w3 (by simp))]

theorem shiftRows_goodState {s : List Nat} (h : goodState s) : goodState (shiftRows s) := by
  obtain ⟨hl, hb⟩ := h
  obtain ⟨w0, w1, w2, w3, rfl⟩ := state_shape hl
  have e : shiftRows [w0, w1, w2, w3] =
      [w0, rotWordLeft w1 1, rotWordLeft w2 2, rotWordLeft w3 3] := rfl
  rw [e]
  refine ⟨rfl, ?_⟩
  intro w hw
  simp only [List.mem_cons, List.not_mem_nil, or_false] at hw
  rcases hw with rfl | rfl | rfl | rfl
  · exact hb w (by simp)
  · exact rotWordLeft_lt (hb w1 (by simp)) 1
  · exact rotWordLeft_lt (hb w2 (by simp)) 2
  · exact rotWordLeft_lt (hb w3 (by simp)) 3

theorem invShiftRows_goodState {s : List Nat} (h : goodState s) :
    goodState (invShiftRows s) := by
  obtain ⟨hl, hb⟩ := h
  obtain ⟨w0, w1, w2, w3, rfl⟩ := state_shape hl
  have e : invShiftRows [w0, w1, w2, w3] =
      [w0, rotWordRight w1 1, rotWordRight w2 2, rotWordRight w3 3] := rfl
  rw [e]
  refine ⟨rfl, ?_⟩
  intro w hw
  simp only [List.mem_cons, List.not_mem_nil, or_false] at hw
  rcases hw with rfl | rfl | rfl | rfl
  · exact hb w (by simp)
  · exact rotWordRight_lt (hb w1 (by simp)) 1
  · exact rotWordRight_lt (hb w2 (by simp)) 2
  · exact rotWordRight_lt (hb w3 (by simp)) 3

namespace AES

theorem addRoundKey_cancel {s k : List Nat} (hs : s.length = 4) (hk : k.length = 4) :
    addRoundKey (addRoundKey s k) k = s := by
  obtain ⟨s0, s1, s2, s3, rfl⟩ := state_shape hs
  obtain ⟨k0, k1, k2, k3, rfl⟩ := state_shape hk
  show [s0 ^^^ k0 ^^^ k0, s1 ^^^ k1 ^^^ k1, s2 ^^^ k2 ^^^ k2, s3 ^^^ k3 ^^^ k3] =
    [s0, s1, s2, s3]
  simp [Nat.xor_assoc]

theorem addRoundKey_goodState {s k : List Nat} (hs : goodState s) (hk : k.length = 4)
    (hkb : ∀ w ∈ k, w < 2 ^ 32) : goodState (addRoundKey s k) := by
  obtain ⟨hl, hb⟩ := hs
  obtain ⟨s0, s1, s2, s3, rfl⟩ := state_shape hl
  obtain ⟨k0, k1, k2, k3, rfl⟩ := state_shape hk
  refine ⟨rfl, ?_⟩
  intro w hw
  show w < 2 ^ 32
  have : addRoundKey [s0, s1, s2, s3] [k0, k1, k2, k3] =
      [s0 ^^^ k0, s1 ^^^ k1, s2 ^^^ k2, s3 ^^^ k3] := rfl
  rw [this] at hw
  simp only [List.mem_cons, List.not_mem_nil, or_false] at hw
  rcases hw with rfl | rfl | rfl | rfl
  · exact Nat.xor_lt_two_pow (hb s0 (by simp)) (hkb k0 (by simp))
  · exact Nat.xor_lt_two_pow (hb s1 (by simp)) (hkb k1 (by simp))
  · exact Nat.xor_lt_two_pow (hb s2 (by simp)) (hkb k2 (by simp))
  · exact Nat.xor_lt_two_pow (hb s3 (by simp)) (hkb k3 (by simp))

end AES

theorem mixColumns_goodState {s : List Nat} (h : goodState s) : goodState (mixColumns s) := by
  obtain ⟨hl, hb⟩ := h
  obtain ⟨w0, w1, w2, w3, rfl⟩ := state_shape hl
  obtain ⟨x00, x01, x02, x03, h00, h01, h02, h03, rfl⟩ := exists_bytes (hb w0 (by simp))
  obtain ⟨x10, x11, x12, x13, h10, h11, h12, h13, rfl⟩ := exists_bytes (hb w1 (by simp))
  obtain ⟨x20, x21, x22, x23, h20, h21, h22, h23, rfl⟩ := exists_bytes (hb w2 (by simp))
  obtain ⟨x30, x31, x32, x33, h30, h31, h32, h33, rfl⟩ := exists_bytes (hb w3 (by simp))
  unfold mixColumns
  rw [manipulateColumns_packW calcMixCols
    (fun a b c d ha hb hc hd => calcMixCols_lt ha hb hc hd)
    h00 h01 h02 h03 h10 h11 h12 h13 h20 h21 h22 h23 h30 h31 h32 h33]
  obtain ⟨mA0, mA1, mA2, mA3⟩ := calcMixCols_lt h00 h10 h20 h30
  obtain ⟨mB0, mB1, mB2, mB3⟩ := calcMixCols_lt h01 h11 h21 h31
  obtain ⟨mC0, mC1, mC2, mC3⟩ := calcMixCols_lt h02 h12 h22 h32
  obtain ⟨mD0, mD1, mD2, mD3⟩ := calcMixCols_lt h03 h13 h23 h33
  refine ⟨rfl, ?_⟩
  intro w hw
  simp only [List.mem_cons, List.not_mem_nil, or_false] at hw
  rcases hw with rfl | rfl | rfl | rfl
  · exact packW_lt mA0 mB0 mC0 mD0
  · exact packW_lt mA1 mB1 mC1 mD1
  · exact packW_lt mA2 mB2 mC2 mD2
  · exact packW_lt mA3 mB3 mC3 mD3

theorem invMixColumns_goodState {s : List Nat} (h : goodState s) :
    goodState (invMixColumns s) := by
  obtain ⟨hl, hb⟩ := h
  obtain ⟨w0, w1, w2, w3, rfl⟩ := state_shape hl
  obtain ⟨x00, x01, x02, x03, h00, h01, h02, h03, rfl⟩ := exists_bytes (hb w0 (by simp))
  obtain ⟨x10, x11, x12, x13, h10, h11, h12, h13, rfl⟩ := exists_bytes (hb w1 (by simp))
  obtain ⟨x20, x21, x22, x23, h20, h21, h22, h23, rfl⟩ := exists_bytes (hb w2 (by simp))
  obtain ⟨x30, x31, x32, x33, h30, h31, h32, h33, rfl⟩ := exists_bytes (hb w3 (by simp))
  unfold invMixColumns
  rw [manipulateColumns_packW calcInvMixCols
    (fun a b c d _ _ _ _ => calcInvMixCols_lt a b c d)
    h00 h01 h02 h03 h10 h11 h12 h13 h20 h21 h22 h23 h30 h31 h32 h33]
  obtain ⟨mA0, mA1, mA2, mA3⟩ := calcInvMixCols_lt x00 x10 x20 x30
  obtain ⟨mB0, mB1, mB2, mB3⟩ := calcInvMixCols_lt x01 x11 x21 x31
  obtain ⟨mC0, mC1, mC2, mC3⟩ := calcInvMixCols_lt x02 x12 x22 x32
  obtain ⟨mD0, mD1, mD2, mD3⟩ := calcInvMixCols_lt x03 x13 x23 x33
  refine ⟨rfl, ?_⟩
  intro w hw
  simp only [List.mem_cons, List.not_mem_nil, or_false] at hw
  rcases hw with rfl | rfl | rfl | rfl
  · exact packW_lt mA0 mB0 mC0 mD0
  · exact packW_lt mA1 mB1 mC1 mD1
  · exact packW_lt mA2 mB2 mC2 mD2
  · exact packW_lt mA3 mB3 mC3 mD3

theorem invMixColumns_mixColumns {s : List Nat} (h : goodState s) :
    invMixColumns (mixColumns s) = s := by
  obtain ⟨hl, hb⟩ := h
  obtain ⟨w0, w1, w2, w3, rfl⟩ := state_shape hl
  obtain ⟨x00, x01, x02, x03, h00, h01, h02, h03, rfl⟩ := exists_bytes (hb w0 (by simp))
  obtain ⟨x10, x11, x12, x13, h10, h11, h12, h13, rfl⟩ := exists_bytes (hb w1 (by simp))
  obtain ⟨x20, x21, x22, x23, h20, h21, h22, h23, rfl⟩ := exists_bytes (hb w2 (by simp))
  obtain ⟨x30, x31, x32, x33, h30, h31, h32, h33, rfl⟩ := exists_bytes (hb w3 (by simp))
  unfold mixColumns invMixColumns
  rw [manipulateColumns_packW calcMixCols
    (fun a b c d ha hb hc hd => calcMixCols_lt ha hb hc hd)
    h00 h01 h02 h03 h10 h11 h12 h13 h20 h21 h22 h23 h30 h31 h32 h33]
  obtain ⟨mA0, mA1, mA2, mA3⟩ := calcMixCols_lt h00 h10 h20 h30
  obtain ⟨mB0, mB1, mB2, mB3⟩ := calcMixCols_lt h01 h11 h21 h31
  obtain ⟨mC0, mC1, mC2, mC3⟩ := calcMixCols_lt h02 h12 h22 h32
  obtain ⟨mD0, mD1, mD2, mD3⟩ := calcMixCols_lt h03 h13 h23 h33
  rw [manipulateColumns_packW calcInvMixCols
    (fun a b c d _ _ _ _ => calcInvMixCols_lt a b c d)
    mA0 mB0 mC0 mD0 mA1 mB1 mC1 mD1 mA2 mB2 mC2 mD2 mA3 mB3 mC3 mD3]
  rw [calcInv_calcMix h00 h10 h20 h30, calcInv_calcMix h01 h11 h21 h31,
    calcInv_calcMix h02 h12 h22 h32, calcInv_calcMix h03 h13 h23 h33]

theorem slice4_length {l : List Nat} {i : Nat} (h : i + 4 ≤ l.length) :
    (slice4 l i).length = 4 := by
  simp only [slice4, List.length_take, List.length_drop]
  omega

theorem slice4_bounds {l : List Nat} (hb : ∀ w ∈ l, w < 2 ^ 32) (i : Nat) :
    ∀ w ∈ slice4 l i, w < 2 ^ 32 := by
  intro w hw
  exact hb w (List.mem_of_mem_drop (List.mem_of_mem_take hw))

namespace AES

theorem encryptLoop_last : ∀ (n : Nat) (s e : List Nat) (keyi : Nat),
    encryptLoop (n + 1) s e keyi =
      addRoundKey (mixColumns (shiftRows (subBytes (encryptLoop n s e keyi))))
        (slice4 e (keyi + 4 * n)) := by
  intro n
  induction n with
  | zero => intro s e keyi; simp [encryptLoop]
  | succ m ih =>
    intro s e keyi
    rw [show keyi + 4 * (m + 1) = keyi + 4 + 4 * m from by ring]
    exact ih (addRoundKey (mixColumns (shiftRows (subBytes s))) (slice4 e keyi)) e (keyi + 4)

theorem encryptLoop_goodState : ∀ (n : Nat) (s e : List Nat) (keyi : Nat),
    goodState s → (∀ w ∈ e, w < 2 ^ 32) → keyi + 4 * n ≤ e.length →
      goodState (encryptLoop n s e keyi) := by
  intro n
  induction n with
  | zero => intro s e keyi hs _ _; exact hs
  | succ m ih =>
    intro s e keyi hs he hlen
    refine ih _ e (keyi + 4) ?_ he (by omega)
    exact addRoundKey_goodState
      (mixColumns_goodState (shiftRows_goodState (subBytes_goodState hs)))
      (slice4_length (by omega)) (slice4_bounds he keyi)

theorem roundCancel {u k : List Nat} (hu : goodState u) (hk4 : k.length = 4)
    (hkb : ∀ w ∈ k, w < 2 ^ 32) :
    invMixColumns (addRoundKey (invSubBytes (invShiftRows (shiftRows (subBytes
      (addRoundKey (mixColumns (shiftRows (subBytes u))) k))))) k) =
      shiftRows (subBytes u) := by
  have g1 : goodState (subBytes u) := subBytes_goodState hu
  have g2 : goodState (shiftRows (subBytes u)) := shiftRows_goodState g1
  have g3 : goodState (mixColumns (shiftRows (subBytes u))) := mixColumns_goodState g2
  have g4 : goodState (addRoundKey (mixColumns (shiftRows (subBytes u))) k) :=
    addRoundKey_goodState g3 hk4 hkb
  rw [invShiftRows_shiftRows (subBytes_goodState g4), invSubBytes_subBytes g4.2,
    addRoundKey_cancel g3.1 hk4, invMixColumns_mixColumns g2]

theorem loopInv : ∀ (n : Nat) (s e : List Nat) (keyi : Nat), goodState s →
    (∀ w ∈ e, w < 2 ^ 32) → keyi + 4 * n + 4 ≤ e.length →
    decryptLoop n (shiftRows (subBytes (encryptLoop n s e keyi))) e (keyi + 4 * n - 4) =
      shiftRows (subBytes s) := by
  intro n
  induction n with
  | zero => intro s e keyi _ _ _; rfl
  | succ m ih =>
    intro s e keyi hs he hlen
    rw [encryptLoop_last m s e keyi,
      show keyi + 4 * (m + 1) - 4 = keyi + 4 * m from by omega]
    rw [show decryptLoop (m + 1) (shiftRows (subBytes (addRoundKey (mixColumns (shiftRows
          (subBytes (encryptLoop m s e keyi)))) (slice4 e (keyi + 4 * m))))) e (keyi + 4 * m) =
        decryptLoop m (invMixColumns (addRoundKey (invSubBytes (invShiftRows (shiftRows
          (subBytes (addRoundKey (mixColumns (shiftRows (subBytes (encryptLoop m s e keyi))))
            (slice4 e (keyi + 4 * m))))))) (slice4 e (keyi + 4 * m)))) e (keyi + 4 * m - 4)
      from rfl]
    rw [roundCancel (encryptLoop_goodState m s e keyi hs he (by omega))
      (slice4_length (by omega)) (slice4_bounds he _)]
    exact ih s e keyi hs he (by omega)

theorem decrypt_encrypt {s e : List Nat} (hs : goodState s) (he : e.length = 44)
    (heb : ∀ w ∈ e, w < 2 ^ 32) : decrypt (encrypt s e) e = s := by
  have eEnc : encrypt s e = addRoundKey (shiftRows (subBytes (encryptLoop 9
      (addRoundKey s (slice4 e 0)) e 4))) (slice4 e 40) := by
    simp only [encrypt, he]
  have eDec : ∀ t, decrypt t e = addRoundKey (invSubBytes (invShiftRows (decryptLoop 9
      (addRoundKey t (slice4 e 40)) e 36))) (slice4 e 0) := by
    intro t
    simp only [decrypt, he]
  have hs1 : goodState (addRoundKey s (slice4 e 0)) :=
    addRoundKey_goodState hs (slice4_length (by omega)) (slice4_bounds heb 0)
  have hsl : goodState (encryptLoop 9 (addRoundKey s (slice4 e 0)) e 4) :=
    encryptLoop_goodState 9 _ e 4 hs1 heb (by omega)
  have hX : goodState (shiftRows (subBytes (encryptLoop 9 (addRoundKey s (slice4 e 0)) e 4))) :=
    shiftRows_goodState (subBytes_goodState hsl)
  rw [eEnc, eDec, addRoundKey_cancel hX.1 (slice4_length (by omega))]
  have hloop := loopInv 9 (addRoundKey s (slice4 e 0)) e 4 hs1 heb (by omega)
  norm_num at hloop
  rw [hloop]
  rw [invShiftRows_shiftRows (subBytes_goodState hs1), invSubBytes_subBytes hs1.2,
    addRoundKey_cancel hs.1 (slice4_length (by omega))]

end AES

theorem appendWord_length (ws : List Nat) : (appendWord ws).length = ws.length + 1 := by
  simp [appendWord]

theorem expandGroup_length (ws : List Nat) : (expandGroup ws).length = ws.length + 4 := by
  simp [expandGroup, appendWord]

theorem expandLoop_length : ∀ (n : Nat) (ws : List Nat),
    (expandLoop n ws).length = ws.length + 4 * n := by
  intro n
  induction n with
  | zero => intro ws; simp [expandLoop]
  | succ m ih =>
    intro ws
    show (expandLoop m (expandGroup ws)).length = _
    rw [ih, expandGroup_length]
    ring

theorem getD_lt_two32 {t : List Nat} (h : ∀ x ∈ t, x < 2 ^ 32) (i : Nat) :
    t.getD i 0 < 2 ^ 32 :=
  getD_lt_of_all h (by omega) i

theorem rcon_lt (i : Nat) : rcon i < 2 ^ 32 := by
  unfold rcon
  rw [Nat.shiftLeft_eq]
  have := powx_lt i
  have h2 : (2 : Nat) ^ 24 = 16777216 := rfl
  rw [h2]
  omega

theorem appendWord_bounds {ws : List Nat} (h : ∀ w ∈ ws, w < 2 ^ 32) :
    ∀ w ∈ appendWord ws, w < 2 ^ 32 := by
  intro w hw
  simp only [appendWord, List.mem_append, List.mem_singleton] at hw
  rcases hw with hw | rfl
  · exact h w hw
  · exact Nat.xor_lt_two_pow (getD_lt_two32 h _) (getD_lt_two32 h _)

theorem expandGroup_bounds {ws : List Nat} (h : ∀ w ∈ ws, w < 2 ^ 32) :
    ∀ w ∈ expandGroup ws, w < 2 ^ 32 := by
  refine appendWord_bounds (appendWord_bounds (appendWord_bounds ?_))
  intro w hw
  simp only [List.mem_append, List.mem_singleton] at hw
  rcases hw with hw | rfl
  · exact h w hw
  · exact Nat.xor_lt_two_pow
      (Nat.xor_lt_two_pow (subWord_lt _) (rcon_lt _)) (getD_lt_two32 h _)

theorem expandLoop_bounds : ∀ (n : Nat) {ws : List Nat}, (∀ w ∈ ws, w < 2 ^ 32) →
    ∀ w ∈ expandLoop n ws, w < 2 ^ 32 := by
  intro n
  induction n with
  | zero => intro ws h; exact h
  | succ m ih =>
    intro ws h
    exact ih (expandGroup_bounds h)

theorem initWords_bounds {key : List Nat} (h : allBytes key) :
    ∀ w ∈ initWords key, w < 2 ^ 32 := by
  have hk : ∀ i, key.getD i 0 < 256 := getD_lt_of_all h (by omega)
  intro w hw
  simp only [initWords, List.mem_cons, List.not_mem_nil, or_false] at hw
  rcases hw with rfl | rfl | rfl | rfl <;>
    exact packW_lt (hk _) (hk _) (hk _) (hk _)

theorem shr24_lt {w : Nat} (hw : w < 2 ^ 32) : w >>> 24 < 256 := by
  rw [Nat.shiftRight_eq_div_pow]
  have h2 : (2 : Nat) ^ 24 = 16777216 := rfl
  rw [h2]
  omega

theorem transpose_bounds {g : List Nat} (h : ∀ w ∈ g, w < 2 ^ 32) :
    ∀ w ∈ transpose g, w < 2 ^ 32 := by
  have hg : ∀ i, g.getD i 0 < 2 ^ 32 := getD_lt_two32 h
  intro w hw
  simp only [transpose, List.mem_cons, List.not_mem_nil, or_false] at hw
  rcases hw with rfl | rfl | rfl | rfl
  · rw [Nat.shiftLeft_zero]
    exact packW_lt (shr24_lt (hg 0)) (shr24_lt (hg 1)) (shr24_lt (hg 2)) (shr24_lt (hg 3))
  · rw [Nat.shiftLeft_zero]
    exact packW_lt (and_lt_256 _ (by omega)) (and_lt_256 _ (by omega))
      (and_lt_256 _ (by omega)) (and_lt_256 _ (by omega))
  · rw [Nat.shiftLeft_zero]
    exact packW_lt (and_lt_256 _ (by omega)) (and_lt_256 _ (by omega))
      (and_lt_256 _ (by omega)) (and_lt_256 _ (by omega))
  · rw [Nat.shiftLeft_zero]
    exact packW_lt (and_lt_256 _ (by omega)) (and_lt_256 _ (by omega))
      (and_lt_256 _ (by omega)) (and_lt_256 _ (by omega))

theorem transposeGroups_length : ∀ ws : List Nat, (transposeGroups ws).length = ws.length
  | a :: b :: c :: d :: rest => by
      show (transpose [a, b, c, d] ++ transposeGroups rest).length = _
      simp [transpose, transposeGroups_length rest]
  | [] => rfl
  | [_] => rfl
  | [_, _] => rfl
  | [_, _, _] => rfl

theorem transposeGroups_bounds : ∀ {ws : List Nat}, (∀ w ∈ ws, w < 2 ^ 32) →
    ∀ w ∈ transposeGroups ws, w < 2 ^ 32
  | a :: b :: c :: d :: rest, h => by
      intro w hw
      show w < 2 ^ 32
      have : transposeGroups (a :: b :: c :: d :: rest) =
          transpose [a, b, c, d] ++ transposeGroups rest := rfl
      rw [this] at hw
      rcases List.mem_append.1 hw with hw | hw
      · refine transpose_bounds ?_ w hw
        intro x hx
        simp only [List.mem_cons, List.not_mem_nil, or_false] at hx
        rcases hx with rfl | rfl | rfl | rfl <;> exact h x (by simp)
      · exact transposeGroups_bounds (fun x hx => h x (by simp [hx])) w hw
  | [], _ => by intro w hw; cases hw
  | [_], h => h
  | [_, _], h => h
  | [_, _, _], h => h

namespace Matasano

theorem keyExpansion_length (key : List Nat) : (keyExpansion key).length = 44 := by
  show (expandLoop 10 (initWords key)).length = 44
  rw [expandLoop_length]
  rfl

theorem keyExpansion_bounds {key : List Nat} (h : allBytes key) :
    ∀ w ∈ keyExpansion key, w < 2 ^ 32 :=
  expandLoop_bounds 10 (initWords_bounds h)

end Matasano

namespace AES

theorem keyExpansion_eq_transposeGroups (key : List Nat) :
    keyExpansion key = transposeGroups (Matasano.keyExpansion key) := rfl

theorem keyExpansionA_length (key : List Nat) : (keyExpansion key).length = 44 := by
  rw [keyExpansion_eq_transposeGroups, transposeGroups_length,
    Matasano.keyExpansion_length]

theorem keyExpansionA_bounds {key : List Nat} (h : allBytes key) :
    ∀ w ∈ keyExpansion key, w < 2 ^ 32 :=
  transposeGroups_bounds (Matasano.keyExpansion_bounds h)

theorem encrypt_goodState {s e : List Nat} (hs : goodState s) (he : e.length = 44)
    (heb : ∀ w ∈ e, w < 2 ^ 32) : goodState (encrypt s e) := by
  have eEnc : encrypt s e = addRoundKey (shiftRows (subBytes (encryptLoop 9
      (addRoundKey s (slice4 e 0)) e 4))) (slice4 e 40) := by
    simp only [encrypt, he]
  rw [eEnc]
  have hs1 : goodState (addRoundKey s (slice4 e 0)) :=
    addRoundKey_goodState hs (slice4_length (by omega)) (slice4_bounds heb 0)
  have hsl : goodState (encryptLoop 9 (addRoundKey s (slice4 e 0)) e 4) :=
    encryptLoop_goodState 9 _ e 4 hs1 heb (by omega)
  exact addRoundKey_goodState (shiftRows_goodState (subBytes_goodState hsl))
    (slice4_length (by omega)) (slice4_bounds heb 40)

end AES

theorem list_shape16 {b : List Nat} (h : b.length = 16) :
    ∃ b0 b1 b2 b3 b4 b5 b6 b7 b8 b9 b10 b11 b12 b13 b14 b15,
      b = [b0, b1, b2, b3, b4, b5, b6, b7, b8, b9, b10, b11, b12, b13, b14, b15] := by
  match b with
  | [b0, b1, b2, b3, b4, b5, b6, b7, b8, b9, b10, b11, b12, b13, b14, b15] =>
    exact ⟨b0, b1, b2, b3, b4, b5, b6, b7, b8, b9, b10, b11, b12, b13, b14, b15, rfl⟩
  | [] | [_] | [_, _] | [_, _, _] | [_, _, _, _] | [_, _, _, _, _] | [_, _, _, _, _, _]
  | [_, _, _, _, _, _, _] | [_, _, _, _, _, _, _, _] | [_, _, _, _, _, _, _, _, _]
  | [_, _, _, _, _, _, _, _, _, _] | [_, _, _, _, _, _, _, _, _, _, _]
  | [_, _, _, _, _, _, _, _, _, _, _, _] | [_, _, _, _, _, _, _, _, _, _, _, _, _]
  | [_, _, _, _, _, _, _, _, _, _, _, _, _, _]
  | [_, _, _, _, _, _, _, _, _, _, _, _, _, _, _] => simp at h
  | _ :: _ :: _ :: _ :: _ :: _ :: _ :: _ :: _ :: _ :: _ :: _ :: _ :: _ :: _ :: _ :: _ :: _ =>
    simp at h

theorem packW_recompose {w : Nat} (hw : w < 2 ^ 32) :
    packW (w >>> 24) (w >>> 16 &&& 0xff) (w >>> 8 &&& 0xff) (w &&& 0xff) = w := by
  obtain ⟨a, b, c, d, ha, hb, hc, hd, rfl⟩ := exists_bytes hw
  rw [packW_shr24 hb hc hd, packW_shr16_and hb hc hd, packW_shr8_and hb hc hd,
    packW_and255 hb hc hd]

namespace AES

theorem unpack_length (s : List Nat) : (unpack s).length = 16 := rfl

theorem EncryptBlock_eq {c : CipherAES} {src : List Nat} (h : 16 ≤ src.length) :
    EncryptBlock c src = some (unpack (encrypt (pack (src.take 16)) c.expkey)) := by
  simp [EncryptBlock, h]

theorem DecryptBlock_eq {c : CipherAES} {src : List Nat} (h : 16 ≤ src.length) :
    DecryptBlock c src = some (unpack (decrypt (pack (src.take 16)) c.expkey)) := by
  simp [DecryptBlock, h]

end AES

theorem pack_goodState {b : List Nat} (h16 : b.length = 16) (hb : allBytes b) :
    goodState (AES.pack b) := by
  have hk : ∀ i, b.getD i 0 < 256 := getD_lt_of_all hb (by omega)
  refine ⟨rfl, ?_⟩
  intro w hw
  simp only [AES.pack, List.mem_cons, List.not_mem_nil, or_false] at hw
  rcases hw with rfl | rfl | rfl | rfl <;> exact packW_lt (hk _) (hk _) (hk _) (hk _)

theorem pack_unpack {s : List Nat} (hgs : goodState s) : AES.pack (AES.unpack s) = s := by
  obtain ⟨hl, hb⟩ := hgs
  obtain ⟨w0, w1, w2, w3, rfl⟩ := state_shape hl
  show [packW (w0 >>> 24) (w0 >>> 16 &&& 0xff) (w0 >>> 8 &&& 0xff) (w0 &&& 0xff),
    packW (w1 >>> 24) (w1 >>> 16 &&& 0xff) (w1 >>> 8 &&& 0xff) (w1 &&& 0xff),
    packW (w2 >>> 24) (w2 >>> 16 &&& 0xff) (w2 >>> 8 &&& 0xff) (w2 &&& 0xff),
    packW (w3 >>> 24) (w3 >>> 16 &&& 0xff) (w3 >>> 8 &&& 0xff) (w3 &&& 0xff)] =
    [w0, w1, w2, w3]
  rw [packW_recompose (hb w0 (by simp)), packW_recompose (hb w1 (by simp)),
    packW_recompose (hb w2 (by simp)), packW_recompose (hb w3 (by simp))]

theorem unpack_pack {b : List Nat} (h16 : b.length = 16) (hb : allBytes b) :
    AES.unpack (AES.pack b) = b := by
  obtain ⟨b0, b1, b2, b3, b4, b5, b6, b7, b8, b9, b10, b11, b12, b13, b14, b15, rfl⟩ :=
    list_shape16 h16
  have hx : ∀ i : Nat,
      ([b0, b1, b2, b3, b4, b5, b6, b7, b8, b9, b10, b11, b12, b13, b14, b15] :
        List Nat).getD i 0 < 256 := getD_lt_of_all hb (by omega)
  have h0 : b0 < 256 := hx 0
  have h1 : b1 < 256 := hx 1
  have h2 : b2 < 256 := hx 2
  have h3 : b3 < 256 := hx 3
  have h4 : b4 < 256 := hx 4
  have h5 : b5 < 256 := hx 5
  have h6 : b6 < 256 := hx 6
  have h7 : b7 < 256 := hx 7
  have h8 : b8 < 256 := hx 8
  have h9 : b9 < 256 := hx 9
  have h10 : b10 < 256 := hx 10
  have h11 : b11 < 256 := hx 11
  have h12 : b12 < 256 := hx 12
  have h13 : b13 < 256 := hx 13
  have h14 : b14 < 256 := hx 14
  have h15 : b15 < 256 := hx 15
  show [packW b0 b4 b8 b12 >>> 24, packW b1 b5 b9 b13 >>> 24, packW b2 b6 b10 b14 >>> 24,
    packW b3 b7 b11 b15 >>> 24,
    packW b0 b4 b8 b12 >>> 16 &&& 0xff, packW b1 b5 b9 b13 >>> 16 &&& 0xff,
    packW b2 b6 b10 b14 >>> 16 &&& 0xff, packW b3 b7 b11 b15 >>> 16 &&& 0xff,
    packW b0 b4 b8 b12 >>> 8 &&& 0xff, packW b1 b5 b9 b13 >>> 8 &&& 0xff,
    packW b2 b6 b10 b14 >>> 8 &&& 0xff, packW b3 b7 b11 b15 >>> 8 &&& 0xff,
    packW b0 b4 b8 b12 &&& 0xff, packW b1 b5 b9 b13 &&& 0xff,
    packW b2 b6 b10 b14 &&& 0xff, packW b3 b7 b11 b15 &&& 0xff] = _
  rw [packW_shr24 h4 h8 h12, packW_shr24 h5 h9 h13, packW_shr24 h6 h10 h14,
    packW_shr24 h7 h11 h15,
    packW_shr16_and h4 h8 h12, packW_shr16_and h5 h9 h13, packW_shr16_and h6 h10 h14,
    packW_shr16_and h7 h11 h15,
    packW_shr8_and h4 h8 h12, packW_shr8_and h5 h9 h13, packW_shr8_and h6 h10 h14,
    packW_shr8_and h7 h11 h15,
    packW_and255 h4 h8 h12, packW_and255 h5 h9 h13, packW_and255 h6 h10 h14,
    packW_and255 h7 h11 h15]

theorem blockRoundtrip (e b : List Nat) (hb16 : b.length = 16) (hbb : allBytes b)
    (he : e.length = 44) (heb : ∀ w ∈ e, w < 2 ^ 32) :
    (AES.EncryptBlock ⟨e⟩ b).bind (AES.DecryptBlock ⟨e⟩) = some b := by
  have hgs : goodState (AES.pack b) := pack_goodState hb16 hbb
  have hrt : AES.decrypt (AES.encrypt (AES.pack b) e) e = AES.pack b :=
    AES.decrypt_encrypt hgs he heb
  rw [AES.EncryptBlock_eq (by omega)]
  rw [show b.take 16 = b from List.take_of_length_le (by omega)]
  simp only [Option.some_bind]
  rw [AES.DecryptBlock_eq (by rw [AES.unpack_length])]
  rw [show (AES.unpack (AES.encrypt (AES.pack b) e)).take 16 =
    AES.unpack (AES.encrypt (AES.pack b) e) from
    List.take_of_length_le (by rw [AES.unpack_length])]
  rw [pack_unpack (AES.encrypt_goodState hgs he heb), hrt, unpack_pack hb16 hbb]

/-- Claim C1: for every 16-byte block `b` and every 16-byte key `k`, decrypting
the encryption of `b` under `k` returns `b`: with the expanded key
`AES.keyExpansion k`, applying `decrypt` after `encrypt` to the packed 4-word
state is the identity, and equivalently
`cipherAES.Decrypt (cipherAES.Encrypt b) = b` at the byte level. -/
theorem c1_roundtrip (b k : List Nat) (hb16 : b.length = 16) (hbb : allBytes b)
    (hk16 : k.length = 16) (hkb : allBytes k) :
    AES.decrypt (AES.encrypt (AES.pack b) (AES.keyExpansion k)) (AES.keyExpansion k) =
      AES.pack b ∧
    (AES.EncryptBlock ⟨AES.keyExpansion k⟩ b).bind
      (AES.DecryptBlock ⟨AES.keyExpansion k⟩) = some b :=
  ⟨AES.decrypt_encrypt (pack_goodState hb16 hbb) (AES.keyExpansionA_length k)
      (AES.keyExpansionA_bounds hkb),
   blockRoundtrip (AES.keyExpansion k) b hb16 hbb (AES.keyExpansionA_length k)
      (AES.keyExpansionA_bounds hkb)⟩

theorem c1_roundtrip_witness :
    AES.decrypt (AES.encrypt
        (AES.pack [0x00, 0x11, 0x22, 0x33, 0x44, 0x55, 0x66, 0x77,
          0x88, 0x99, 0xaa, 0xbb, 0xcc, 0xdd, 0xee, 0xff])
        (AES.keyExpansion [0, 1, 2, 3, 4, 5, 6, 7, 8, 9, 10, 11, 12, 13, 14, 15]))
      (AES.keyExpansion [0, 1, 2, 3, 4, 5, 6, 7, 8, 9, 10, 11, 12, 13, 14, 15]) =
      AES.pack [0x00, 0x11, 0x22, 0x33, 0x44, 0x55, 0x66, 0x77,
        0x88, 0x99, 0xaa, 0xbb, 0xcc, 0xdd, 0xee, 0xff] ∧
    (AES.EncryptBlock ⟨AES.keyExpansion [0, 1, 2, 3, 4, 5, 6, 7, 8, 9, 10, 11, 12, 13, 14, 15]⟩
        [0x00, 0x11, 0x22, 0x33, 0x44, 0x55, 0x66, 0x77,
          0x88, 0x99, 0xaa, 0xbb, 0xcc, 0xdd, 0xee, 0xff]).bind
      (AES.DecryptBlock
        ⟨AES.keyExpansion [0, 1, 2, 3, 4, 5, 6, 7, 8, 9, 10, 11, 12, 13, 14, 15]⟩) =
      some [0x00, 0x11, 0x22, 0x33, 0x44, 0x55, 0x66, 0x77,
        0x88, 0x99, 0xaa, 0xbb, 0xcc, 0xdd, 0xee, 0xff] :=
  c1_roundtrip _ _ (by decide) (by decide) (by decide) (by decide)

/-- Claim C4: each primitive round transform is a pure total function on the
state with an exact inverse: `addRoundKey` is self-inverse, and
`invSubBytes`, `invShiftRows`, `invMixColumns` invert `subBytes`,
`shiftRows`, `mixColumns` respectively. -/
theorem c4_transforms_inverse (s k : List Nat) (hs : goodState s) (hk : k.length = 4) :
    AES.addRoundKey (AES.addRoundKey s k) k = s ∧
    invSubBytes (subBytes s) = s ∧
    invShiftRows (shiftRows s) = s ∧
    invMixColumns (mixColumns s) = s :=
  ⟨AES.addRoundKey_cancel hs.1 hk, invSubBytes_subBytes hs.2,
    invShiftRows_shiftRows hs, invMixColumns_mixColumns hs⟩

theorem c4_transforms_inverse_witness :
    AES.addRoundKey (AES.addRoundKey [1, 2, 3, 4] [5, 6, 7, 8]) [5, 6, 7, 8] = [1, 2, 3, 4] ∧
    invSubBytes (subBytes [1, 2, 3, 4]) = [1, 2, 3, 4] ∧
    invShiftRows (shiftRows [1, 2, 3, 4]) = [1, 2, 3, 4] ∧
    invMixColumns (mixColumns [1, 2, 3, 4]) = [1, 2, 3, 4] :=
  c4_transforms_inverse [1, 2, 3, 4] [5, 6, 7, 8] ⟨by decide, by decide⟩ (by decide)

/-- Claim C3: on a 44-word expanded key, `encrypt` performs exactly
AddRoundKey with round key 0, nine rounds of SubBytes, ShiftRows, MixColumns,
AddRoundKey with round keys 1..9, and a final SubBytes, ShiftRows,
AddRoundKey with round key 10 (no MixColumns); and `decrypt` performs exactly
the reverse sequence, AddRoundKey with round key 10, then for rounds 9..1
InvShiftRows, InvSubBytes, AddRoundKey, InvMixColumns, then InvShiftRows,
InvSubBytes, AddRoundKey with round key 0. -/
theorem c3_round_structure (s t : List Nat) (k0 k1 k2 k3 k4 k5 k6 k7 k8 k9 k10 k11 k12 k13 k14 k15 k16 k17 k18 k19 k20 k21 k22 k23 k24 k25 k26 k27 k28 k29 k30 k31 k32 k33 k34 k35 k36 k37 k38 k39 k40 k41 k42 k43 : Nat) :
    AES.encrypt s [k0, k1, k2, k3, k4, k5, k6, k7, k8, k9, k10, k11, k12, k13, k14, k15, k16, k17, k18, k19, k20, k21, k22, k23, k24, k25, k26, k27, k28, k29, k30, k31, k32, k33, k34, k35, k36, k37, k38, k39, k40, k41, k42, k43] =
      AES.addRoundKey (shiftRows (subBytes
        (AES.addRoundKey (mixColumns (shiftRows (subBytes
        (AES.addRoundKey (mixColumns (shiftRows (subBytes
        (AES.addRoundKey (mixColumns (shiftRows (subBytes
        (AES.addRoundKey (mixColumns (shiftRows (subBytes
        (AES.addRoundKey (mixColumns (shiftRows (subBytes
        (AES.addRoundKey (mixColumns (shiftRows (subBytes
        (AES.addRoundKey (mixColumns (shiftRows (subBytes
        (AES.addRoundKey (mixColumns (shiftRows (subBytes
        (AES.addRoundKey (mixColumns (shiftRows (subBytes
        (AES.addRoundKey s [k0, k1, k2, k3])))) [k4, k5, k6, k7])))) [k8, k9, k10, k11])))) [k12, k13, k14, k15])))) [k16, k17, k18, k19])))) [k20, k21, k22, k23])))) [k24, k25, k26, k27])))) [k28, k29, k30, k31])))) [k32, k33, k34, k35])))) [k36, k37, k38, k39]))) [k40, k41, k42, k43] ∧
    AES.decrypt t [k0, k1, k2, k3, k4, k5, k6, k7, k8, k9, k10, k11, k12, k13, k14, k15, k16, k17, k18, k19, k20, k21, k22, k23, k24, k25, k26, k27, k28, k29, k30, k31, k32, k33, k34, k35, k36, k37, k38, k39, k40, k41, k42, k43] =
      AES.addRoundKey (invSubBytes (invShiftRows
        (invMixColumns (AES.addRoundKey (invSubBytes (invShiftRows
        (invMixColumns (AES.addRoundKey (invSubBytes (invShiftRows
        (invMixColumns (AES.addRoundKey (invSubBytes (invShiftRows
        (invMixColumns (AES.addRoundKey (invSubBytes (invShiftRows
        (invMixColumns (AES.addRoundKey (invSubBytes (invShiftRows
        (invMixColumns (AES.addRoundKey (invSubBytes (invShiftRows
        (invMixColumns (AES.addRoundKey (invSubBytes (invShiftRows
        (invMixColumns (AES.addRoundKey (invSubBytes (invShiftRows
        (invMixColumns (AES.addRoundKey (invSubBytes (invShiftRows
        (AES.addRoundKey t [k40, k41, k42, k43]))) [k36, k37, k38, k39])))) [k32, k33, k34, k35])))) [k28, k29, k30, k31])))) [k24, k25, k26, k27])))) [k20, k21, k22, k23])))) [k16, k17, k18, k19])))) [k12, k13, k14, k15])))) [k8, k9, k10, k11])))) [k4, k5, k6, k7])))) [k0, k1, k2, k3] := by
  have hlen : ([k0, k1, k2, k3, k4, k5, k6, k7, k8, k9, k10, k11, k12, k13, k14, k15, k16, k17, k18, k19, k20, k21, k22, k23, k24, k25, k26, k27, k28, k29, k30, k31, k32, k33, k34, k35, k36, k37, k38, k39, k40, k41, k42, k43] : List Nat).length = 44 := rfl
  constructor
  · rw [show AES.encrypt s [k0, k1, k2, k3, k4, k5, k6, k7, k8, k9, k10, k11, k12, k13, k14, k15, k16, k17, k18, k19, k20, k21, k22, k23, k24, k25, k26, k27, k28, k29, k30, k31, k32, k33, k34, k35, k36, k37, k38, k39, k40, k41, k42, k43] =
      AES.addRoundKey (shiftRows (subBytes (AES.encryptLoop
        (([k0, k1, k2, k3, k4, k5, k6, k7, k8, k9, k10, k11, k12, k13, k14, k15, k16, k17, k18, k19, k20, k21, k22, k23, k24, k25, k26, k27, k28, k29, k30, k31, k32, k33, k34, k35, k36, k37, k38, k39, k40, k41, k42, k43] : List Nat).length / 4 - 2)
        (AES.addRoundKey s (slice4 [k0, k1, k2, k3, k4, k5, k6, k7, k8, k9, k10, k11, k12, k13, k14, k15, k16, k17, k18, k19, k20, k21, k22, k23, k24, k25, k26, k27, k28, k29, k30, k31, k32, k33, k34, k35, k36, k37, k38, k39, k40, k41, k42, k43] 0))
        [k0, k1, k2, k3, k4, k5, k6, k7, k8, k9, k10, k11, k12, k13, k14, k15, k16, k17, k18, k19, k20, k21, k22, k23, k24, k25, k26, k27, k28, k29, k30, k31, k32, k33, k34, k35, k36, k37, k38, k39, k40, k41, k42, k43] 4)))
      (slice4 [k0, k1, k2, k3, k4, k5, k6, k7, k8, k9, k10, k11, k12, k13, k14, k15, k16, k17, k18, k19, k20, k21, k22, k23, k24, k25, k26, k27, k28, k29, k30, k31, k32, k33, k34, k35, k36, k37, k38, k39, k40, k41, k42, k43]
        (4 * (([k0, k1, k2, k3, k4, k5, k6, k7, k8, k9, k10, k11, k12, k13, k14, k15, k16, k17, k18, k19, k20, k21, k22, k23, k24, k25, k26, k27, k28, k29, k30, k31, k32, k33, k34, k35, k36, k37, k38, k39, k40, k41, k42, k43] : List Nat).length / 4 - 2) + 4)) from rfl]
    rw [hlen]
    norm_num
    rfl
  · rw [show AES.decrypt t [k0, k1, k2, k3, k4, k5, k6, k7, k8, k9, k10, k11, k12, k13, k14, k15, k16, k17, k18, k19, k20, k21, k22, k23, k24, k25, k26, k27, k28, k29, k30, k31, k32, k33, k34, k35, k36, k37, k38, k39, k40, k41, k42, k43] =
      AES.addRoundKey (invSubBytes (invShiftRows (AES.decryptLoop
        (([k0, k1, k2, k3, k4, k5, k6, k7, k8, k9, k10, k11, k12, k13, k14, k15, k16, k17, k18, k19, k20, k21, k22, k23, k24, k25, k26, k27, k28, k29, k30, k31, k32, k33, k34, k35, k36, k37, k38, k39, k40, k41, k42, k43] : List Nat).length / 4 - 2)
        (AES.addRoundKey t (slice4 [k0, k1, k2, k3, k4, k5, k6, k7, k8, k9, k10, k11, k12, k13, k14, k15, k16, k17, k18, k19, k20, k21, k22, k23, k24, k25, k26, k27, k28, k29, k30, k31, k32, k33, k34, k35, k36, k37, k38, k39, k40, k41, k42, k43] (([k0, k1, k2, k3, k4, k5, k6, k7, k8, k9, k10, k11, k12, k13, k14, k15, k16, k17, k18, k19, k20, k21, k22, k23, k24, k25, k26, k27, k28, k29, k30, k31, k32, k33, k34, k35, k36, k37, k38, k39, k40, k41, k42, k43] : List Nat).length - 4)))
        [k0, k1, k2, k3, k4, k5, k6, k7, k8, k9, k10, k11, k12, k13, k14, k15, k16, k17, k18, k19, k20, k21, k22, k23, k24, k25, k26, k27, k28, k29, k30, k31, k32, k33, k34, k35, k36, k37, k38, k39, k40, k41, k42, k43] (([k0, k1, k2, k3, k4, k5, k6, k7, k8, k9, k10, k11, k12, k13, k14, k15, k16, k17, k18, k19, k20, k21, k22, k23, k24, k25, k26, k27, k28, k29, k30, k31, k32, k33, k34, k35, k36, k37, k38, k39, k40, k41, k42, k43] : List Nat).length - 4 - 4))))
      (slice4 [k0, k1, k2, k3, k4, k5, k6, k7, k8, k9, k10, k11, k12, k13, k14, k15, k16, k17, k18, k19, k20, k21, k22, k23, k24, k25, k26, k27, k28, k29, k30, k31, k32, k33, k34, k35, k36, k37, k38, k39, k40, k41, k42, k43]
        (([k0, k1, k2, k3, k4, k5, k6, k7, k8, k9, k10, k11, k12, k13, k14, k15, k16, k17, k18, k19, k20, k21, k22, k23, k24, k25, k26, k27, k28, k29, k30, k31, k32, k33, k34, k35, k36, k37, k38, k39, k40, k41, k42, k43] : List Nat).length - 4 - 4 - 4 * (([k0, k1, k2, k3, k4, k5, k6, k7, k8, k9, k10, k11, k12, k13, k14, k15, k16, k17, k18, k19, k20, k21, k22, k23, k24, k25, k26, k27, k28, k29, k30, k31, k32, k33, k34, k35, k36, k37, k38, k39, k40, k41, k42, k43] : List Nat).length / 4 - 2))) from rfl]
    rw [hlen]
    norm_num
    rfl

theorem getD_append_lt {ws l : List Nat} {i : Nat} (h : i < ws.length) :
    (ws ++ l).getD i 0 = ws.getD i 0 :=
  List.getD_append ws l 0 i h

theorem getD_append_self {ws : List Nat} {x : Nat} :
    (ws ++ [x]).getD ws.length 0 = x := by
  rw [List.getD_append_right ws [x] 0 ws.length (le_refl _), Nat.sub_self]
  rfl

theorem appendWord_getD_lt {ws : List Nat} {i : Nat} (h : i < ws.length) :
    (appendWord ws).getD i 0 = ws.getD i 0 :=
  getD_append_lt h

theorem appendWord_getD_self {ws : List Nat} :
    (appendWord ws).getD ws.length 0 =
      ws.getD (ws.length - 1) 0 ^^^ ws.getD (ws.length - 4) 0 :=
  getD_append_self

theorem keyRec_appendWord {ws : List Nat} (h : KeyRec ws) (hlen : 4 ≤ ws.length)
    (hmod : ws.length % 4 ≠ 0) : KeyRec (appendWord ws) := by
  intro i h4 hi
  rw [appendWord_length] at hi
  rcases Nat.lt_or_ge i ws.length with hlt | hge
  · have hprev := h i h4 hlt
    constructor
    · intro hm
      rw [appendWord_getD_lt hlt, appendWord_getD_lt (by omega),
        appendWord_getD_lt (by omega)]
      exact hprev.1 hm
    · intro hm
      rw [appendWord_getD_lt hlt, appendWord_getD_lt (by omega),
        appendWord_getD_lt (by omega)]
      exact hprev.2 hm
  · have hieq : i = ws.length := by omega
    subst hieq
    constructor
    · intro _
      rw [appendWord_getD_self, appendWord_getD_lt (by omega),
        appendWord_getD_lt (by omega)]
    · intro hm
      exact absurd hm hmod

theorem keyRec_groupWord {ws : List Nat} (h : KeyRec ws) (hlen : 4 ≤ ws.length)
    (hmod : ws.length % 4 = 0) :
    KeyRec (ws ++ [subWord (rotWordLeft (ws.getD (ws.length - 1) 0) 1) ^^^
      rcon (ws.length / 4 - 1) ^^^ ws.getD (ws.length - 4) 0]) := by
  intro i h4 hi
  simp only [List.length_append, List.length_cons, List.length_nil] at hi
  rcases Nat.lt_or_ge i ws.length with hlt | hge
  · have hprev := h i h4 hlt
    constructor
    · intro hm
      rw [getD_append_lt hlt, getD_append_lt (show i - 1 < ws.length by omega),
        getD_append_lt (show i - 4 < ws.length by omega)]
      exact hprev.1 hm
    · intro hm
      rw [getD_append_lt hlt, getD_append_lt (show i - 1 < ws.length by omega),
        getD_append_lt (show i - 4 < ws.length by omega)]
      exact hprev.2 hm
  · have hieq : i = ws.length := by omega
    subst hieq
    constructor
    · intro hm
      exact absurd hmod hm
    · intro _
      rw [getD_append_self, getD_append_lt (show ws.length - 1 < ws.length by omega),
        getD_append_lt (show ws.length - 4 < ws.length by omega)]

theorem keyRec_expandGroup {ws : List Nat} (h : KeyRec ws) (hlen : 4 ≤ ws.length)
    (hmod : ws.length % 4 = 0) : KeyRec (expandGroup ws) := by
  have h1 := keyRec_groupWord h hlen hmod
  show KeyRec (appendWord (appendWord (appendWord (ws ++
    [subWord (rotWordLeft (ws.getD (ws.length - 1) 0) 1) ^^^
      rcon (ws.length / 4 - 1) ^^^ ws.getD (ws.length - 4) 0]))))
  have l1 : (ws ++ [subWord (rotWordLeft (ws.getD (ws.length - 1) 0) 1) ^^^
      rcon (ws.length / 4 - 1) ^^^ ws.getD (ws.length - 4) 0]).length =
      ws.length + 1 := by simp
  refine keyRec_appendWord (keyRec_appendWord (keyRec_appendWord h1 ?_ ?_) ?_ ?_) ?_ ?_
  · omega
  · rw [l1]; omega
  · rw [appendWord_length, l1]; omega
  · rw [appendWord_length, l1]; omega
  · rw [appendWord_length, appendWord_length, l1]; omega
  · rw [appendWord_length, appendWord_length, l1]; omega

theorem keyRec_expandLoop : ∀ (n : Nat) {ws : List Nat}, KeyRec ws → 4 ≤ ws.length →
    ws.length % 4 = 0 → KeyRec (expandLoop n ws) := by
  intro n
  induction n with
  | zero => intro ws h _ _; exact h
  | succ m ih =>
    intro ws h hlen hmod
    refine ih (keyRec_expandGroup h hlen hmod) ?_ ?_
    · rw [expandGroup_length]; omega
    · rw [expandGroup_length]; omega

theorem expandGroup_getD_lt {ws : List Nat} {i : Nat} (h : i < ws.length) :
    (expandGroup ws).getD i 0 = ws.getD i 0 := by
  show (appendWord (appendWord (appendWord (ws ++ [_])))).getD i 0 = _
  rw [appendWord_getD_lt, appendWord_getD_lt, appendWord_getD_lt, getD_append_lt h] <;>
    simp [appendWord_length] <;> omega

theorem expandLoop_getD_lt : ∀ (n : Nat) {ws : List Nat} {i : Nat}, i < ws.length →
    (expandLoop n ws).getD i 0 = ws.getD i 0 := by
  intro n
  induction n with
  | zero => intro ws i _; rfl
  | succ m ih =>
    intro ws i h
    show (expandLoop m (expandGroup ws)).getD i 0 = _
    rw [ih (by rw [expandGroup_length]; omega), expandGroup_getD_lt h]

theorem keyRec_initWords (key : List Nat) : KeyRec (initWords key) := by
  intro i h4 hi
  simp only [initWords, List.length_cons, List.length_nil] at hi
  omega

theorem keyRec_keyExpansion (key : List Nat) : KeyRec (Matasano.keyExpansion key) :=
  keyRec_expandLoop 10 (keyRec_initWords key) (by rw [show (initWords key).length = 4 from rfl])
    (by rw [show (initWords key).length = 4 from rfl])

/-- Claim C2 counterexample: the `aes` package `keyExpansion` does not return
the schedule the claim describes.  For the key `00 01 .. 0f`, the claim
requires word 0 of the result to be the first four key bytes packed
big-endian, `0x00010203`; the function instead returns `0x0004080c` (the
first column of the group, because of its final per-group transpose). -/
theorem c2_counterexample :
    (AES.keyExpansion [0x00, 0x01, 0x02, 0x03, 0x04, 0x05, 0x06, 0x07,
        0x08, 0x09, 0x0a, 0x0b, 0x0c, 0x0d, 0x0e, 0x0f]).getD 0 0 ≠ 0x00010203 ∧
    (AES.keyExpansion [0x00, 0x01, 0x02, 0x03, 0x04, 0x05, 0x06, 0x07,
        0x08, 0x09, 0x0a, 0x0b, 0x0c, 0x0d, 0x0e, 0x0f]).getD 0 0 = 0x0004080c := by
  constructor
  · decide
  · decide

/-- Claim C2, amended: the key-schedule recurrence the claim states holds of
the untransposed schedule, which is what the `matasano` package
`keyExpansion` returns: 44 four-byte words whose first four words are the
key packed big-endian per word, with `w[i] = w[i-1] XOR w[i-4]` off the
group boundaries and
`w[i] = SubWord(RotWordLeft(w[i-1],1)) XOR Rcon(i/4-1) XOR w[i-4]` at them,
where `Rcon(j)` places `powx[j]` in the most significant byte with the rest
zero.  The `aes` package `keyExpansion` returns this same schedule with each
group of four words transposed. -/
theorem c2_keyExpansion_amended (key : List Nat) (h16 : key.length = 16)
    (hkb : allBytes key) :
    (Matasano.keyExpansion key).length = 44 ∧
    (∀ w ∈ Matasano.keyExpansion key, w < 2 ^ 32) ∧
    ((Matasano.keyExpansion key).getD 0 0 =
        key.getD 0 0 <<< 24 ||| key.getD 1 0 <<< 16 ||| key.getD 2 0 <<< 8 ||| key.getD 3 0 ∧
      (Matasano.keyExpansion key).getD 1 0 =
        key.getD 4 0 <<< 24 ||| key.getD 5 0 <<< 16 ||| key.getD 6 0 <<< 8 ||| key.getD 7 0 ∧
      (Matasano.keyExpansion key).getD 2 0 =
        key.getD 8 0 <<< 24 ||| key.getD 9 0 <<< 16 ||| key.getD 10 0 <<< 8 ||| key.getD 11 0 ∧
      (Matasano.keyExpansion key).getD 3 0 =
        key.getD 12 0 <<< 24 ||| key.getD 13 0 <<< 16 ||| key.getD 14 0 <<< 8 |||
          key.getD 15 0) ∧
    (∀ i, 4 ≤ i → i < 44 → i % 4 ≠ 0 →
      (Matasano.keyExpansion key).getD i 0 =
        (Matasano.keyExpansion key).getD (i - 1) 0 ^^^
          (Matasano.keyExpansion key).getD (i - 4) 0) ∧
    (∀ i, 4 ≤ i → i < 44 → i % 4 = 0 →
      (Matasano.keyExpansion key).getD i 0 =
        subWord (rotWordLeft ((Matasano.keyExpansion key).getD (i - 1) 0) 1) ^^^
          rcon (i / 4 - 1) ^^^ (Matasano.keyExpansion key).getD (i - 4) 0) ∧
    (∀ j, j < 10 → rcon j >>> 24 = tbl powx j ∧ rcon j % 16777216 = 0) ∧
    AES.keyExpansion key = transposeGroups (Matasano.keyExpansion key) := by
  have hlen := Matasano.keyExpansion_length key
  have hrec := keyRec_keyExpansion key
  refine ⟨hlen, Matasano.keyExpansion_bounds hkb, ⟨?_, ?_, ?_, ?_⟩, ?_, ?_, ?_, rfl⟩
  · rw [show Matasano.keyExpansion key = expandLoop 10 (initWords key) from rfl,
      expandLoop_getD_lt 10 (by rw [show (initWords key).length = 4 from rfl]; omega)]
    rfl
  · rw [show Matasano.keyExpansion key = expandLoop 10 (initWords key) from rfl,
      expandLoop_getD_lt 10 (by rw [show (initWords key).length = 4 from rfl]; omega)]
    rfl
  · rw [show Matasano.keyExpansion key = expandLoop 10 (initWords key) from rfl,
      expandLoop_getD_lt 10 (by rw [show (initWords key).length = 4 from rfl]; omega)]
    rfl
  · rw [show Matasano.keyExpansion key = expandLoop 10 (initWords key) from rfl,
      expandLoop_getD_lt 10 (by rw [show (initWords key).length = 4 from rfl]; omega)]
    rfl
  · intro i h4 hi hm
    exact (hrec i h4 (by rw [hlen]; exact hi)).1 hm
  · intro i h4 hi hm
    exact (hrec i h4 (by rw [hlen]; exact hi)).2 hm
  · intro j _
    constructor
    · show (tbl powx j <<< 24) >>> 24 = tbl powx j
      rw [Nat.shiftLeft_eq, Nat.shiftRight_eq_div_pow,
        show (2 : Nat) ^ 24 = 16777216 from rfl]
      omega
    · show (tbl powx j <<< 24) % 16777216 = 0
      rw [Nat.shiftLeft_eq, show (2 : Nat) ^ 24 = 16777216 from rfl]
      omega

theorem c2_keyExpansion_amended_witness :
    (Matasano.keyExpansion [0x2b, 0x7e, 0x15, 0x16, 0x28, 0xae, 0xd2, 0xa6,
      0xab, 0xf7, 0x15, 0x88, 0x09, 0xcf, 0x4f, 0x3c]).length = 44 ∧
    (∀ w ∈ Matasano.keyExpansion [0x2b, 0x7e, 0x15, 0x16, 0x28, 0xae, 0xd2, 0xa6,
      0xab, 0xf7, 0x15, 0x88, 0x09, 0xcf, 0x4f, 0x3c], w < 2 ^ 32) ∧
    ((Matasano.keyExpansion [0x2b, 0x7e, 0x15, 0x16, 0x28, 0xae, 0xd2, 0xa6,
      0xab, 0xf7, 0x15, 0x88, 0x09, 0xcf, 0x4f, 0x3c]).getD 0 0 =
        ([0x2b, 0x7e, 0x15, 0x16, 0x28, 0xae, 0xd2, 0xa6,
      0xab, 0xf7, 0x15, 0x88, 0x09, 0xcf, 0x4f, 0x3c] : List Nat).getD 0 0 <<< 24 ||| ([0x2b, 0x7e, 0x15, 0x16, 0x28, 0xae, 0xd2, 0xa6,
      0xab, 0xf7, 0x15, 0x88, 0x09, 0xcf, 0x4f, 0x3c] : List Nat).getD 1 0 <<< 16 |||
          ([0x2b, 0x7e, 0x15, 0x16, 0x28, 0xae, 0xd2, 0xa6,
      0xab, 0xf7, 0x15, 0x88, 0x09, 0xcf, 0x4f, 0x3c] : List Nat).getD 2 0 <<< 8 ||| ([0x2b, 0x7e, 0x15, 0x16, 0x28, 0xae, 0xd2, 0xa6,
      0xab, 0xf7, 0x15, 0x88, 0x09, 0xcf, 0x4f, 0x3c] : List Nat).getD 3 0 ∧
      (Matasano.keyExpansion [0x2b, 0x7e, 0x15, 0x16, 0x28, 0xae, 0xd2, 0xa6,
      0xab, 0xf7, 0x15, 0x88, 0x09, 0xcf, 0x4f, 0x3c]).getD 1 0 =
        ([0x2b, 0x7e, 0x15, 0x16, 0x28, 0xae, 0xd2, 0xa6,
      0xab, 0xf7, 0x15, 0x88, 0x09, 0xcf, 0x4f, 0x3c] : List Nat).getD 4 0 <<< 24 ||| ([0x2b, 0x7e, 0x15, 0x16, 0x28, 0xae, 0xd2, 0xa6,
      0xab, 0xf7, 0x15, 0x88, 0x09, 0xcf, 0x4f, 0x3c] : List Nat).getD 5 0 <<< 16 |||
          ([0x2b, 0x7e, 0x15, 0x16, 0x28, 0xae, 0xd2, 0xa6,
      0xab, 0xf7, 0x15, 0x88, 0x09, 0xcf, 0x4f, 0x3c] : List Nat).getD 6 0 <<< 8 ||| ([0x2b, 0x7e, 0x15, 0x16, 0x28, 0xae, 0xd2, 0xa6,
      0xab, 0xf7, 0x15, 0x88, 0x09, 0xcf, 0x4f, 0x3c] : List Nat).getD 7 0 ∧
      (Matasano.keyExpansion [0x2b, 0x7e, 0x15, 0x16, 0x28, 0xae, 0xd2, 0xa6,
      0xab, 0xf7, 0x15, 0x88, 0x09, 0xcf, 0x4f, 0x3c]).getD 2 0 =
        ([0x2b, 0x7e, 0x15, 0x16, 0x28, 0xae, 0xd2, 0xa6,
      0xab, 0xf7, 0x15, 0x88, 0x09, 0xcf, 0x4f, 0x3c] : List Nat).getD 8 0 <<< 24 ||| ([0x2b, 0x7e, 0x15, 0x16, 0x28, 0xae, 0xd2, 0xa6,
      0xab, 0xf7, 0x15, 0x88, 0x09, 0xcf, 0x4f, 0x3c] : List Nat).getD 9 0 <<< 16 |||
          ([0x2b, 0x7e, 0x15, 0x16, 0x28, 0xae, 0xd2, 0xa6,
      0xab, 0xf7, 0x15, 0x88, 0x09, 0xcf, 0x4f, 0x3c] : List Nat).getD 10 0 <<< 8 ||| ([0x2b, 0x7e, 0x15, 0x16, 0x28, 0xae, 0xd2, 0xa6,
      0xab, 0xf7, 0x15, 0x88, 0x09, 0xcf, 0x4f, 0x3c] : List Nat).getD 11 0 ∧
      (Matasano.keyExpansion [0x2b, 0x7e, 0x15, 0x16, 0x28, 0xae, 0xd2, 0xa6,
      0xab, 0xf7, 0x15, 0x88, 0x09, 0xcf, 0x4f, 0x3c]).getD 3 0 =
        ([0x2b, 0x7e, 0x15, 0x16, 0x28, 0xae, 0xd2, 0xa6,
      0xab, 0xf7, 0x15, 0x88, 0x09, 0xcf, 0x4f, 0x3c] : List Nat).getD 12 0 <<< 24 ||| ([0x2b, 0x7e, 0x15, 0x16, 0x28, 0xae, 0xd2, 0xa6,
      0xab, 0xf7, 0x15, 0x88, 0x09, 0xcf, 0x4f, 0x3c] : List Nat).getD 13 0 <<< 16 |||
          ([0x2b, 0x7e, 0x15, 0x16, 0x28, 0xae, 0xd2, 0xa6,
      0xab, 0xf7, 0x15, 0x88, 0x09, 0xcf, 0x4f, 0x3c] : List Nat).getD 14 0 <<< 8 ||| ([0x2b, 0x7e, 0x15, 0x16, 0x28, 0xae, 0xd2, 0xa6,
      0xab, 0xf7, 0x15, 0x88, 0x09, 0xcf, 0x4f, 0x3c] : List Nat).getD 15 0) ∧
    (∀ i, 4 ≤ i → i < 44 → i % 4 ≠ 0 →
      (Matasano.keyExpansion [0x2b, 0x7e, 0x15, 0x16, 0x28, 0xae, 0xd2, 0xa6,
      0xab, 0xf7, 0x15, 0x88, 0x09, 0xcf, 0x4f, 0x3c]).getD i 0 =
        (Matasano.keyExpansion [0x2b, 0x7e, 0x15, 0x16, 0x28, 0xae, 0xd2, 0xa6,
      0xab, 0xf7, 0x15, 0x88, 0x09, 0xcf, 0x4f, 0x3c]).getD (i - 1) 0 ^^^ (Matasano.keyExpansion [0x2b, 0x7e, 0x15, 0x16, 0x28, 0xae, 0xd2, 0xa6,
      0xab, 0xf7, 0x15, 0x88, 0x09, 0xcf, 0x4f, 0x3c]).getD (i - 4) 0) ∧
    (∀ i, 4 ≤ i → i < 44 → i % 4 = 0 →
      (Matasano.keyExpansion [0x2b, 0x7e, 0x15, 0x16, 0x28, 0xae, 0xd2, 0xa6,
      0xab, 0xf7, 0x15, 0x88, 0x09, 0xcf, 0x4f, 0x3c]).getD i 0 =
        subWord (rotWordLeft ((Matasano.keyExpansion [0x2b, 0x7e, 0x15, 0x16, 0x28, 0xae, 0xd2, 0xa6,
      0xab, 0xf7, 0x15, 0x88, 0x09, 0xcf, 0x4f, 0x3c]).getD (i - 1) 0) 1) ^^^
          rcon (i / 4 - 1) ^^^ (Matasano.keyExpansion [0x2b, 0x7e, 0x15, 0x16, 0x28, 0xae, 0xd2, 0xa6,
      0xab, 0xf7, 0x15, 0x88, 0x09, 0xcf, 0x4f, 0x3c]).getD (i - 4) 0) ∧
    (∀ j, j < 10 → rcon j >>> 24 = tbl powx j ∧ rcon j % 16777216 = 0) ∧
    AES.keyExpansion [0x2b, 0x7e, 0x15, 0x16, 0x28, 0xae, 0xd2, 0xa6,
      0xab, 0xf7, 0x15, 0x88, 0x09, 0xcf, 0x4f, 0x3c] =
      transposeGroups (Matasano.keyExpansion [0x2b, 0x7e, 0x15, 0x16, 0x28, 0xae, 0xd2, 0xa6,
      0xab, 0xf7, 0x15, 0x88, 0x09, 0xcf, 0x4f, 0x3c]) :=
  c2_keyExpansion_amended _ (by decide) (by decide)

/-- Claim C5 counterexample: `NewCipher` performs no key-length validation.
With a 17-byte key it succeeds (ignoring the extra byte) instead of failing
with InvalidKeyLength; with a 15-byte key the key indexing in `keyExpansion`
goes out of range -- a Go run-time panic (modelled as `none`), not an
InvalidKeyLength error value. -/
theorem c5_counterexample :
    AES.NewCipher (List.replicate 17 0) =
      some ⟨AES.keyExpansion (List.replicate 17 0)⟩ ∧
    AES.NewCipher (List.replicate 15 0) = none := by
  constructor
  · rfl
  · rfl

/-- Claim C5, amended: `NewCipher`/`keyExpansion` contain no length check at
all.  A key of fewer than 16 bytes makes the byte indexing `key[0..15]` go
out of range (a run-time panic, `none` in the model); a key of 16 bytes or
more always succeeds, constructing the cipher from the first 16 bytes. -/
theorem c5_newCipher_amended (key : List Nat) :
    (key.length < 16 → AES.NewCipher key = none) ∧
    (16 ≤ key.length → AES.NewCipher key = some ⟨AES.keyExpansion key⟩) := by
  constructor
  · intro h
    simp [AES.NewCipher, AES.keyExpansionChecked, show ¬ (16 ≤ key.length) by omega]
  · intro h
    simp [AES.NewCipher, AES.keyExpansionChecked, h]

theorem c5_newCipher_amended_witness :
    (AES.NewCipher (List.replicate 15 7) = none) ∧
    (AES.NewCipher (List.replicate 17 7) =
      some ⟨AES.keyExpansion (List.replicate 17 7)⟩) :=
  ⟨(c5_newCipher_amended (List.replicate 15 7)).1 (by decide),
   (c5_newCipher_amended (List.replicate 17 7)).2 (by decide)⟩

/-- Claim C6 counterexample: the block operations perform no length
validation either.  `Encrypt` on a 17-byte buffer succeeds, silently
processing only the first 16 bytes (the very behaviour the claim excludes),
and `Decrypt` on a 15-byte buffer hits the `src[0:16]` slice panic (modelled
as `none`), not an InvalidBlockLength error value. -/
theorem c6_counterexample :
    AES.EncryptBlock ⟨AES.keyExpansion (List.replicate 16 0)⟩ (List.replicate 17 0) =
      AES.EncryptBlock ⟨AES.keyExpansion (List.replicate 16 0)⟩ (List.replicate 16 0) ∧
    AES.DecryptBlock ⟨AES.keyExpansion (List.replicate 16 0)⟩ (List.replicate 15 0) =
      none := by
  constructor
  · rfl
  · rfl

/-- Claim C6, amended: `cipherAES.Encrypt`/`Decrypt` have no length check.
A source buffer of fewer than 16 bytes makes the `src[0:BlockSize]` slice
expression panic (modelled as `none`); a longer buffer is accepted and only
its first 16 bytes are processed. -/
theorem c6_blockLength_amended (ek src : List Nat) :
    (src.length < 16 →
      AES.EncryptBlock ⟨ek⟩ src = none ∧ AES.DecryptBlock ⟨ek⟩ src = none) ∧
    (16 ≤ src.length →
      AES.EncryptBlock ⟨ek⟩ src = AES.EncryptBlock ⟨ek⟩ (src.take 16) ∧
      AES.DecryptBlock ⟨ek⟩ src = AES.DecryptBlock ⟨ek⟩ (src.take 16)) := by
  constructor
  · intro h
    constructor
    · simp [AES.EncryptBlock, show ¬ (16 ≤ src.length) by omega]
    · simp [AES.DecryptBlock, show ¬ (16 ≤ src.length) by omega]
  · intro h
    have ht : (src.take 16).length = 16 := by
      rw [List.length_take]
      omega
    have htt : (src.take 16).take 16 = src.take 16 := by
      rw [List.take_take]
      norm_num
    constructor
    · rw [AES.EncryptBlock_eq h, AES.EncryptBlock_eq (by omega), htt]
    · rw [AES.DecryptBlock_eq h, AES.DecryptBlock_eq (by omega), htt]

theorem c6_blockLength_amended_witness :
    (AES.EncryptBlock ⟨AES.keyExpansion (List.replicate 16 3)⟩ (List.replicate 15 0) = none ∧
     AES.DecryptBlock ⟨AES.keyExpansion (List.replicate 16 3)⟩ (List.replicate 15 0) = none) ∧
    (AES.EncryptBlock ⟨AES.keyExpansion (List.replicate 16 3)⟩ (List.replicate 17 0) =
       AES.EncryptBlock ⟨AES.keyExpansion (List.replicate 16 3)⟩
         ((List.replicate 17 0).take 16) ∧
     AES.DecryptBlock ⟨AES.keyExpansion (List.replicate 16 3)⟩ (List.replicate 17 0) =
       AES.DecryptBlock ⟨AES.keyExpansion (List.replicate 16 3)⟩
         ((List.replicate 17 0).take 16)) :=
  ⟨(c6_blockLength_amended (AES.keyExpansion (List.replicate 16 3))
      (List.replicate 15 0)).1 (by decide),
   (c6_blockLength_amended (AES.keyExpansion (List.replicate 16 3))
      (List.replicate 17 0)).2 (by decide)⟩

theorem getD_take16_eq {k1 k2 : List Nat} (h : k1.take 16 = k2.take 16) {i : Nat}
    (hi : i < 16) : k1.getD i 0 = k2.getD i 0 := by
  have e1 : (k1.take 16).getD i 0 = k1.getD i 0 := by
    simp only [List.getD_eq_getElem?_getD]
    rw [List.getElem?_take_of_lt hi]
  have e2 : (k2.take 16).getD i 0 = k2.getD i 0 := by
    simp only [List.getD_eq_getElem?_getD]
    rw [List.getElem?_take_of_lt hi]
  rw [← e1, ← e2, h]

theorem initWords_take16 {k1 k2 : List Nat} (h : k1.take 16 = k2.take 16) :
    initWords k1 = initWords k2 := by
  unfold initWords
  rw [getD_take16_eq h (by omega), getD_take16_eq h (by omega), getD_take16_eq h (by omega),
    getD_take16_eq h (by omega), getD_take16_eq h (by omega), getD_take16_eq h (by omega),
    getD_take16_eq h (by omega), getD_take16_eq h (by omega), getD_take16_eq h (by omega),
    getD_take16_eq h (by omega), getD_take16_eq h (by omega), getD_take16_eq h (by omega),
    getD_take16_eq h (by omega), getD_take16_eq h (by omega), getD_take16_eq h (by omega),
    getD_take16_eq h (by omega)]

/-- Claim C10: `keyExpansion` reads only the first 16 key bytes, so two keys
agreeing on their first 16 bytes give identical expanded keys in both
packages and identical ciphers from `NewCipher`; bytes beyond the 16th are
silently ignored. -/
theorem c10_prefix_only (k1 k2 : List Nat) (h1 : 16 ≤ k1.length) (h2 : 16 ≤ k2.length)
    (h : k1.take 16 = k2.take 16) :
    Matasano.keyExpansion k1 = Matasano.keyExpansion k2 ∧
    AES.keyExpansion k1 = AES.keyExpansion k2 ∧
    AES.NewCipher k1 = AES.NewCipher k2 := by
  have hm : Matasano.keyExpansion k1 = Matasano.keyExpansion k2 := by
    show expandLoop 10 (initWords k1) = expandLoop 10 (initWords k2)
    rw [initWords_take16 h]
  have ha : AES.keyExpansion k1 = AES.keyExpansion k2 := by
    show transposeGroups (expandLoop 10 (initWords k1)) =
      transposeGroups (expandLoop 10 (initWords k2))
    rw [initWords_take16 h]
  refine ⟨hm, ha, ?_⟩
  simp [AES.NewCipher, AES.keyExpansionChecked, h1, h2, ha]

theorem c10_prefix_only_witness :
    Matasano.keyExpansion (List.replicate 16 1 ++ [7]) =
      Matasano.keyExpansion (List.replicate 16 1 ++ [9, 9]) ∧
    AES.keyExpansion (List.replicate 16 1 ++ [7]) =
      AES.keyExpansion (List.replicate 16 1 ++ [9, 9]) ∧
    AES.NewCipher (List.replicate 16 1 ++ [7]) =
      AES.NewCipher (List.replicate 16 1 ++ [9, 9]) :=
  c10_prefix_only _ _ (by decide) (by decide) (by decide)

/-- Claim C9: for every plaintext and every outcome of the randomness source
(the prefix length `rand.Intn(16) + 5` and the prefix bytes), `getPlaintext`
prepends a prefix of between 5 and 20 bytes inclusive and appends PKCS#7
padding, so the returned buffer's length is a multiple of 16. -/
theorem c9_getPlaintext (b pre : List Nat) (r : Nat) (hr : r < 16)
    (hlen : pre.length = r + 5) :
    5 ≤ pre.length ∧ pre.length ≤ 20 ∧
    (Matasano.getPlaintext b pre).length % 16 = 0 ∧
    (Matasano.getPlaintext b pre).take (pre.length + b.length) = pre ++ b := by
  refine ⟨by omega, by omega, ?_, ?_⟩
  · show (Matasano.PadPKCS7 (pre ++ b) 16).length % 16 = 0
    unfold Matasano.PadPKCS7
    simp only [List.length_append, List.length_replicate]
    omega
  · show (Matasano.PadPKCS7 (pre ++ b) 16).take (pre.length + b.length) = pre ++ b
    unfold Matasano.PadPKCS7
    rw [show pre.length + b.length = (pre ++ b).length from by simp]
    rw [List.take_left]

theorem c9_getPlaintext_witness :
    5 ≤ (List.replicate 8 2).length ∧ (List.replicate 8 2).length ≤ 20 ∧
    (Matasano.getPlaintext (List.replicate 21 9) (List.replicate 8 2)).length % 16 = 0 ∧
    (Matasano.getPlaintext (List.replicate 21 9) (List.replicate 8 2)).take
        ((List.replicate 8 2).length + (List.replicate 21 9).length) =
      List.replicate 8 2 ++ List.replicate 21 9 :=
  c9_getPlaintext (List.replicate 21 9) (List.replicate 8 2) 3 (by decide) (by decide)

theorem countPairs_pos_iff : ∀ l : List (List Nat),
    0 < Matasano.countPairs l ↔
      ∃ i j, i < j ∧ j < l.length ∧ l.getD i [] = l.getD j [] := by
  intro l
  induction l with
  | nil =>
    simp only [Matasano.countPairs, List.length_nil]
    constructor
    · omega
    · rintro ⟨i, j, _, hj, _⟩; omega
  | cons b rest ih =>
    constructor
    · intro hpos
      rw [show Matasano.countPairs (b :: rest) =
        rest.countP (fun x => x == b) + Matasano.countPairs rest from rfl] at hpos
      rcases Nat.lt_or_ge 0 (rest.countP (fun x => x == b)) with hc | hc
      · obtain ⟨x, hx, hxb⟩ := List.countP_pos_iff.mp hc
        have hxb2 : x = b := by simpa using hxb
        obtain ⟨n, hn, hxn⟩ := List.getElem_of_mem hx
        refine ⟨0, n + 1, by omega, by simp; omega, ?_⟩
        show b = rest.getD n []
        rw [List.getD_eq_getElem?_getD, List.getElem?_eq_getElem hn]
        simp [hxn, hxb2]
      · have hrest : 0 < Matasano.countPairs rest := by omega
        obtain ⟨i, j, hij, hj, heq⟩ := ih.mp hrest
        exact ⟨i + 1, j + 1, by omega, by simp; omega, heq⟩
    · rintro ⟨i, j, hij, hj, heq⟩
      show 0 < rest.countP (fun x => x == b) + Matasano.countPairs rest
      rcases i with _ | i2
      · rcases j with _ | j2
        · omega
        · have hj2 : j2 < rest.length := by simp at hj; omega
          have hgd : rest.getD j2 [] = rest.get ⟨j2, hj2⟩ := by
            rw [List.getD_eq_getElem?_getD, List.getElem?_eq_getElem hj2]
            rfl
          have hmem : rest.getD j2 [] ∈ rest := by
            rw [hgd]
            exact List.get_mem rest j2 hj2
          have hcp : 0 < rest.countP (fun x => x == b) := by
            apply List.countP_pos_iff.mpr
            refine ⟨rest.getD j2 [], hmem, ?_⟩
            have heq2 : b = rest.getD j2 [] := heq
            exact beq_iff_eq.mpr heq2.symm
          omega
      · rcases j with _ | j2
        · omega
        · have hj2 : j2 < rest.length := by simp at hj; omega
          have : 0 < Matasano.countPairs rest := ih.mpr ⟨i2, j2, by omega, hj2, heq⟩
          omega

theorem isAESECB_iff (b : List Nat) :
    Matasano.isAESECB b = true ↔ Matasano.hasIdenticalBlocks b := by
  unfold Matasano.isAESECB Matasano.hasIdenticalBlocks
  rw [decide_eq_true_iff]
  exact countPairs_pos_iff (Matasano.chunks16 b)

theorem getD_map_oracle {l : List (List Nat)} {i : Nat} (h : i < l.length) :
    (l.map (fun c => if Matasano.isAESECB c then 1 else 0)).getD i 0 =
      if Matasano.isAESECB (l.getD i []) then 1 else 0 := by
  induction l generalizing i with
  | nil => simp at h
  | cons x xs ih =>
    cases i with
    | zero => rfl
    | succ j => exact ih (by simp at h; omega)

/-- Claim C7: `OracleAES` is total and returns a list the same length as its
input whose entries are all 0 or 1; entry `i` is 1 (the ECB label) exactly
when ciphertext `i`, partitioned into 16-byte blocks, contains two
byte-identical blocks, and 0 (the CBC label) otherwise. -/
theorem c7_oracle (ciphers : List (List Nat)) :
    (Matasano.OracleAES ciphers).length = ciphers.length ∧
    ∀ i, i < ciphers.length →
      ((Matasano.OracleAES ciphers).getD i 0 = 1 ∨
        (Matasano.OracleAES ciphers).getD i 0 = 0) ∧
      ((Matasano.OracleAES ciphers).getD i 0 = 1 ↔
        Matasano.hasIdenticalBlocks (ciphers.getD i [])) := by
  refine ⟨by simp [Matasano.OracleAES], ?_⟩
  intro i hi
  rw [show Matasano.OracleAES ciphers =
    ciphers.map (fun c => if Matasano.isAESECB c then 1 else 0) from rfl]
  rw [getD_map_oracle hi]
  by_cases hES : Matasano.hasIdenticalBlocks (ciphers.getD i [])
  · have hT : Matasano.isAESECB (ciphers.getD i []) = true := (isAESECB_iff _).mpr hES
    simp only [hT]
    rw [if_true]
    exact ⟨Or.inl rfl, fun _ => hES, fun _ => rfl⟩
  · have hF : Matasano.isAESECB (ciphers.getD i []) = false := by
      rcases hB : Matasano.isAESECB (ciphers.getD i []) with _ | _
      · rfl
      · exact absurd ((isAESECB_iff _).mp hB) hES
    simp only [hF]
    rw [if_neg (by exact Bool.false_ne_true)]
    exact ⟨Or.inr rfl, fun h => absurd h (by decide), fun hhas => absurd hhas hES⟩

theorem c7_oracle_witness :
    (Matasano.OracleAES [List.replicate 32 7, List.range 32]).length =
      ([List.replicate 32 7, List.range 32] : List (List Nat)).length ∧
    (((Matasano.OracleAES [List.replicate 32 7, List.range 32]).getD 0 0 = 1 ∨
       (Matasano.OracleAES [List.replicate 32 7, List.range 32]).getD 0 0 = 0) ∧
     ((Matasano.OracleAES [List.replicate 32 7, List.range 32]).getD 0 0 = 1 ↔
       Matasano.hasIdenticalBlocks
         (([List.replicate 32 7, List.range 32] : List (List Nat)).getD 0 []))) ∧
    (((Matasano.OracleAES [List.replicate 32 7, List.range 32]).getD 1 0 = 1 ∨
       (Matasano.OracleAES [List.replicate 32 7, List.range 32]).getD 1 0 = 0) ∧
     ((Matasano.OracleAES [List.replicate 32 7, List.range 32]).getD 1 0 = 1 ↔
       Matasano.hasIdenticalBlocks
         (([List.replicate 32 7, List.range 32] : List (List Nat)).getD 1 []))) :=
  ⟨(c7_oracle [List.replicate 32 7, List.range 32]).1,
   (c7_oracle [List.replicate 32 7, List.range 32]).2 0 (by decide),
   (c7_oracle [List.replicate 32 7, List.range 32]).2 1 (by decide)⟩

theorem length_subBytes (s : List Nat) : (subBytes s).length = s.length := by
  simp [subBytes]

theorem length_shiftRows (s : List Nat) : (shiftRows s).length = s.length := by
  simp [shiftRows]

theorem length_manipCol (calcf : Nat → Nat → Nat → Nat → Nat × Nat × Nat × Nat)
    (i : Nat) (s : List Nat) : (manipCol calcf i s).length = s.length := by
  simp [manipCol]

theorem length_mixColumns (s : List Nat) : (mixColumns s).length = s.length := by
  unfold mixColumns manipulateColumns
  rw [length_manipCol, length_manipCol, length_manipCol, length_manipCol]

theorem length_addRoundKeyM (s k : List Nat) :
    (Matasano.addRoundKey s k).length = s.length := by
  unfold Matasano.addRoundKey Matasano.addRoundKeyStep
  simp

theorem encryptLoopM_length : ∀ (n : Nat) (s e : List Nat) (keyi : Nat),
    (Matasano.encryptLoop n s e keyi).length = s.length := by
  intro n
  induction n with
  | zero => intro s e keyi; rfl
  | succ m ih =>
    intro s e keyi
    show (Matasano.encryptLoop m _ e _).length = _
    rw [ih, length_addRoundKeyM, length_mixColumns, length_shiftRows, length_subBytes]

theorem addRoundKeyM_eq {s g : List Nat} (hs4 : s.length = 4) (hg4 : g.length = 4)
    (hgb : ∀ w ∈ g, w < 2 ^ 32) :
    Matasano.addRoundKey s g = AES.addRoundKey s (transpose g) := by
  obtain ⟨s0, s1, s2, s3, rfl⟩ := state_shape hs4
  obtain ⟨g0, g1, g2, g3, rfl⟩ := state_shape hg4
  have hb0 : g0 < 2 ^ 32 := hgb g0 (by simp)
  have hb1 : g1 < 2 ^ 32 := hgb g1 (by simp)
  have hb2 : g2 < 2 ^ 32 := hgb g2 (by simp)
  have hb3 : g3 < 2 ^ 32 := hgb g3 (by simp)
  show [s0 ^^^ ((g0 >>> 24 &&& 0xff) <<< 24 ||| (g1 >>> 24 &&& 0xff) <<< 16 |||
          (g2 >>> 24 &&& 0xff) <<< 8 ||| (g3 >>> 24 &&& 0xff)),
        s1 ^^^ ((g0 >>> 16 &&& 0xff) <<< 24 ||| (g1 >>> 16 &&& 0xff) <<< 16 |||
          (g2 >>> 16 &&& 0xff) <<< 8 ||| (g3 >>> 16 &&& 0xff)),
        s2 ^^^ ((g0 >>> 8 &&& 0xff) <<< 24 ||| (g1 >>> 8 &&& 0xff) <<< 16 |||
          (g2 >>> 8 &&& 0xff) <<< 8 ||| (g3 >>> 8 &&& 0xff)),
        s3 ^^^ ((g0 >>> 0 &&& 0xff) <<< 24 ||| (g1 >>> 0 &&& 0xff) <<< 16 |||
          (g2 >>> 0 &&& 0xff) <<< 8 ||| (g3 >>> 0 &&& 0xff))] =
    [s0 ^^^ ((g0 >>> 24) <<< 24 ||| (g1 >>> 24) <<< 16 |||
          (g2 >>> 24) <<< 8 ||| (g3 >>> 24) <<< 0),
     s1 ^^^ ((g0 >>> 16 &&& 0xff) <<< 24 ||| (g1 >>> 16 &&& 0xff) <<< 16 |||
          (g2 >>> 16 &&& 0xff) <<< 8 ||| (g3 >>> 16 &&& 0xff) <<< 0),
     s2 ^^^ ((g0 >>> 8 &&& 0xff) <<< 24 ||| (g1 >>> 8 &&& 0xff) <<< 16 |||
          (g2 >>> 8 &&& 0xff) <<< 8 ||| (g3 >>> 8 &&& 0xff) <<< 0),
     s3 ^^^ ((g0 &&& 0xff) <<< 24 ||| (g1 &&& 0xff) <<< 16 |||
          (g2 &&& 0xff) <<< 8 ||| (g3 &&& 0xff) <<< 0)]
  simp only [Nat.shiftLeft_zero, Nat.shiftRight_zero]
  rw [and255_of_lt (shr24_lt hb0), and255_of_lt (shr24_lt hb1),
    and255_of_lt (shr24_lt hb2), and255_of_lt (shr24_lt hb3)]

theorem slice4_transposeGroups : ∀ (e : List Nat) (i : Nat), i % 4 = 0 →
    i + 4 ≤ e.length → slice4 (transposeGroups e) i = transpose (slice4 e i)
  | a :: b :: c :: d :: rest, 0, _, _ => rfl
  | a :: b :: c :: d :: rest, j + 4, hmod, hlen => by
      have hj : j % 4 = 0 := by omega
      have hl : j + 4 ≤ rest.length := by
        simp only [List.length_cons] at hlen
        omega
      show slice4 (transpose [a, b, c, d] ++ transposeGroups rest) (j + 4) =
        transpose (slice4 (a :: b :: c :: d :: rest) (j + 4))
      rw [show slice4 (transpose [a, b, c, d] ++ transposeGroups rest) (j + 4) =
        slice4 (transposeGroups rest) j from rfl]
      rw [show slice4 (a :: b :: c :: d :: rest) (j + 4) = slice4 rest j from rfl]
      exact slice4_transposeGroups rest j hj hl
  | _, 1, hmod, _ => by simp at hmod
  | _, 2, hmod, _ => by simp at hmod
  | _, 3, hmod, _ => by simp at hmod
  | [], i, _, hlen => by simp at hlen
  | [_], i, _, hlen => by simp at hlen
  | [_, _], i, _, hlen => by simp at hlen
  | [_, _, _], i, _, hlen => by simp at hlen

theorem length_invSubBytes (s : List Nat) : (invSubBytes s).length = s.length := by
  simp [invSubBytes]

theorem length_invShiftRows (s : List Nat) : (invShiftRows s).length = s.length := by
  simp [invShiftRows]

theorem length_invMixColumns (s : List Nat) : (invMixColumns s).length = s.length := by
  unfold invMixColumns manipulateColumns
  rw [length_manipCol, length_manipCol, length_manipCol, length_manipCol]

theorem decryptLoopM_length : ∀ (n : Nat) (s e : List Nat) (keyi : Nat),
    (Matasano.decryptLoop n s e keyi).length = s.length := by
  intro n
  induction n with
  | zero => intro s e keyi; rfl
  | succ m ih =>
    intro s e keyi
    show (Matasano.decryptLoop m _ e _).length = _
    rw [ih, length_invMixColumns, length_addRoundKeyM, length_invSubBytes,
      length_invShiftRows]

theorem encryptLoop_equiv : ∀ (n : Nat) (s e : List Nat) (keyi : Nat), s.length = 4 →
    (∀ w ∈ e, w < 2 ^ 32) → keyi % 4 = 0 → keyi + 4 * n ≤ e.length →
    AES.encryptLoop n s (transposeGroups e) keyi = Matasano.encryptLoop n s e keyi := by
  intro n
  induction n with
  | zero => intro s e keyi _ _ _ _; rfl
  | succ m ih =>
    intro s e keyi hs4 he hmod hlen
    show AES.encryptLoop m (AES.addRoundKey (mixColumns (shiftRows (subBytes s)))
        (slice4 (transposeGroups e) keyi)) (transposeGroups e) (keyi + 4) =
      Matasano.encryptLoop m (Matasano.addRoundKey (mixColumns (shiftRows (subBytes s)))
        (slice4 e keyi)) e (keyi + 4)
    rw [slice4_transposeGroups e keyi hmod (by omega)]
    rw [← addRoundKeyM_eq
      (by rw [length_mixColumns, length_shiftRows, length_subBytes]; exact hs4)
      (slice4_length (by omega)) (slice4_bounds he keyi)]
    exact ih _ e (keyi + 4)
      (by rw [length_addRoundKeyM, length_mixColumns, length_shiftRows, length_subBytes]
          exact hs4)
      he (by omega) (by omega)

theorem decryptLoop_equiv : ∀ (n : Nat) (s e : List Nat) (keyi : Nat), s.length = 4 →
    (∀ w ∈ e, w < 2 ^ 32) → keyi % 4 = 0 → 4 * n ≤ keyi + 4 → keyi + 4 ≤ e.length →
    AES.decryptLoop n s (transposeGroups e) keyi = Matasano.decryptLoop n s e keyi := by
  intro n
  induction n with
  | zero => intro s e keyi _ _ _ _ _; rfl
  | succ m ih =>
    intro s e keyi hs4 he hmod hn hlen
    show AES.decryptLoop m (invMixColumns (AES.addRoundKey (invSubBytes (invShiftRows s))
        (slice4 (transposeGroups e) keyi))) (transposeGroups e) (keyi - 4) =
      Matasano.decryptLoop m (invMixColumns (Matasano.addRoundKey
        (invSubBytes (invShiftRows s)) (slice4 e keyi))) e (keyi - 4)
    rw [slice4_transposeGroups e keyi hmod (by omega)]
    rw [← addRoundKeyM_eq
      (by rw [length_invSubBytes, length_invShiftRows]; exact hs4)
      (slice4_length (by omega)) (slice4_bounds he keyi)]
    exact ih _ e (keyi - 4)
      (by rw [length_invMixColumns, length_addRoundKeyM, length_invSubBytes,
            length_invShiftRows]
          exact hs4)
      he (by omega) (by omega) (by omega)

theorem encrypt_equiv {s me : List Nat} (hs4 : s.length = 4) (hme : me.length = 44)
    (hmeb : ∀ w ∈ me, w < 2 ^ 32) :
    AES.encrypt s (transposeGroups me) = Matasano.encrypt s me := by
  have htl : (transposeGroups me).length = 44 := by rw [transposeGroups_length, hme]
  have eA : AES.encrypt s (transposeGroups me) =
      AES.addRoundKey (shiftRows (subBytes (AES.encryptLoop 9
        (AES.addRoundKey s (slice4 (transposeGroups me) 0)) (transposeGroups me) 4)))
        (slice4 (transposeGroups me) 40) := by
    simp only [AES.encrypt, htl]
  have eM : Matasano.encrypt s me =
      Matasano.addRoundKey (shiftRows (subBytes (Matasano.encryptLoop 9
        (Matasano.addRoundKey s (slice4 me 0)) me 4))) (slice4 me 40) := by
    simp only [Matasano.encrypt, hme]
  rw [eA, eM]
  rw [slice4_transposeGroups me 0 (by omega) (by omega),
    slice4_transposeGroups me 40 (by omega) (by omega)]
  rw [← addRoundKeyM_eq hs4 (slice4_length (by omega)) (slice4_bounds hmeb 0)]
  rw [encryptLoop_equiv 9 _ me 4 (by rw [length_addRoundKeyM]; exact hs4) hmeb
    (by omega) (by omega)]
  rw [← addRoundKeyM_eq
    (by rw [length_shiftRows, length_subBytes, encryptLoopM_length, length_addRoundKeyM]
        exact hs4)
    (slice4_length (by omega)) (slice4_bounds hmeb 40)]

theorem decrypt_equiv {t me : List Nat} (ht4 : t.length = 4) (hme : me.length = 44)
    (hmeb : ∀ w ∈ me, w < 2 ^ 32) :
    AES.decrypt t (transposeGroups me) = Matasano.decrypt t me := by
  have htl : (transposeGroups me).length = 44 := by rw [transposeGroups_length, hme]
  have eA : AES.decrypt t (transposeGroups me) =
      AES.addRoundKey (invSubBytes (invShiftRows (AES.decryptLoop 9
        (AES.addRoundKey t (slice4 (transposeGroups me) 40)) (transposeGroups me) 36)))
        (slice4 (transposeGroups me) 0) := by
    simp only [AES.decrypt, htl]
  have eM : Matasano.decrypt t me =
      Matasano.addRoundKey (invSubBytes (invShiftRows (Matasano.decryptLoop 9
        (Matasano.addRoundKey t (slice4 me 40)) me 36))) (slice4 me 0) := by
    simp only [Matasano.decrypt, hme]
  rw [eA, eM]
  rw [slice4_transposeGroups me 40 (by omega) (by omega),
    slice4_transposeGroups me 0 (by omega) (by omega)]
  rw [← addRoundKeyM_eq ht4 (slice4_length (by omega)) (slice4_bounds hmeb 40)]
  rw [decryptLoop_equiv 9 _ me 36 (by rw [length_addRoundKeyM]; exact ht4) hmeb
    (by omega) (by omega) (by omega)]
  rw [← addRoundKeyM_eq
    (by rw [length_invSubBytes, length_invShiftRows, decryptLoopM_length,
          length_addRoundKeyM]
        exact ht4)
    (slice4_length (by omega)) (slice4_bounds hmeb 0)]

/-- Claim C8: the two AES implementations are equivalent.  For every 16-byte
key and block, the `aes`-package pipeline (`keyExpansion` with the per-group
transpose and plain word-wise `addRoundKey`) and the `matasano`-package
pipeline (`keyExpansion` without the transpose and `addRoundKey` that
transposes the round key on the fly) produce identical encryption and
decryption results on the packed state. -/
theorem c8_pipelines_agree (b key : List Nat) (hb16 : b.length = 16)
    (hbb : allBytes b) (hk16 : key.length = 16) (hkb : allBytes key) :
    AES.encrypt (AES.pack b) (AES.keyExpansion key) =
      Matasano.encrypt (AES.pack b) (Matasano.keyExpansion key) ∧
    AES.decrypt (AES.pack b) (AES.keyExpansion key) =
      Matasano.decrypt (AES.pack b) (Matasano.keyExpansion key) := by
  constructor
  · rw [AES.keyExpansion_eq_transposeGroups]
    exact encrypt_equiv rfl (Matasano.keyExpansion_length key)
      (Matasano.keyExpansion_bounds hkb)
  · rw [AES.keyExpansion_eq_transposeGroups]
    exact decrypt_equiv rfl (Matasano.keyExpansion_length key)
      (Matasano.keyExpansion_bounds hkb)

theorem c8_pipelines_agree_witness :
    AES.encrypt (AES.pack [0x00, 0x11, 0x22, 0x33, 0x44, 0x55, 0x66, 0x77,
        0x88, 0x99, 0xaa, 0xbb, 0xcc, 0xdd, 0xee, 0xff])
      (AES.keyExpansion [0, 1, 2, 3, 4, 5, 6, 7, 8, 9, 10, 11, 12, 13, 14, 15]) =
      Matasano.encrypt (AES.pack [0x00, 0x11, 0x22, 0x33, 0x44, 0x55, 0x66, 0x77,
        0x88, 0x99, 0xaa, 0xbb, 0xcc, 0xdd, 0xee, 0xff])
        (Matasano.keyExpansion [0, 1, 2, 3, 4, 5, 6, 7, 8, 9, 10, 11, 12, 13, 14, 15]) ∧
    AES.decrypt (AES.pack [0x00, 0x11, 0x22, 0x33, 0x44, 0x55, 0x66, 0x77,
        0x88, 0x99, 0xaa, 0xbb, 0xcc, 0xdd, 0xee, 0xff])
      (AES.keyExpansion [0, 1, 2, 3, 4, 5, 6, 7, 8, 9, 10, 11, 12, 13, 14, 15]) =
      Matasano.decrypt (AES.pack [0x00, 0x11, 0x22, 0x33, 0x44, 0x55, 0x66, 0x77,
        0x88, 0x99, 0xaa, 0xbb, 0xcc, 0xdd, 0xee, 0xff])
        (Matasano.keyExpansion [0, 1, 2, 3, 4, 5, 6, 7, 8, 9, 10, 11, 12, 13, 14, 15]) :=
  c8_pipelines_agree _ _ (by decide) (by decide) (by decide) (by decide)
